import Mathlib

/-!
# NXP HSE asynchronous message digest driver (`drivers/crypto/hse/hse-ahash.c`)

A shallow embedding of the request state machine of the HSE hash/HMAC driver:
`hse_ahash_init`, `hse_ahash_update`, `hse_ahash_final`, `hse_ahash_finup`,
`hse_ahash_digest`, `hse_ahash_export`, `hse_ahash_import` and the completion
callback `hse_ahash_done`.

Conventions of the embedding.

* Bytes and machine integers are natural numbers; `unsigned int` arithmetic is
  reduced modulo `2 ^ 32` and stores into `u8` fields modulo `2 ^ 8`.
* Every function returns the new request context, its C return value (where it
  has one) and the list of calls it made into the rest of the kernel
  (`hse_event`), in program order.
* The outcome of every call that can fail (allocation, DMA mapping, channel
  acquisition, descriptor submission) is read from an `hse_env` value, so each
  function is a total, executable function of its inputs.
* The three members of the descriptor union the driver uses (`hash_req`,
  `mac_req`, `ctx_impex_req`) are kept as separate fields; the driver only
  reads back the member it wrote (`hse_ahash_done` reads `access_mode`).
-/

namespace Hse

/-! ## Constants (`hse-abi.h`, `hse-ahash.c`, errno) -/

/-- The constant `HSE_MAX_CTX_SIZE`: maximum streaming context size. -/
def HSE_MAX_CTX_SIZE : Nat := 372

/-- The service identifier `HSE_SRV_ID_IMPORT_EXPORT_STREAM_CTX`. -/
def HSE_SRV_ID_IMPORT_EXPORT_STREAM_CTX : Nat := 0x00A5000A

/-- The service identifier `HSE_SRV_ID_HASH`. -/
def HSE_SRV_ID_HASH : Nat := 0x00A50200

/-- The service identifier `HSE_SRV_ID_MAC`. -/
def HSE_SRV_ID_MAC : Nat := 0x00A50201

/-- Access mode `HSE_ACCESS_MODE_ONE_PASS`. -/
def HSE_ACCESS_MODE_ONE_PASS : Nat := 0

/-- Access mode `HSE_ACCESS_MODE_START`. -/
def HSE_ACCESS_MODE_START : Nat := 1

/-- Access mode `HSE_ACCESS_MODE_UPDATE`. -/
def HSE_ACCESS_MODE_UPDATE : Nat := 2

/-- Access mode `HSE_ACCESS_MODE_FINISH`. -/
def HSE_ACCESS_MODE_FINISH : Nat := 3

/-- Authentication direction `HSE_AUTH_DIR_GENERATE`. -/
def HSE_AUTH_DIR_GENERATE : Nat := 1

/-- MAC algorithm `HSE_MAC_ALGO_HMAC`. -/
def HSE_MAC_ALGO_HMAC : Nat := 0x20

/-- Scatter-gather option `HSE_SGT_OPT_NONE`. -/
def HSE_SGT_OPT_NONE : Nat := 0

/-- Streaming context direction `HSE_IMPORT_STREAMING_CONTEXT`. -/
def HSE_IMPORT_STREAMING_CONTEXT : Nat := 1

/-- Streaming context direction `HSE_EXPORT_STREAMING_CONTEXT`. -/
def HSE_EXPORT_STREAMING_CONTEXT : Nat := 2

/-- The service identifier `HSE_SRV_ID_IMPORT_KEY`. -/
def HSE_SRV_ID_IMPORT_KEY : Nat := 0x00000104

/-- The constant `HSE_INVALID_KEY_HANDLE`. -/
def HSE_INVALID_KEY_HANDLE : Nat := 0xFFFFFFFF

/-- The constant `HSE_KEY_HMAC_MIN_SIZE`: minimum key size admitted for HMAC. -/
def HSE_KEY_HMAC_MIN_SIZE : Nat := 16

/-- Key flag `HSE_KF_USAGE_SIGN` (`BIT(2)`). -/
def HSE_KF_USAGE_SIGN : Nat := 4

/-- Key type `HSE_KEY_TYPE_HMAC`. -/
def HSE_KEY_TYPE_HMAC : Nat := 0x20

/-- The kernel constant `BITS_PER_BYTE`. -/
def BITS_PER_BYTE : Nat := 8

/-- The constant `HSE_AHASH_MAX_BLOCK_SIZE` (`SHA512_BLOCK_SIZE`). -/
def HSE_AHASH_MAX_BLOCK_SIZE : Nat := 128

/-- The constant `HSE_AHASH_MAX_DIGEST_SIZE` (`SHA512_DIGEST_SIZE`). -/
def HSE_AHASH_MAX_DIGEST_SIZE : Nat := 64

/-- Size in bytes of `rctx->outlen` (`sizeof(size_t)` on the 64-bit target). -/
def SIZEOF_OUTLEN : Nat := 8

/-- Error number `EINPROGRESS`. -/
def EINPROGRESS : Int := 115

/-- Error number `ENOMEM`. -/
def ENOMEM : Int := 12

/-- Error number `EINVAL`. -/
def EINVAL : Int := 22

/-- Range of `unsigned int`. -/
def U32_MOD : Nat := 2 ^ 32

/-- Range of `u16`. -/
def U16_MOD : Nat := 2 ^ 16

/-- Range of `u8`. -/
def U8_MOD : Nat := 2 ^ 8

/-- The constants of `hse-core.h` used by the driver. That header is not part of
the sources at hand, so the values are parameters of the embedding. -/
structure hse_core where
  /-- The channel selector meaning: send on any free channel. -/
  HSE_CHANNEL_ANY : Nat
  /-- The channel type asked for by `hse_ahash_init` and `hse_ahash_import`. -/
  HSE_CH_TYPE_STREAM : Nat
deriving DecidableEq, Repr

/-! ## Data model -/

/-- The descriptor member `struct hse_hash_srv`. -/
structure hse_hash_srv where
  access_mode : Nat
  stream_id : Nat
  hash_algo : Nat
  sgt_opt : Nat
  input_len : Nat
  input : Nat
  hash_len : Nat
  hash : Nat
deriving DecidableEq, Repr

/-- The descriptor member `struct hse_mac_srv`; `mac_algo` and `hmac_hash_algo`
are the fields `scheme.mac_algo` and `scheme.hmac.hash_algo`. -/
structure hse_mac_srv where
  access_mode : Nat
  stream_id : Nat
  auth_dir : Nat
  sgt_opt : Nat
  mac_algo : Nat
  hmac_hash_algo : Nat
  key_handle : Nat
  input_len : Nat
  input : Nat
  tag_len : Nat
  tag : Nat
deriving DecidableEq, Repr

/-- The descriptor member `struct hse_ctx_impex_srv`. -/
structure hse_ctx_impex_srv where
  operation : Nat
  stream_id : Nat
  stream_ctx : Nat
deriving DecidableEq, Repr

/-- The descriptor member `struct hse_import_key_srv`; `sym_key` and `sym_keylen`
are the fields `sym.key` and `sym.keylen`. -/
structure hse_import_key_srv where
  key_handle : Nat
  key_info : Nat
  sym_key : Nat
  sym_keylen : Nat
  cipher_key : Nat
  auth_key : Nat
deriving DecidableEq, Repr

/-- Key properties `struct hse_key_info`. -/
structure hse_key_info where
  key_flags : Nat
  key_bit_len : Nat
  key_type : Nat
deriving DecidableEq, Repr

/-- The service descriptor `struct hse_srv_desc`, restricted to the members the
hash driver writes. -/
structure hse_srv_desc where
  srv_id : Nat
  hash_req : hse_hash_srv
  mac_req : hse_mac_srv
  ctx_impex_req : hse_ctx_impex_srv
  import_key_req : hse_import_key_srv
deriving DecidableEq, Repr

/-- The all-zero descriptor left by `memzero_explicit(&srv_desc, sizeof(srv_desc))`. -/
def hse_srv_desc_zero : hse_srv_desc :=
  { srv_id := 0
    hash_req := ⟨0, 0, 0, 0, 0, 0, 0, 0⟩
    mac_req := ⟨0, 0, 0, 0, 0, 0, 0, 0, 0, 0, 0⟩
    ctx_impex_req := ⟨0, 0, 0⟩
    import_key_req := ⟨0, 0, 0, 0, 0, 0⟩ }

/-- Algorithm private data `struct hse_ahash_alg`, together with the block size and
digest size of the registered algorithm (`crypto_ahash_blocksize`,
`crypto_ahash_digestsize`). -/
structure hse_ahash_alg where
  srv_id : Nat
  alg_type : Nat
  blocksize : Nat
  digestsize : Nat
deriving DecidableEq, Repr

/-- Transformation context `struct hse_ahash_tfm_ctx`; `key_slot_handle` is
`key_slot->handle`. -/
structure hse_ahash_tfm_ctx where
  srv_desc : hse_srv_desc
  key_slot_handle : Nat
  keyinf : hse_key_info
  keyinf_dma : Nat
  keylen : Nat
  keylen_dma : Nat
  keybuf : List Nat
  keybuf_dma : Nat
deriving DecidableEq, Repr

/-- Exported request state `struct hse_ahash_state`. -/
structure hse_ahash_state where
  sctx : List Nat
  cache : List Nat
  cache_idx : Nat
  streaming_mode : Bool
deriving DecidableEq, Repr

/-- Request context `struct hse_ahash_req_ctx`. The pointer `buf` is kept together
with the contents `buf_mem` of the allocation it points to. -/
structure hse_ahash_req_ctx where
  srv_desc : hse_srv_desc
  streaming_mode : Bool
  access_mode : Nat
  channel : Nat
  stream : Nat
  cache : List Nat
  cache_idx : Nat
  buf : Nat
  buf_mem : List Nat
  buf_dma : Nat
  buflen : Nat
  outlen : Nat
  outlen_dma : Nat
  result : List Nat
  result_dma : Nat
deriving DecidableEq, Repr

/-- Value returned by `dma_map_single` and the verdict of `dma_mapping_error` on it. -/
structure dma_ret where
  addr : Nat
  error : Bool
deriving DecidableEq, Repr

/-- Outcomes of the calls a driver entry point makes into the rest of the kernel. -/
structure hse_env where
  /-- Pointer returned by `kzalloc` for the linear buffer (`none`: `NULL`). -/
  kzalloc_buf : Option Nat
  /-- Whether `kzalloc`/`kmemdup` of the state buffer succeeds. -/
  kzalloc_state : Bool
  /-- Mapping of the result buffer. -/
  dma_map_result : dma_ret
  /-- Mapping of the result length. -/
  dma_map_outlen : dma_ret
  /-- Mapping of the linear buffer. -/
  dma_map_buf : dma_ret
  /-- Mapping of the streaming context. -/
  dma_map_sctx : dma_ret
  /-- Return value of `hse_channel_acquire`. -/
  acquire_err : Int
  /-- Channel written by `hse_channel_acquire`. -/
  acquire_channel : Nat
  /-- Stream slot written by `hse_channel_acquire`. -/
  acquire_stream : Nat
  /-- Return value of `hse_srv_req_async`. -/
  srv_req_async : Int
  /-- Return value of `hse_srv_req_sync`. -/
  srv_req_sync : Int
  /-- Bytes found in the streaming context buffer after an export exchange. -/
  exported_sctx : List Nat
deriving DecidableEq, Repr

/-- Calls made by the driver, in program order. -/
inductive hse_event where
  /-- A successful `hse_channel_acquire(dev, type, &channel, &stream)`. -/
  | channel_acquire (type channel stream : Nat)
  /-- A call `hse_channel_release(dev, channel)`. -/
  | channel_release (channel : Nat)
  /-- A call `hse_srv_req_async(dev, channel, desc, req, hse_ahash_done)`: the
  descriptor, the bytes of the input buffer it points to, and the return value. -/
  | srv_req_async (channel : Nat) (desc : hse_srv_desc) (input : List Nat) (ret : Int)
  /-- A call `hse_srv_req_sync(dev, channel, desc)`: the descriptor, the bytes of
  the buffer it points to (streaming context, key to hash, or key material), and
  the return value. -/
  | srv_req_sync (channel : Nat) (desc : hse_srv_desc) (ctx : List Nat) (ret : Int)
  /-- A successful `kzalloc` of the linear buffer. -/
  | kzalloc (ptr size : Nat)
  /-- A call `kfree(ptr)` on the linear buffer pointer. -/
  | kfree (ptr : Nat)
  /-- A successful `dma_map_single`. -/
  | dma_map_single (dma len : Nat)
  /-- A call `dma_unmap_single(dev, dma, len, dir)`. -/
  | dma_unmap_single (dma len : Nat)
  /-- A call `ahash_request_complete(req, err)`. -/
  | request_complete (err : Int)
deriving DecidableEq, Repr

/-! ## Memory helpers -/

/-- The call `memcpy(dst + off, src, n)` on byte arrays held as lists. -/
def memcpy (dst : List Nat) (off : Nat) (src : List Nat) (n : Nat) : List Nat :=
  dst.take off ++ src.take n ++ dst.drop (off + n)

/-- The call `scatterwalk_map_and_copy(dst + off, sg, start, n, 0)`: copy `n` bytes
of the scatterlist contents `sg`, from offset `start`, to `dst + off`. -/
def scatterwalk_map_and_copy (dst : List Nat) (off : Nat) (sg : List Nat)
    (start n : Nat) : List Nat :=
  memcpy dst off (sg.drop start) n

/-- The kernel helper `rounddown(x, y)`. -/
def rounddown (x y : Nat) : Nat := x - x % y

/-- Subtraction of `unsigned int` values. -/
def u32_sub (a b : Nat) : Nat := (a + U32_MOD - b % U32_MOD) % U32_MOD

/-- The access mode stored in the descriptor member selected by `alg->srv_id`, as
read at the top of `hse_ahash_done`. -/
def desc_access_mode (alg : hse_ahash_alg) (d : hse_srv_desc) : Nat :=
  if alg.srv_id = HSE_SRV_ID_HASH then d.hash_req.access_mode else d.mac_req.access_mode

/-! ## The driver -/

/-- The completion callback `hse_ahash_done(err, req)`. The second component is the
digest copied to `req->result`, when the callback copies one. -/
def hse_ahash_done (alg : hse_ahash_alg) (err : Int) (rctx : hse_ahash_req_ctx) :
    hse_ahash_req_ctx × Option (List Nat) × List hse_event :=
  let access_mode := desc_access_mode alg rctx.srv_desc
  if err ≠ 0 then
    let ev_release :=
      if access_mode = HSE_ACCESS_MODE_FINISH then [hse_event.channel_release rctx.channel]
      else []
    let ev_out :=
      if access_mode = HSE_ACCESS_MODE_FINISH ∨ access_mode = HSE_ACCESS_MODE_ONE_PASS then
        [hse_event.dma_unmap_single rctx.outlen_dma SIZEOF_OUTLEN,
         hse_event.dma_unmap_single rctx.result_dma rctx.outlen]
      else []
    ({ rctx with buflen := 0 }, none,
      ev_release ++ ev_out ++
        [hse_event.dma_unmap_single rctx.buf_dma rctx.buflen, hse_event.kfree rctx.buf,
         hse_event.request_complete err])
  else if access_mode = HSE_ACCESS_MODE_START then
    ({ rctx with streaming_mode := true }, none, [hse_event.request_complete 0])
  else if access_mode = HSE_ACCESS_MODE_FINISH ∨ access_mode = HSE_ACCESS_MODE_ONE_PASS then
    let ev_release :=
      if access_mode = HSE_ACCESS_MODE_FINISH then [hse_event.channel_release rctx.channel]
      else []
    ({ rctx with buflen := 0 }, some (rctx.result.take alg.digestsize),
      ev_release ++
        [hse_event.dma_unmap_single rctx.buf_dma rctx.buflen, hse_event.kfree rctx.buf,
         hse_event.dma_unmap_single rctx.outlen_dma SIZEOF_OUTLEN,
         hse_event.dma_unmap_single rctx.result_dma rctx.outlen,
         hse_event.request_complete 0])
  else
    (rctx, none, [hse_event.request_complete 0])

/-- The entry point `hse_ahash_init(req)`. -/
def hse_ahash_init (core : hse_core) (env : hse_env) (rctx : hse_ahash_req_ctx) :
    hse_ahash_req_ctx × Int × List hse_event :=
  let rctx := { rctx with buflen := 0, cache_idx := 0, streaming_mode := false,
                          srv_desc := hse_srv_desc_zero }
  let rctx := { rctx with channel := env.acquire_channel, stream := env.acquire_stream }
  (rctx, env.acquire_err,
    if env.acquire_err = 0 then
      [hse_event.channel_acquire core.HSE_CH_TYPE_STREAM rctx.channel rctx.stream]
    else [])

/-- The error exit `err_release_channel` shared by `hse_ahash_update`,
`hse_ahash_finup` and `hse_ahash_export`: release the channel, unmap and free
the linear buffer when `buflen` is non-zero, and clear `buflen`. -/
def release_channel_and_buf (rctx : hse_ahash_req_ctx) :
    hse_ahash_req_ctx × List hse_event :=
  ({ rctx with buflen := 0 },
    [hse_event.channel_release rctx.channel] ++
      (if rctx.buflen ≠ 0 then
        [hse_event.dma_unmap_single rctx.buf_dma rctx.buflen, hse_event.kfree rctx.buf]
       else []))

/-- The descriptor written by `hse_ahash_update` (the `switch (alg->srv_id)`). -/
def update_desc (alg : hse_ahash_alg) (tctx : hse_ahash_tfm_ctx)
    (rctx : hse_ahash_req_ctx) (full_blocks : Nat) : hse_srv_desc :=
  let d := { rctx.srv_desc with srv_id := alg.srv_id }
  let mode := if rctx.streaming_mode then HSE_ACCESS_MODE_UPDATE else HSE_ACCESS_MODE_START
  if alg.srv_id = HSE_SRV_ID_HASH then
    { d with hash_req :=
        { d.hash_req with
          access_mode := mode
          stream_id := rctx.stream
          hash_algo := alg.alg_type
          sgt_opt := HSE_SGT_OPT_NONE
          input_len := full_blocks
          input := rctx.buf_dma } }
  else if alg.srv_id = HSE_SRV_ID_MAC then
    { d with mac_req :=
        { d.mac_req with
          access_mode := mode
          stream_id := rctx.stream
          auth_dir := HSE_AUTH_DIR_GENERATE
          mac_algo := HSE_MAC_ALGO_HMAC
          hmac_hash_algo := alg.alg_type
          key_handle := tctx.key_slot_handle
          sgt_opt := HSE_SGT_OPT_NONE
          input_len := full_blocks
          input := rctx.buf_dma } }
  else d

/-- The second half of `hse_ahash_update`, from the comment
`copy full blocks to dynamic buffer` on: fill the linear buffer, build and
submit the descriptor, move the residue to the cache. -/
def update_submit (env : hse_env) (alg : hse_ahash_alg) (tctx : hse_ahash_tfm_ctx)
    (rctx : hse_ahash_req_ctx) (data : List Nat) (bytes_left full_blocks : Nat)
    (ev : List hse_event) : hse_ahash_req_ctx × Int × List hse_event :=
  let mem := memcpy rctx.buf_mem 0 rctx.cache rctx.cache_idx
  let mem := scatterwalk_map_and_copy mem rctx.cache_idx data 0
    (u32_sub full_blocks rctx.cache_idx)
  let rctx := { rctx with buf_mem := mem }
  let bytes_left := u32_sub bytes_left full_blocks
  let rctx := { rctx with srv_desc := update_desc alg tctx rctx full_blocks }
  let err := env.srv_req_async
  let ev := ev ++ [hse_event.srv_req_async rctx.channel rctx.srv_desc
    (rctx.buf_mem.take full_blocks) err]
  if err ≠ 0 then
    let r := release_channel_and_buf rctx
    (r.1, err, ev ++ r.2)
  else
    let cache := scatterwalk_map_and_copy rctx.cache 0 data
      (u32_sub full_blocks rctx.cache_idx) bytes_left
    ({ rctx with cache := cache, cache_idx := bytes_left % U8_MOD }, -EINPROGRESS, ev)

/-- The entry point `hse_ahash_update(req)`; `data` is the contents of `req->src`
and `req->nbytes` its length. -/
def hse_ahash_update (env : hse_env) (alg : hse_ahash_alg) (tctx : hse_ahash_tfm_ctx)
    (rctx : hse_ahash_req_ctx) (data : List Nat) :
    hse_ahash_req_ctx × Int × List hse_event :=
  let nbytes := data.length
  if nbytes = 0 then (rctx, 0, [])
  else
    let bytes_left := (rctx.cache_idx + nbytes) % U32_MOD
    if bytes_left ≤ alg.blocksize then
      ({ rctx with
          cache := scatterwalk_map_and_copy rctx.cache rctx.cache_idx data 0 nbytes
          cache_idx := bytes_left % U8_MOD }, 0, [])
    else
      let full_blocks := rounddown bytes_left alg.blocksize
      if rctx.buflen < full_blocks then
        let ev :=
          if rctx.buflen ≠ 0 then
            [hse_event.dma_unmap_single rctx.buf_dma rctx.buflen, hse_event.kfree rctx.buf]
          else []
        let rctx := { rctx with buflen := 0 }
        match env.kzalloc_buf with
        | none =>
          let r := release_channel_and_buf { rctx with buf := 0 }
          (r.1, -ENOMEM, ev ++ r.2)
        | some p =>
          let rctx := { rctx with buf := p, buf_mem := List.replicate full_blocks 0 }
          let ev := ev ++ [hse_event.kzalloc p full_blocks]
          let rctx := { rctx with buf_dma := env.dma_map_buf.addr }
          if env.dma_map_buf.error then
            let r := release_channel_and_buf rctx
            (r.1, -ENOMEM, ev ++ r.2)
          else
            let ev := ev ++ [hse_event.dma_map_single rctx.buf_dma full_blocks]
            let rctx := { rctx with buflen := full_blocks }
            update_submit env alg tctx rctx data bytes_left full_blocks ev
      else
        update_submit env alg tctx rctx data bytes_left full_blocks []

/-- The descriptor written by `hse_ahash_final` and `hse_ahash_finup` (the
`switch (alg->srv_id)` of either function), for the input length `input_len`. -/
def finish_desc (alg : hse_ahash_alg) (tctx : hse_ahash_tfm_ctx)
    (rctx : hse_ahash_req_ctx) (input_len : Nat) : hse_srv_desc :=
  let d := { rctx.srv_desc with srv_id := alg.srv_id }
  let mode := if rctx.streaming_mode then HSE_ACCESS_MODE_FINISH else HSE_ACCESS_MODE_ONE_PASS
  if alg.srv_id = HSE_SRV_ID_HASH then
    { d with hash_req :=
        { d.hash_req with
          hash_algo := alg.alg_type
          access_mode := mode
          stream_id := rctx.stream
          sgt_opt := HSE_SGT_OPT_NONE
          input_len := input_len
          input := rctx.buf_dma
          hash_len := rctx.outlen_dma
          hash := rctx.result_dma } }
  else if alg.srv_id = HSE_SRV_ID_MAC then
    { d with mac_req :=
        { d.mac_req with
          access_mode := mode
          stream_id := rctx.stream
          auth_dir := HSE_AUTH_DIR_GENERATE
          mac_algo := HSE_MAC_ALGO_HMAC
          hmac_hash_algo := alg.alg_type
          key_handle := tctx.key_slot_handle
          sgt_opt := HSE_SGT_OPT_NONE
          input_len := input_len
          input := rctx.buf_dma
          tag_len := rctx.outlen_dma
          tag := rctx.result_dma } }
  else d

/-- The error exits of `hse_ahash_final`, entered at `err_unmap_outlen` (level 2),
`err_unmap_result` (level 1) or `err_release_channel` (level 0). -/
def final_err (rctx : hse_ahash_req_ctx) (level : Nat) (err : Int)
    (ev : List hse_event) : hse_ahash_req_ctx × Int × List hse_event :=
  ({ rctx with buflen := 0 }, err,
    ev ++
      (if 2 ≤ level then [hse_event.dma_unmap_single rctx.outlen_dma SIZEOF_OUTLEN] else []) ++
      (if 1 ≤ level then [hse_event.dma_unmap_single rctx.result_dma rctx.outlen] else []) ++
      [hse_event.channel_release rctx.channel,
       hse_event.dma_unmap_single rctx.buf_dma rctx.buflen,
       hse_event.kfree rctx.buf])

/-- The second half of `hse_ahash_final`, from `if (rctx->cache_idx)` on. -/
def final_submit (core : hse_core) (env : hse_env) (alg : hse_ahash_alg)
    (tctx : hse_ahash_tfm_ctx) (rctx : hse_ahash_req_ctx) (ev : List hse_event) :
    hse_ahash_req_ctx × Int × List hse_event :=
  let rctx :=
    if rctx.cache_idx ≠ 0 then
      { rctx with buf_mem := memcpy rctx.buf_mem 0 rctx.cache rctx.cache_idx }
    else rctx
  let ev := ev ++ (if rctx.streaming_mode then [] else [hse_event.channel_release rctx.channel])
  let rctx := if rctx.streaming_mode then rctx else { rctx with channel := core.HSE_CHANNEL_ANY }
  let rctx := { rctx with srv_desc := finish_desc alg tctx rctx rctx.cache_idx }
  let err := env.srv_req_async
  let ev := ev ++ [hse_event.srv_req_async rctx.channel rctx.srv_desc
    (rctx.buf_mem.take rctx.cache_idx) err]
  if err ≠ 0 then final_err rctx 2 err ev
  else (rctx, -EINPROGRESS, ev)

/-- The entry point `hse_ahash_final(req)`. -/
def hse_ahash_final (core : hse_core) (env : hse_env) (alg : hse_ahash_alg)
    (tctx : hse_ahash_tfm_ctx) (rctx : hse_ahash_req_ctx) :
    hse_ahash_req_ctx × Int × List hse_event :=
  let rctx := { rctx with outlen := alg.digestsize }
  let rctx := { rctx with result_dma := env.dma_map_result.addr }
  if env.dma_map_result.error then final_err rctx 0 (-ENOMEM) []
  else
    let ev := [hse_event.dma_map_single rctx.result_dma rctx.outlen]
    let rctx := { rctx with outlen_dma := env.dma_map_outlen.addr }
    if env.dma_map_outlen.error then final_err rctx 1 (-ENOMEM) ev
    else
      let ev := ev ++ [hse_event.dma_map_single rctx.outlen_dma SIZEOF_OUTLEN]
      if rctx.buflen = 0 then
        let rctx := { rctx with buflen := max rctx.cache_idx alg.blocksize }
        match env.kzalloc_buf with
        | none => final_err { rctx with buf := 0 } 2 (-ENOMEM) ev
        | some p =>
          let rctx := { rctx with buf := p, buf_mem := List.replicate rctx.buflen 0 }
          let ev := ev ++ [hse_event.kzalloc p rctx.buflen]
          let rctx := { rctx with buf_dma := env.dma_map_buf.addr }
          if env.dma_map_buf.error then final_err rctx 2 (-ENOMEM) ev
          else
            final_submit core env alg tctx rctx
              (ev ++ [hse_event.dma_map_single rctx.buf_dma rctx.buflen])
      else final_submit core env alg tctx rctx ev

/-- The error exits of `hse_ahash_finup`, entered at `err_unmap_outlen` (level 2),
`err_unmap_result` (level 1) or `err_release_channel` (level 0). -/
def finup_err (rctx : hse_ahash_req_ctx) (level : Nat) (err : Int)
    (ev : List hse_event) : hse_ahash_req_ctx × Int × List hse_event :=
  let r := release_channel_and_buf rctx
  (r.1, err,
    ev ++
      (if 2 ≤ level then [hse_event.dma_unmap_single rctx.outlen_dma SIZEOF_OUTLEN] else []) ++
      (if 1 ≤ level then [hse_event.dma_unmap_single rctx.result_dma rctx.outlen] else []) ++
      r.2)

/-- The second half of `hse_ahash_finup`, from the comment
`copy remaining data to buffer` on. -/
def finup_submit (core : hse_core) (env : hse_env) (alg : hse_ahash_alg)
    (tctx : hse_ahash_tfm_ctx) (rctx : hse_ahash_req_ctx) (data : List Nat)
    (bytes_left : Nat) (ev : List hse_event) :
    hse_ahash_req_ctx × Int × List hse_event :=
  let mem := memcpy rctx.buf_mem 0 rctx.cache rctx.cache_idx
  let mem := scatterwalk_map_and_copy mem rctx.cache_idx data 0 data.length
  let rctx := { rctx with buf_mem := mem }
  let ev := ev ++ (if rctx.streaming_mode then [] else [hse_event.channel_release rctx.channel])
  let rctx := if rctx.streaming_mode then rctx else { rctx with channel := core.HSE_CHANNEL_ANY }
  let rctx := { rctx with srv_desc := finish_desc alg tctx rctx bytes_left }
  let err := env.srv_req_async
  let ev := ev ++ [hse_event.srv_req_async rctx.channel rctx.srv_desc
    (rctx.buf_mem.take bytes_left) err]
  if err ≠ 0 then finup_err rctx 2 err ev
  else (rctx, -EINPROGRESS, ev)

/-- The entry point `hse_ahash_finup(req)`; `data` is the contents of `req->src`
and `req->nbytes` its length. -/
def hse_ahash_finup (core : hse_core) (env : hse_env) (alg : hse_ahash_alg)
    (tctx : hse_ahash_tfm_ctx) (rctx : hse_ahash_req_ctx) (data : List Nat) :
    hse_ahash_req_ctx × Int × List hse_event :=
  let rctx := { rctx with outlen := alg.digestsize }
  let rctx := { rctx with result_dma := env.dma_map_result.addr }
  if env.dma_map_result.error then finup_err rctx 0 (-ENOMEM) []
  else
    let ev := [hse_event.dma_map_single rctx.result_dma rctx.outlen]
    let rctx := { rctx with outlen_dma := env.dma_map_outlen.addr }
    if env.dma_map_outlen.error then finup_err rctx 1 (-ENOMEM) ev
    else
      let ev := ev ++ [hse_event.dma_map_single rctx.outlen_dma SIZEOF_OUTLEN]
      let bytes_left := (rctx.cache_idx + data.length) % U32_MOD
      if rctx.buflen < bytes_left ∨ rctx.buflen = 0 then
        let ev := ev ++
          (if rctx.buflen ≠ 0 then
            [hse_event.dma_unmap_single rctx.buf_dma rctx.buflen, hse_event.kfree rctx.buf]
           else [])
        let rctx := { rctx with buflen := max bytes_left alg.blocksize }
        match env.kzalloc_buf with
        | none => finup_err { rctx with buf := 0 } 2 (-ENOMEM) ev
        | some p =>
          let rctx := { rctx with buf := p, buf_mem := List.replicate rctx.buflen 0 }
          let ev := ev ++ [hse_event.kzalloc p rctx.buflen]
          let rctx := { rctx with buf_dma := env.dma_map_buf.addr }
          if env.dma_map_buf.error then finup_err rctx 2 (-ENOMEM) ev
          else
            finup_submit core env alg tctx rctx data bytes_left
              (ev ++ [hse_event.dma_map_single rctx.buf_dma rctx.buflen])
      else finup_submit core env alg tctx rctx data bytes_left ev

/-- The descriptor written by `hse_ahash_digest` after `memzero_explicit`. -/
def digest_desc (alg : hse_ahash_alg) (tctx : hse_ahash_tfm_ctx)
    (rctx : hse_ahash_req_ctx) (nbytes : Nat) : hse_srv_desc :=
  let d := { hse_srv_desc_zero with srv_id := alg.srv_id }
  if alg.srv_id = HSE_SRV_ID_HASH then
    { d with hash_req :=
        { d.hash_req with
          access_mode := HSE_ACCESS_MODE_ONE_PASS
          hash_algo := alg.alg_type
          sgt_opt := HSE_SGT_OPT_NONE
          input_len := nbytes
          input := rctx.buf_dma
          hash_len := rctx.outlen_dma
          hash := rctx.result_dma } }
  else if alg.srv_id = HSE_SRV_ID_MAC then
    { d with mac_req :=
        { d.mac_req with
          access_mode := HSE_ACCESS_MODE_ONE_PASS
          auth_dir := HSE_AUTH_DIR_GENERATE
          mac_algo := HSE_MAC_ALGO_HMAC
          hmac_hash_algo := alg.alg_type
          key_handle := tctx.key_slot_handle
          sgt_opt := HSE_SGT_OPT_NONE
          input_len := nbytes
          input := rctx.buf_dma
          tag_len := rctx.outlen_dma
          tag := rctx.result_dma } }
  else d

/-- The entry point `hse_ahash_digest(req)`; `data` is the contents of `req->src`
and `req->nbytes` its length. -/
def hse_ahash_digest (core : hse_core) (env : hse_env) (alg : hse_ahash_alg)
    (tctx : hse_ahash_tfm_ctx) (rctx : hse_ahash_req_ctx) (data : List Nat) :
    hse_ahash_req_ctx × Int × List hse_event :=
  let nbytes := data.length
  let rctx := { rctx with outlen := alg.digestsize }
  let rctx := { rctx with result_dma := env.dma_map_result.addr }
  if env.dma_map_result.error then (rctx, -ENOMEM, [])
  else
    let ev := [hse_event.dma_map_single rctx.result_dma rctx.outlen]
    let rctx := { rctx with outlen_dma := env.dma_map_outlen.addr }
    let unmap_result := [hse_event.dma_unmap_single rctx.result_dma rctx.outlen]
    if env.dma_map_outlen.error then (rctx, -ENOMEM, ev ++ unmap_result)
    else
      let ev := ev ++ [hse_event.dma_map_single rctx.outlen_dma SIZEOF_OUTLEN]
      let unmap_outlen := [hse_event.dma_unmap_single rctx.outlen_dma SIZEOF_OUTLEN]
      let rctx := { rctx with buflen := max nbytes alg.blocksize }
      match env.kzalloc_buf with
      | none => ({ rctx with buf := 0 }, -ENOMEM, ev ++ unmap_outlen ++ unmap_result)
      | some p =>
        let rctx := { rctx with buf := p, buf_mem := List.replicate rctx.buflen 0 }
        let ev := ev ++ [hse_event.kzalloc p rctx.buflen]
        let rctx := { rctx with buf_dma := env.dma_map_buf.addr }
        if env.dma_map_buf.error then
          ({ rctx with buflen := 0 }, -ENOMEM,
            ev ++ [hse_event.kfree rctx.buf] ++ unmap_outlen ++ unmap_result)
        else
          let ev := ev ++ [hse_event.dma_map_single rctx.buf_dma rctx.buflen]
          let rctx := { rctx with
            buf_mem := scatterwalk_map_and_copy rctx.buf_mem 0 data 0 nbytes }
          let rctx := { rctx with srv_desc := digest_desc alg tctx rctx nbytes }
          let err := env.srv_req_async
          let ev := ev ++ [hse_event.srv_req_async core.HSE_CHANNEL_ANY rctx.srv_desc
            (rctx.buf_mem.take nbytes) err]
          if err ≠ 0 then
            ({ rctx with buflen := 0 }, err,
              ev ++ [hse_event.dma_unmap_single rctx.buf_dma rctx.buflen,
                     hse_event.kfree rctx.buf] ++ unmap_outlen ++ unmap_result)
          else (rctx, -EINPROGRESS, ev)

/-- The entry point `hse_ahash_export(req, out)`. `out_valid` tells whether `out`
is a non-null pointer; the second component is the state copied to `out`, when
one is copied. The temporary state buffer is allocated and freed inside the
call, and its allocation is not recorded as an event. -/
def hse_ahash_export (env : hse_env) (rctx : hse_ahash_req_ctx) (out_valid : Bool) :
    hse_ahash_req_ctx × Option hse_ahash_state × Int × List hse_event :=
  if !out_valid then
    let r := release_channel_and_buf rctx
    (r.1, none, -EINVAL, r.2)
  else if !env.kzalloc_state then
    let r := release_channel_and_buf rctx
    (r.1, none, -ENOMEM, r.2)
  else
    let state : hse_ahash_state :=
      { sctx := List.replicate HSE_MAX_CTX_SIZE 0
        cache := memcpy (List.replicate HSE_AHASH_MAX_BLOCK_SIZE 0) 0 rctx.cache rctx.cache_idx
        cache_idx := rctx.cache_idx
        streaming_mode := rctx.streaming_mode }
    if !state.streaming_mode then
      let r := release_channel_and_buf rctx
      (r.1, some state, 0, r.2)
    else if env.dma_map_sctx.error then
      let r := release_channel_and_buf rctx
      (r.1, some state, -ENOMEM, r.2)
    else
      let sctx_dma := env.dma_map_sctx.addr
      let ev := [hse_event.dma_map_single sctx_dma HSE_MAX_CTX_SIZE]
      let d := { rctx.srv_desc with srv_id := HSE_SRV_ID_IMPORT_EXPORT_STREAM_CTX }
      let d := { d with ctx_impex_req :=
        { d.ctx_impex_req with
          operation := HSE_EXPORT_STREAMING_CONTEXT
          stream_id := rctx.stream
          stream_ctx := sctx_dma } }
      let rctx := { rctx with srv_desc := d }
      let err := env.srv_req_sync
      let state := { state with sctx := env.exported_sctx }
      let ev := ev ++ [hse_event.srv_req_sync rctx.channel rctx.srv_desc state.sctx err,
        hse_event.dma_unmap_single sctx_dma HSE_MAX_CTX_SIZE]
      let r := release_channel_and_buf rctx
      (r.1, some state, err, ev ++ r.2)

/-- The entry point `hse_ahash_import(req, in)`; `state` is the state `in` points
to (`none`: a null pointer). The temporary copy of the state is allocated and
freed inside the call, and its allocation is not recorded as an event. -/
def hse_ahash_import (core : hse_core) (env : hse_env) (rctx : hse_ahash_req_ctx)
    (state : Option hse_ahash_state) : hse_ahash_req_ctx × Int × List hse_event :=
  match state with
  | none => (rctx, -EINVAL, [])
  | some state =>
    if !env.kzalloc_state then (rctx, -ENOMEM, [])
    else
      let rctx := { rctx with
        cache := memcpy rctx.cache 0 state.cache state.cache_idx
        cache_idx := state.cache_idx
        streaming_mode := state.streaming_mode }
      let rctx := { rctx with channel := env.acquire_channel, stream := env.acquire_stream }
      if env.acquire_err ≠ 0 then (rctx, env.acquire_err, [])
      else
        let ev := [hse_event.channel_acquire core.HSE_CH_TYPE_STREAM rctx.channel rctx.stream]
        let rctx := { rctx with buflen := 0 }
        if !state.streaming_mode then (rctx, 0, ev)
        else if env.dma_map_sctx.error then
          (rctx, -ENOMEM, ev ++ [hse_event.channel_release rctx.channel])
        else
          let sctx_dma := env.dma_map_sctx.addr
          let ev := ev ++ [hse_event.dma_map_single sctx_dma HSE_MAX_CTX_SIZE]
          let d := { hse_srv_desc_zero with srv_id := HSE_SRV_ID_IMPORT_EXPORT_STREAM_CTX }
          let d := { d with ctx_impex_req :=
            { d.ctx_impex_req with
              operation := HSE_IMPORT_STREAMING_CONTEXT
              stream_id := rctx.stream
              stream_ctx := sctx_dma } }
          let rctx := { rctx with srv_desc := d }
          let err := env.srv_req_sync
          let ev := ev ++ [hse_event.srv_req_sync rctx.channel rctx.srv_desc state.sctx err,
            hse_event.dma_unmap_single sctx_dma HSE_MAX_CTX_SIZE]
          if err ≠ 0 then (rctx, err, ev ++ [hse_event.channel_release rctx.channel])
          else (rctx, 0, ev)

/-- Outcomes of the calls `hse_ahash_setkey` makes into the rest of the kernel. -/
structure hse_setkey_env where
  /-- Whether `kmemdup` of an over-long key succeeds. -/
  kmemdup_key : Bool
  /-- Mapping of the copy of the key. -/
  dma_map_key : dma_ret
  /-- Return value of the exchange that hashes an over-long key. -/
  sync_hash : Int
  /-- Digest of the key computed by the co-processor in that exchange. -/
  key_digest : List Nat
  /-- Return value of the key import exchange. -/
  sync_import : Int
deriving DecidableEq, Repr

/-- The descriptor `hse_ahash_setkey` builds to shorten an over-long key. -/
def setkey_hash_desc (alg : hse_ahash_alg) (tctx : hse_ahash_tfm_ctx)
    (keylen tmp_keybuf_dma : Nat) : hse_srv_desc :=
  let d := { hse_srv_desc_zero with srv_id := HSE_SRV_ID_HASH }
  { d with hash_req :=
      { d.hash_req with
        access_mode := HSE_ACCESS_MODE_ONE_PASS
        hash_algo := alg.alg_type
        sgt_opt := HSE_SGT_OPT_NONE
        input_len := keylen
        input := tmp_keybuf_dma
        hash_len := tctx.keylen_dma
        hash := tctx.keybuf_dma } }

/-- The key import descriptor built at the end of `hse_ahash_setkey`. -/
def setkey_import_desc (tctx : hse_ahash_tfm_ctx) : hse_srv_desc :=
  let d := { hse_srv_desc_zero with srv_id := HSE_SRV_ID_IMPORT_KEY }
  { d with import_key_req :=
      { d.import_key_req with
        key_handle := tctx.key_slot_handle
        key_info := tctx.keyinf_dma
        sym_key := tctx.keybuf_dma
        sym_keylen := tctx.keylen % U16_MOD
        cipher_key := HSE_INVALID_KEY_HANDLE
        auth_key := HSE_INVALID_KEY_HANDLE } }

/-- Modelled from the spec: the result write-back documented for `hash_len` in
`hse-abi.h`, for the exchange that hashes a key. The digest is stored in
`keybuf`, truncated to the capacity found in `keylen`, and `keylen` receives the
length stored. -/
def fw_write_key (tctx : hse_ahash_tfm_ctx) (digest : List Nat) : hse_ahash_tfm_ctx :=
  let n := min tctx.keylen digest.length
  { tctx with keybuf := memcpy tctx.keybuf 0 digest n, keylen := n }

/-- The tail of `hse_ahash_setkey`, from `memzero_explicit(&tctx->keyinf, ...)` on:
fill the key information and import the stored key. -/
def setkey_import (core : hse_core) (env : hse_setkey_env) (tctx : hse_ahash_tfm_ctx)
    (ev : List hse_event) : hse_ahash_tfm_ctx × Int × List hse_event :=
  let tctx := { tctx with keyinf :=
    { key_flags := HSE_KF_USAGE_SIGN
      key_bit_len := (tctx.keylen * BITS_PER_BYTE) % U16_MOD
      key_type := HSE_KEY_TYPE_HMAC } }
  let tctx := { tctx with srv_desc := setkey_import_desc tctx }
  let err := env.sync_import
  (tctx, err,
    ev ++ [hse_event.srv_req_sync core.HSE_CHANNEL_ANY tctx.srv_desc
      (tctx.keybuf.take tctx.keylen) err])

/-- The entry point `hse_ahash_setkey(tfm, key, keylen)`; `key` holds the `keylen`
bytes of the key. When the exchange that hashes an over-long key succeeds, the
co-processor has written the digest of the key to `keybuf` and its length to
`keylen`. The temporary copy of an over-long key is allocated and freed inside
the call, and its allocation is not recorded as an event. -/
def hse_ahash_setkey (core : hse_core) (env : hse_setkey_env) (alg : hse_ahash_alg)
    (tctx : hse_ahash_tfm_ctx) (key : List Nat) :
    hse_ahash_tfm_ctx × Int × List hse_event :=
  let keylen := key.length
  if keylen = tctx.keylen ∧ key = tctx.keybuf.take keylen then (tctx, 0, [])
  else if keylen > alg.blocksize then
    if !env.kmemdup_key then (tctx, -ENOMEM, [])
    else if env.dma_map_key.error then (tctx, -ENOMEM, [])
    else
      let tmp_keybuf_dma := env.dma_map_key.addr
      let ev := [hse_event.dma_map_single tmp_keybuf_dma keylen]
      let tctx := { tctx with keylen := alg.digestsize }
      let tctx := { tctx with srv_desc := setkey_hash_desc alg tctx keylen tmp_keybuf_dma }
      let err := env.sync_hash
      let ev := ev ++ [hse_event.srv_req_sync core.HSE_CHANNEL_ANY tctx.srv_desc key err,
        hse_event.dma_unmap_single tmp_keybuf_dma keylen]
      let tctx := if err = 0 then fw_write_key tctx env.key_digest else tctx
      let tctx := { tctx with srv_desc := hse_srv_desc_zero }
      if err ≠ 0 then (tctx, err, ev)
      else setkey_import core env tctx ev
  else
    let keybuf := memcpy tctx.keybuf 0 key keylen
    let stored := max HSE_KEY_HMAC_MIN_SIZE keylen
    let keybuf := memcpy keybuf keylen (List.replicate (stored - keylen) 0) (stored - keylen)
    setkey_import core env { tctx with keybuf := keybuf, keylen := stored } []

/-! ## The co-processor and complete request sequences -/

/-- Modelled from the spec: the co-processor firmware is not part of the sources.
It is modelled as a hash whose streaming steps absorb their messages in order:
each stream slot holds the bytes absorbed since its START. -/
structure hse_fw where
  streams : Nat → List Nat

/-- Modelled from the spec: the hash/MAC service of the co-processor for the hash
function `H`. START opens the stream with its message, UPDATE appends to it,
FINISH returns `H` of everything absorbed followed by the final message, and
ONE-PASS returns `H` of its message. -/
def hse_fw_serve (H : List Nat → List Nat) (fw : hse_fw) (access_mode stream_id : Nat)
    (input : List Nat) : hse_fw × Option (List Nat) :=
  if access_mode = HSE_ACCESS_MODE_START then
    (⟨Function.update fw.streams stream_id input⟩, none)
  else if access_mode = HSE_ACCESS_MODE_UPDATE then
    (⟨Function.update fw.streams stream_id (fw.streams stream_id ++ input)⟩, none)
  else if access_mode = HSE_ACCESS_MODE_FINISH then
    (fw, some (H (fw.streams stream_id ++ input)))
  else
    (fw, some (H input))

/-- Modelled from the spec: the context export service hands out the state of a
stream slot as an uninterpreted blob. -/
def hse_fw_export (fw : hse_fw) (stream_id : Nat) : List Nat := fw.streams stream_id

/-- Modelled from the spec: the context import service overwrites the state of a
stream slot with a blob produced by the export service. -/
def hse_fw_import (fw : hse_fw) (stream_id : Nat) (blob : List Nat) : hse_fw :=
  ⟨Function.update fw.streams stream_id blob⟩

/-- The stream slot stored in the descriptor member selected by `alg->srv_id`. -/
def desc_stream_id (alg : hse_ahash_alg) (d : hse_srv_desc) : Nat :=
  if alg.srv_id = HSE_SRV_ID_HASH then d.hash_req.stream_id else d.mac_req.stream_id

/-- The input length stored in the descriptor member selected by `alg->srv_id`. -/
def desc_input_len (alg : hse_ahash_alg) (d : hse_srv_desc) : Nat :=
  if alg.srv_id = HSE_SRV_ID_HASH then d.hash_req.input_len else d.mac_req.input_len

/-- The result-length address (`hash_len` or `tag_len`) stored in the descriptor
member selected by `alg->srv_id`. -/
def desc_result_len (alg : hse_ahash_alg) (d : hse_srv_desc) : Nat :=
  if alg.srv_id = HSE_SRV_ID_HASH then d.hash_req.hash_len else d.mac_req.tag_len

/-- The result address (`hash` or `tag`) stored in the descriptor member selected
by `alg->srv_id`. -/
def desc_result (alg : hse_ahash_alg) (d : hse_srv_desc) : Nat :=
  if alg.srv_id = HSE_SRV_ID_HASH then d.hash_req.hash else d.mac_req.tag

/-- Modelled from the spec: the result write-back documented for `hash_len` in
`hse-abi.h`. The digest is stored in the result buffer, truncated to the capacity
found in `outlen`, and `outlen` receives the length stored. -/
def fw_write_result (rctx : hse_ahash_req_ctx) (digest : List Nat) : hse_ahash_req_ctx :=
  let n := min rctx.outlen digest.length
  { rctx with result := memcpy rctx.result 0 digest n, outlen := n }

/-- One successful round trip of the descriptor in `rctx->srv_desc`: the
co-processor serves it on the input buffer, writes back its result, and the
transport calls `hse_ahash_done(0, req)`. -/
def hse_complete (H : List Nat → List Nat) (alg : hse_ahash_alg) (fw : hse_fw)
    (rctx : hse_ahash_req_ctx) :
    hse_fw × hse_ahash_req_ctx × Option (List Nat) × List hse_event :=
  let d := rctx.srv_desc
  let r := hse_fw_serve H fw (desc_access_mode alg d) (desc_stream_id alg d)
    (rctx.buf_mem.take (desc_input_len alg d))
  let rctx :=
    match r.2 with
    | some digest => fw_write_result rctx digest
    | none => rctx
  let c := hse_ahash_done alg 0 rctx
  (r.1, c.1, c.2.1, c.2.2)

/-- State of a request sequence: the co-processor, the request context and the
calls made so far. -/
structure run_state where
  fw : hse_fw
  rctx : hse_ahash_req_ctx
  trace : List hse_event

/-- One `hse_ahash_update` call in environment `step.1` on the data `step.2`; when
the call submits a descriptor, that descriptor is completed successfully before
the call sequence goes on. The result is `none` when the call returns an error. -/
def run_update (H : List Nat → List Nat) (alg : hse_ahash_alg) (tctx : hse_ahash_tfm_ctx)
    (s : run_state) (step : hse_env × List Nat) : Option run_state :=
  let u := hse_ahash_update step.1 alg tctx s.rctx step.2
  if u.2.1 = 0 then
    some ⟨s.fw, u.1, s.trace ++ u.2.2⟩
  else if u.2.1 = -EINPROGRESS then
    let c := hse_complete H alg s.fw u.1
    some ⟨c.1, c.2.1, s.trace ++ u.2.2 ++ c.2.2.2⟩
  else none

/-- A sequence of `hse_ahash_update` calls, each with its own environment. The
sequence stops with `none` at the first call that returns an error. -/
def run_updates (H : List Nat → List Nat) (alg : hse_ahash_alg) (tctx : hse_ahash_tfm_ctx) :
    run_state → List (hse_env × List Nat) → Option run_state
  | s, [] => some s
  | s, step :: rest =>
    (run_update H alg tctx s step).bind fun s1 => run_updates H alg tctx s1 rest

/-- The call `hse_ahash_final` followed by the successful completion of its
descriptor: the digest delivered to the caller and the final state. -/
def run_final (H : List Nat → List Nat) (core : hse_core) (env : hse_env)
    (alg : hse_ahash_alg) (tctx : hse_ahash_tfm_ctx) (s : run_state) :
    Option (List Nat × run_state) :=
  let f := hse_ahash_final core env alg tctx s.rctx
  if f.2.1 = -EINPROGRESS then
    let c := hse_complete H alg s.fw f.1
    match c.2.2.1 with
    | some digest => some (digest, ⟨c.1, c.2.1, s.trace ++ f.2.2 ++ c.2.2.2⟩)
    | none => none
  else none

/-- The call `hse_ahash_finup` followed by the successful completion of its
descriptor. -/
def run_finup (H : List Nat → List Nat) (core : hse_core) (env : hse_env)
    (alg : hse_ahash_alg) (tctx : hse_ahash_tfm_ctx) (s : run_state) (data : List Nat) :
    Option (List Nat × run_state) :=
  let f := hse_ahash_finup core env alg tctx s.rctx data
  if f.2.1 = -EINPROGRESS then
    let c := hse_complete H alg s.fw f.1
    match c.2.2.1 with
    | some digest => some (digest, ⟨c.1, c.2.1, s.trace ++ f.2.2 ++ c.2.2.2⟩)
    | none => none
  else none

/-- The call `hse_ahash_init`, as the start of a request sequence. -/
def run_init (core : hse_core) (env : hse_env) (fw : hse_fw) (rctx : hse_ahash_req_ctx) :
    Option run_state :=
  let i := hse_ahash_init core env rctx
  if i.2.1 = 0 then some ⟨fw, i.1, i.2.2⟩ else none

/-- The sequence `init; update(c1); ...; update(cN); final` with all its
completions. -/
def run_stream (H : List Nat → List Nat) (core : hse_core) (alg : hse_ahash_alg)
    (tctx : hse_ahash_tfm_ctx) (fw : hse_fw) (rctx : hse_ahash_req_ctx)
    (env_init : hse_env) (steps : List (hse_env × List Nat)) (env_final : hse_env) :
    Option (List Nat × run_state) :=
  (run_init core env_init fw rctx).bind fun s =>
    (run_updates H alg tctx s steps).bind fun s =>
      run_final H core env_final alg tctx s

/-- The call `hse_ahash_digest` followed by the successful completion of its
descriptor. -/
def run_digest (H : List Nat → List Nat) (core : hse_core) (env : hse_env)
    (alg : hse_ahash_alg) (tctx : hse_ahash_tfm_ctx) (fw : hse_fw)
    (rctx : hse_ahash_req_ctx) (data : List Nat) : Option (List Nat × run_state) :=
  let f := hse_ahash_digest core env alg tctx rctx data
  if f.2.1 = -EINPROGRESS then
    let c := hse_complete H alg fw f.1
    match c.2.2.1 with
    | some digest => some (digest, ⟨c.1, c.2.1, f.2.2 ++ c.2.2.2⟩)
    | none => none
  else none

/-- The call `hse_ahash_export` on a request whose channel the co-processor
serves: the blob found in the context buffer is the one the export service
hands out for the stream slot of the request. -/
def run_export (env : hse_env) (fw : hse_fw) (rctx : hse_ahash_req_ctx) :
    hse_ahash_req_ctx × Option hse_ahash_state × Int × List hse_event :=
  hse_ahash_export { env with exported_sctx := hse_fw_export fw rctx.stream } rctx true

/-- The call `hse_ahash_import`; when it returns success for a streaming state the
co-processor has served the import exchange on the freshly acquired slot. -/
def run_import (core : hse_core) (env : hse_env) (fw : hse_fw) (rctx : hse_ahash_req_ctx)
    (state : hse_ahash_state) : Option run_state :=
  let i := hse_ahash_import core env rctx (some state)
  if i.2.1 = 0 then
    some ⟨if state.streaming_mode then hse_fw_import fw i.1.stream state.sctx else fw,
      i.1, i.2.2⟩
  else none

/-! ## Environments, well-formed contexts and trace observations -/

/-- Every call into the rest of the kernel succeeds. -/
def hse_env.ok (env : hse_env) : Prop :=
  env.kzalloc_buf.isSome = true ∧ env.kzalloc_state = true ∧
  env.dma_map_result.error = false ∧ env.dma_map_outlen.error = false ∧
  env.dma_map_buf.error = false ∧ env.dma_map_sctx.error = false ∧
  env.acquire_err = 0 ∧ env.srv_req_async = 0 ∧ env.srv_req_sync = 0

instance (env : hse_env) : Decidable env.ok := by
  unfold hse_env.ok; infer_instance

/-- The algorithm was set up by `hse_ahash_alloc` from an entry of
`hse_ahash_algs_tpl`: its service is HASH or MAC and its block size is positive
and at most `HSE_AHASH_MAX_BLOCK_SIZE`. -/
def hse_ahash_alg.valid (alg : hse_ahash_alg) : Prop :=
  (alg.srv_id = HSE_SRV_ID_HASH ∨ alg.srv_id = HSE_SRV_ID_MAC) ∧
  0 < alg.blocksize ∧ alg.blocksize ≤ HSE_AHASH_MAX_BLOCK_SIZE

instance (alg : hse_ahash_alg) : Decidable alg.valid := by
  unfold hse_ahash_alg.valid; infer_instance

/-- The bytes waiting in the cache: its first `cache_idx` bytes. -/
def hse_ahash_req_ctx.pending (rctx : hse_ahash_req_ctx) : List Nat :=
  rctx.cache.take rctx.cache_idx

/-- The bytes the co-processor has absorbed for the request: the contents of its
stream slot once the request is streaming, nothing before. -/
def absorbed (s : run_state) : List Nat :=
  if s.rctx.streaming_mode then s.fw.streams s.rctx.stream else []

/-- The input lengths of the descriptors passed to `hse_srv_req_async`, in order. -/
def submitted_lens (alg : hse_ahash_alg) (tr : List hse_event) : List Nat :=
  tr.filterMap fun e =>
    match e with
    | hse_event.srv_req_async _ d _ _ => some (desc_input_len alg d)
    | _ => none

/-- The access modes of the descriptors passed to `hse_srv_req_async`, in order. -/
def submitted_modes (alg : hse_ahash_alg) (tr : List hse_event) : List Nat :=
  tr.filterMap fun e =>
    match e with
    | hse_event.srv_req_async _ d _ _ => some (desc_access_mode alg d)
    | _ => none

/-- The channels on which descriptors were passed to `hse_srv_req_async`, in order. -/
def submitted_channels (tr : List hse_event) : List Nat :=
  tr.filterMap fun e =>
    match e with
    | hse_event.srv_req_async ch _ _ _ => some ch
    | _ => none

/-- The channels passed to `hse_channel_release`, in order. -/
def released (tr : List hse_event) : List Nat :=
  tr.filterMap fun e =>
    match e with
    | hse_event.channel_release ch => some ch
    | _ => none

/-- The channels obtained from `hse_channel_acquire`, in order. -/
def acquired (tr : List hse_event) : List Nat :=
  tr.filterMap fun e =>
    match e with
    | hse_event.channel_acquire _ ch _ => some ch
    | _ => none

/-- The input bytes handed to `hse_srv_req_async` with each descriptor, in order. -/
def submitted_inputs (tr : List hse_event) : List (List Nat) :=
  tr.filterMap fun e =>
    match e with
    | hse_event.srv_req_async _ _ input _ => some input
    | _ => none

/-- The descriptors passed to `hse_srv_req_async`, in order. -/
def submitted_descs (tr : List hse_event) : List hse_srv_desc :=
  tr.filterMap fun e =>
    match e with
    | hse_event.srv_req_async _ d _ _ => some d
    | _ => none

/-- The calls to `hse_srv_req_sync`, in order: channel, descriptor, bytes of the
buffer the descriptor points to, and return value. -/
def sync_requests (tr : List hse_event) : List (Nat × hse_srv_desc × List Nat × Int) :=
  tr.filterMap fun e =>
    match e with
    | hse_event.srv_req_sync ch d ctx ret => some (ch, d, ctx, ret)
    | _ => none

/-- The buffers obtained from `kzalloc`, in order. -/
def allocated (tr : List hse_event) : List Nat :=
  tr.filterMap fun e =>
    match e with
    | hse_event.kzalloc p _ => some p
    | _ => none

/-- The buffers passed to `kfree`, in order. -/
def freed (tr : List hse_event) : List Nat :=
  tr.filterMap fun e =>
    match e with
    | hse_event.kfree p => some p
    | _ => none

/-- The error codes passed to `ahash_request_complete`, in order. -/
def completed (tr : List hse_event) : List Int :=
  tr.filterMap fun e =>
    match e with
    | hse_event.request_complete err => some err
    | _ => none

/-! ## Concrete values used by the examples -/

/-- The SHA-256 hash algorithm as set up by `hse_ahash_alloc(dev, false, tpl)` from
the `sha256` entry of `hse_ahash_algs_tpl`. -/
def sha256_alg : hse_ahash_alg :=
  { srv_id := HSE_SRV_ID_HASH, alg_type := 4, blocksize := 64, digestsize := 32 }

/-- A request context with a zeroed 128-byte cache and a zeroed 64-byte result
buffer and every other field zero. -/
def rctx_zero : hse_ahash_req_ctx :=
  { srv_desc := hse_srv_desc_zero, streaming_mode := false, access_mode := 0,
    channel := 0, stream := 0,
    cache := List.replicate HSE_AHASH_MAX_BLOCK_SIZE 0, cache_idx := 0,
    buf := 0, buf_mem := [], buf_dma := 0, buflen := 0, outlen := 0, outlen_dma := 0,
    result := List.replicate HSE_AHASH_MAX_DIGEST_SIZE 0, result_dma := 0 }

/-- A streaming request context between two calls: 8 bytes wait in the cache, and
the request holds channel 1 with stream slot 1. -/
def rctx_streaming : hse_ahash_req_ctx :=
  { rctx_zero with
    streaming_mode := true
    cache := [1, 2, 3, 4, 5, 6, 7, 8] ++ List.replicate 120 0
    cache_idx := 8
    channel := 1
    stream := 1 }

/-- A request context between two calls in which 10 bytes wait in the cache. -/
def rctx_cached : hse_ahash_req_ctx :=
  { rctx_zero with
    cache := List.replicate 10 7 ++ List.replicate 118 0
    cache_idx := 10
    channel := 1
    stream := 1 }

/-- An environment in which every call succeeds; the stream channel handed out is
channel 1 with stream slot 1. -/
def env_ok : hse_env :=
  { kzalloc_buf := some 4096, kzalloc_state := true,
    dma_map_result := ⟨8192, false⟩, dma_map_outlen := ⟨8200, false⟩,
    dma_map_buf := ⟨12288, false⟩, dma_map_sctx := ⟨16384, false⟩,
    acquire_err := 0, acquire_channel := 1, acquire_stream := 1,
    srv_req_async := 0, srv_req_sync := 0, exported_sctx := [] }

/-- Values for the constants of `hse-core.h` used in the examples. -/
def core_ex : hse_core := { HSE_CHANNEL_ANY := 0xAC, HSE_CH_TYPE_STREAM := 2 }

/-- A transformation context without key material (unkeyed hash). -/
def tctx_zero : hse_ahash_tfm_ctx :=
  { srv_desc := hse_srv_desc_zero, key_slot_handle := 0, keyinf := ⟨0, 0, 0⟩, keyinf_dma := 0,
    keylen := 0, keylen_dma := 0, keybuf := [], keybuf_dma := 0 }

/-- The HMAC-SHA-256 algorithm as set up by `hse_ahash_alloc(dev, true, tpl)` from
the `sha256` entry of `hse_ahash_algs_tpl`. -/
def hmac_sha256_alg : hse_ahash_alg :=
  { srv_id := HSE_SRV_ID_MAC, alg_type := 4, blocksize := 64, digestsize := 32 }

/-- The transformation context of a keyed instance as left by
`hse_ahash_cra_init`: key slot handle `HSE_KEY_HANDLE(1, 0)`, no key stored, a
zeroed 128-byte key buffer. -/
def tctx_keyed : hse_ahash_tfm_ctx :=
  { srv_desc := hse_srv_desc_zero, key_slot_handle := 0x20100, keyinf := ⟨0, 0, 0⟩,
    keyinf_dma := 20480, keylen := 0, keylen_dma := 20496,
    keybuf := List.replicate HSE_AHASH_MAX_BLOCK_SIZE 0, keybuf_dma := 20512 }

/-- An environment of `hse_ahash_setkey` in which every call succeeds; the digest
handed back for an over-long key is thirty-two bytes of value 5. -/
def setkey_env_ok : hse_setkey_env :=
  { kmemdup_key := true, dma_map_key := ⟨24576, false⟩, sync_hash := 0,
    key_digest := List.replicate 32 5, sync_import := 0 }

/-- The request context after `hse_ahash_init` and an `hse_ahash_update` with 70
bytes of value 1 on SHA-256, every call succeeding: a START descriptor for one
block is outstanding on channel 1. -/
def rctx_started : hse_ahash_req_ctx :=
  (hse_ahash_update env_ok sha256_alg tctx_zero
    (hse_ahash_init core_ex env_ok rctx_zero).1 (List.replicate 70 1)).1

/-- The events of the two calls that lead to `rctx_started`. -/
def trace_started : List hse_event :=
  (hse_ahash_init core_ex env_ok rctx_zero).2.2 ++
    (hse_ahash_update env_ok sha256_alg tctx_zero
      (hse_ahash_init core_ex env_ok rctx_zero).1 (List.replicate 70 1)).2.2

/-- An environment in which mapping the linear buffer fails and every other call
succeeds. -/
def env_map_buf_fails : hse_env := { env_ok with dma_map_buf := ⟨0, true⟩ }

/-- An environment in which `hse_srv_req_async` fails with `-EBUSY` and every
other call succeeds. -/
def env_async_fails : hse_env := { env_ok with srv_req_async := -16 }

/-- An environment in which every call succeeds and the co-processor hands back a
372-byte streaming context of bytes of value 9. -/
def env_exported : hse_env := { env_ok with exported_sctx := List.replicate HSE_MAX_CTX_SIZE 9 }

/-- An environment in which mapping the streaming context fails and every other
call succeeds. -/
def env_map_sctx_fails : hse_env := { env_ok with dma_map_sctx := ⟨0, true⟩ }

/-- An environment in which `hse_srv_req_sync` fails with `-EIO` and every other
call succeeds. -/
def env_sync_fails : hse_env := { env_ok with srv_req_sync := -5 }

/-- A saved state of a streaming request: a 372-byte context of bytes of value 9
and three cached bytes. -/
def state_saved : hse_ahash_state :=
  { sctx := List.replicate HSE_MAX_CTX_SIZE 9
    cache := [1, 2, 3] ++ List.replicate 125 0
    cache_idx := 3
    streaming_mode := true }

/-- The transformation context after a first successful `hse_ahash_setkey` of the
eight-byte key `3 3 3 3 3 3 3 3` on the fresh HMAC-SHA-256 instance. -/
def tctx_short_key : hse_ahash_tfm_ctx :=
  (hse_ahash_setkey core_ex setkey_env_ok hmac_sha256_alg tctx_keyed (List.replicate 8 3)).1

/-- The transformation context after a first successful `hse_ahash_setkey` of a
seventy-byte key on the fresh HMAC-SHA-256 instance. -/
def tctx_long_key : hse_ahash_tfm_ctx :=
  (hse_ahash_setkey core_ex setkey_env_ok hmac_sha256_alg tctx_keyed (List.replicate 70 3)).1

/-- An environment of `hse_ahash_setkey` in which the key import exchange fails
with `-EIO` and every other call succeeds. -/
def setkey_env_import_fails : hse_setkey_env := { setkey_env_ok with sync_import := -5 }

/-- The saved state of a request that is not streaming, with an empty cache. -/
def state_idle : hse_ahash_state :=
  { sctx := List.replicate HSE_MAX_CTX_SIZE 0
    cache := List.replicate HSE_AHASH_MAX_BLOCK_SIZE 0
    cache_idx := 0
    streaming_mode := false }

/-- A saved state whose 8-bit `cache_idx` is 200. -/
def state_long_cache : hse_ahash_state :=
  { state_idle with cache_idx := 200 }

/-- An environment in which mapping the result buffer fails and every other call
succeeds. -/
def env_map_result_fails : hse_env := { env_ok with dma_map_result := ⟨0, true⟩ }

/-- An environment in which `kzalloc` of the linear buffer fails and every other
call succeeds. -/
def env_kzalloc_fails : hse_env := { env_ok with kzalloc_buf := none }

/-- A co-processor with every stream slot empty. -/
def fw_zero : hse_fw := ⟨fun _ => []⟩

/-- A stand-in hash function for the examples: thirty-two bytes, the first one the
length of the message and the others the sum of its bytes. -/
def toy_hash (m : List Nat) : List Nat := m.length :: List.replicate 31 m.sum

/-! ## Sequences of calls and what successful calls establish -/

/-- The access modes of the first `n` descriptors submitted by `hse_ahash_update`
on a request whose streaming flag is `streaming` at the first of them: START
when the request is not streaming yet, UPDATE for every other one. -/
def stream_modes (streaming : Bool) : Nat → List Nat
  | 0 => []
  | n + 1 =>
    (if streaming then HSE_ACCESS_MODE_UPDATE else HSE_ACCESS_MODE_START) ::
      List.replicate n HSE_ACCESS_MODE_UPDATE

/-- The whole input of a sequence of update calls. -/
def steps_input (steps : List (hse_env × List Nat)) : List Nat :=
  (steps.map Prod.snd).flatten

/-- What a successful sequence of updates from `s0` to `s` on the input `msg`
establishes; `ls` are the input lengths of the descriptors it submitted. -/
structure run_facts (alg : hse_ahash_alg) (s0 s : run_state) (msg ls : List Nat) :
    Prop where
  cache_len : s.rctx.cache.length = HSE_AHASH_MAX_BLOCK_SIZE
  cache_idx_le : s.rctx.cache_idx ≤ alg.blocksize
  message : absorbed s ++ s.rctx.pending = absorbed s0 ++ s0.rctx.pending ++ msg
  channel : s.rctx.channel = s0.rctx.channel
  stream : s.rctx.stream = s0.rctx.stream
  result : s.rctx.result = s0.rctx.result
  released : released s.trace = released s0.trace
  acquired : acquired s.trace = acquired s0.trace
  lens : submitted_lens alg s.trace = submitted_lens alg s0.trace ++ ls
  lens_pos : ∀ l ∈ ls, 0 < l ∧ alg.blocksize ∣ l
  lens_sum : ls.sum + s.rctx.cache_idx = s0.rctx.cache_idx + msg.length
  modes : submitted_modes alg s.trace =
    submitted_modes alg s0.trace ++ stream_modes s0.rctx.streaming_mode ls.length
  channels : submitted_channels s.trace =
    submitted_channels s0.trace ++ List.replicate ls.length s0.rctx.channel
  streaming : s.rctx.streaming_mode = (s0.rctx.streaming_mode || !ls.isEmpty)

/-- A request sequence between two calls while streaming: the request holds
channel 1 with stream slot 1, the co-processor has absorbed 64 bytes for every
slot and 8 bytes wait in the cache. -/
def state_streaming : run_state :=
  { fw := ⟨fun _ => List.replicate 64 1⟩, rctx := rctx_streaming, trace := [] }

/-- Every update call of the sequence runs in an environment in which all calls
succeed, and the length of its request leaves room for a full cache in an
`unsigned int`. -/
def steps_ok (steps : List (hse_env × List Nat)) : Prop :=
  ∀ st ∈ steps, st.1.ok ∧ st.2.length + HSE_AHASH_MAX_BLOCK_SIZE < U32_MOD

instance (steps : List (hse_env × List Nat)) : Decidable (steps_ok steps) := by
  unfold steps_ok; infer_instance

/-- The sequence `init; update(c1); ...; update(cN)` with all its completions: the
state in which `final` or `finup` is called. -/
def run_before_final (H : List Nat → List Nat) (core : hse_core) (alg : hse_ahash_alg)
    (tctx : hse_ahash_tfm_ctx) (fw : hse_fw) (rctx : hse_ahash_req_ctx)
    (env_init : hse_env) (steps : List (hse_env × List Nat)) : Option run_state :=
  (run_init core env_init fw rctx).bind fun s => run_updates H alg tctx s steps

/-- The events of a terminal call with outcome `f` followed, when the call
submitted its descriptor (the transport returned `async_ret = 0` and the call
returned `-EINPROGRESS`), by those of the completion callback `hse_ahash_done`
invoked with the error code `err`. -/
def with_completion (alg : hse_ahash_alg) (err async_ret : Int)
    (f : hse_ahash_req_ctx × Int × List hse_event) : List hse_event :=
  f.2.2 ++
    (if async_ret = 0 ∧ f.2.1 = -EINPROGRESS then (hse_ahash_done alg err f.1).2.2 else [])

/-- A call made on a request after `hse_ahash_init`: an update in some environment,
or the completion callback with some error code. -/
inductive hse_call where
  | update (env : hse_env) (data : List Nat)
  | done (err : Int)

/-- The request context after one call. -/
def apply_call (alg : hse_ahash_alg) (tctx : hse_ahash_tfm_ctx)
    (rctx : hse_ahash_req_ctx) : hse_call → hse_ahash_req_ctx
  | hse_call.update env data => (hse_ahash_update env alg tctx rctx data).1
  | hse_call.done err => (hse_ahash_done alg err rctx).1

/-- The request context after a sequence of calls. -/
def apply_calls (alg : hse_ahash_alg) (tctx : hse_ahash_tfm_ctx)
    (rctx : hse_ahash_req_ctx) (calls : List hse_call) : hse_ahash_req_ctx :=
  calls.foldl (apply_call alg tctx) rctx

/-- What a successful flush of `hse_ahash_update` leaves behind. -/
structure flushed (alg : hse_ahash_alg) (rctx : hse_ahash_req_ctx) (data : List Nat)
    (full : Nat) (ev0 : List hse_event) (u : hse_ahash_req_ctx × Int × List hse_event) :
    Prop where
  ret : u.2.1 = -EINPROGRESS
  cache_idx : u.1.cache_idx = rctx.cache_idx + data.length - full
  cache_len : u.1.cache.length = rctx.cache.length
  pending : u.1.pending = data.drop (full - rctx.cache_idx)
  streaming : u.1.streaming_mode = rctx.streaming_mode
  channel : u.1.channel = rctx.channel
  stream : u.1.stream = rctx.stream
  result : u.1.result = rctx.result
  mode : desc_access_mode alg u.1.srv_desc =
    (if rctx.streaming_mode then HSE_ACCESS_MODE_UPDATE else HSE_ACCESS_MODE_START)
  stream_id : desc_stream_id alg u.1.srv_desc = rctx.stream
  input_len : desc_input_len alg u.1.srv_desc = full
  input : u.1.buf_mem.take full = rctx.pending ++ data.take (full - rctx.cache_idx)
  lens : submitted_lens alg u.2.2 = submitted_lens alg ev0 ++ [full]
  modes : submitted_modes alg u.2.2 = submitted_modes alg ev0 ++
    [if rctx.streaming_mode then HSE_ACCESS_MODE_UPDATE else HSE_ACCESS_MODE_START]
  channels : submitted_channels u.2.2 = submitted_channels ev0 ++ [rctx.channel]
  released : released u.2.2 = released ev0
  acquired : acquired u.2.2 = acquired ev0

/-- What one step of a successful update sequence establishes. -/
structure step_facts (alg : hse_ahash_alg) (s s1 : run_state) (data : List Nat) : Prop where
  cache_len : s1.rctx.cache.length = HSE_AHASH_MAX_BLOCK_SIZE
  cache_idx_le : s1.rctx.cache_idx ≤ alg.blocksize
  message : absorbed s1 ++ s1.rctx.pending = absorbed s ++ s.rctx.pending ++ data
  channel : s1.rctx.channel = s.rctx.channel
  stream : s1.rctx.stream = s.rctx.stream
  result : s1.rctx.result = s.rctx.result
  released : released s1.trace = released s.trace
  acquired : acquired s1.trace = acquired s.trace
  cases :
    (s1.rctx.streaming_mode = s.rctx.streaming_mode ∧
      submitted_lens alg s1.trace = submitted_lens alg s.trace ∧
      submitted_modes alg s1.trace = submitted_modes alg s.trace ∧
      submitted_channels s1.trace = submitted_channels s.trace ∧
      s1.rctx.cache_idx = s.rctx.cache_idx + data.length ∧
      s.rctx.cache_idx + data.length ≤ alg.blocksize) ∨
    (s1.rctx.streaming_mode = true ∧
      alg.blocksize < s.rctx.cache_idx + data.length ∧
      submitted_lens alg s1.trace = submitted_lens alg s.trace ++
        [rounddown (s.rctx.cache_idx + data.length) alg.blocksize] ∧
      submitted_modes alg s1.trace = submitted_modes alg s.trace ++
        [if s.rctx.streaming_mode then HSE_ACCESS_MODE_UPDATE else HSE_ACCESS_MODE_START] ∧
      submitted_channels s1.trace = submitted_channels s.trace ++ [s.rctx.channel] ∧
      s1.rctx.cache_idx + rounddown (s.rctx.cache_idx + data.length) alg.blocksize =
        s.rctx.cache_idx + data.length)

/-- What a successful `hse_ahash_final` or `hse_ahash_finup` call leaves behind:
`n` is the input length of the descriptor and `ev0` the calls made before the
part of the function the statement is about. -/
structure finished (core : hse_core) (alg : hse_ahash_alg)
    (rctx : hse_ahash_req_ctx) (n : Nat) (ev0 : List hse_event)
    (f : hse_ahash_req_ctx × Int × List hse_event) : Prop where
  ret : f.2.1 = -EINPROGRESS
  mode : desc_access_mode alg f.1.srv_desc =
    (if rctx.streaming_mode then HSE_ACCESS_MODE_FINISH else HSE_ACCESS_MODE_ONE_PASS)
  stream_id : desc_stream_id alg f.1.srv_desc = rctx.stream
  input_len : desc_input_len alg f.1.srv_desc = n
  result_len : desc_result_len alg f.1.srv_desc = f.1.outlen_dma
  result_addr : desc_result alg f.1.srv_desc = f.1.result_dma
  streaming : f.1.streaming_mode = rctx.streaming_mode
  channel : f.1.channel =
    (if rctx.streaming_mode then rctx.channel else core.HSE_CHANNEL_ANY)
  stream : f.1.stream = rctx.stream
  result : f.1.result = rctx.result
  trace : f.2.2 = ev0 ++
    (if rctx.streaming_mode then [] else [hse_event.channel_release rctx.channel]) ++
    [hse_event.srv_req_async f.1.channel f.1.srv_desc (f.1.buf_mem.take n) 0]

/-- No channel is acquired or released and no descriptor is submitted by the calls
in `ev`. -/
def quiet (alg : hse_ahash_alg) (ev : List hse_event) : Prop :=
  released ev = [] ∧ acquired ev = [] ∧ submitted_lens alg ev = [] ∧
    submitted_modes alg ev = [] ∧ submitted_channels ev = []

/-- What a successful `hse_ahash_digest` call leaves behind. -/
structure digested (core : hse_core) (alg : hse_ahash_alg) (env : hse_env)
    (rctx : hse_ahash_req_ctx) (data : List Nat)
    (f : hse_ahash_req_ctx × Int × List hse_event) : Prop where
  ret : f.2.1 = -EINPROGRESS
  mode : desc_access_mode alg f.1.srv_desc = HSE_ACCESS_MODE_ONE_PASS
  stream_id : desc_stream_id alg f.1.srv_desc = 0
  input_len : desc_input_len alg f.1.srv_desc = data.length
  result_len : desc_result_len alg f.1.srv_desc = env.dma_map_outlen.addr
  result_addr : desc_result alg f.1.srv_desc = env.dma_map_result.addr
  input : f.1.buf_mem.take data.length = data
  outlen : f.1.outlen = alg.digestsize
  streaming : f.1.streaming_mode = rctx.streaming_mode
  channel : f.1.channel = rctx.channel
  result : f.1.result = rctx.result
  trace : ∃ pre, quiet alg pre ∧ f.2.2 = pre ++
    [hse_event.srv_req_async core.HSE_CHANNEL_ANY f.1.srv_desc data 0]

/-- What a terminal call and its completion add to the calls made so far. -/
structure terminal_facts (core : hse_core) (alg : hse_ahash_alg) (s s1 : run_state)
    (n : Nat) : Prop where
  lens : submitted_lens alg s1.trace = submitted_lens alg s.trace ++ [n]
  modes : submitted_modes alg s1.trace = submitted_modes alg s.trace ++
    [if s.rctx.streaming_mode then HSE_ACCESS_MODE_FINISH else HSE_ACCESS_MODE_ONE_PASS]
  channels : submitted_channels s1.trace = submitted_channels s.trace ++
    [if s.rctx.streaming_mode then s.rctx.channel else core.HSE_CHANNEL_ANY]
  released : released s1.trace = released s.trace ++ [s.rctx.channel]
  acquired : acquired s1.trace = acquired s.trace

/-! ## Wire layout of the service descriptor -/

/-- The constant `HSE_SRV_DESC_MAX_SIZE`: maximum service descriptor size. -/
def HSE_SRV_DESC_MAX_SIZE : Nat := 256

/-- Size in bytes of the type `u8`. -/
def SIZEOF_U8 : Nat := 1

/-- Size in bytes of the type `u16`. -/
def SIZEOF_U16 : Nat := 2

/-- Size in bytes of the type `u32`. -/
def SIZEOF_U32 : Nat := 4

/-- Size in bytes of the type `u64`. -/
def SIZEOF_U64 : Nat := 8

/-- Size of a `__packed` structure whose members, in declaration order, have the
given names and sizes: no padding is inserted. -/
def packed_size (fields : List (String × Nat)) : Nat :=
  (fields.map Prod.snd).sum

/-- Size of a union whose members have the given names and sizes. -/
def union_size (members : List (String × Nat)) : Nat :=
  (members.map Prod.snd).foldl max 0

/-- Offset of the member `name` in a `__packed` structure: the sizes of the
members declared before it. -/
def packed_offset : List (String × Nat) → String → Option Nat
  | [], _ => none
  | f :: rest, name =>
    if f.1 = name then some 0 else (packed_offset rest name).map fun o => f.2 + o

/-- Members of `struct hse_get_attr_srv`. -/
def hse_get_attr_srv_layout : List (String × Nat) :=
  [("attr_id", SIZEOF_U16), ("reserved", 2 * SIZEOF_U8), ("attr_len", SIZEOF_U32),
   ("attr", SIZEOF_U64)]

/-- Members of `struct hse_hash_srv`. -/
def hse_hash_srv_layout : List (String × Nat) :=
  [("access_mode", SIZEOF_U8), ("stream_id", SIZEOF_U8), ("hash_algo", SIZEOF_U8),
   ("sgt_opt", SIZEOF_U8), ("input_len", SIZEOF_U32), ("input", SIZEOF_U64),
   ("hash_len", SIZEOF_U64), ("hash", SIZEOF_U64)]

/-- Members of `struct hse_mac_scheme`; the last one is the anonymous union of
`hmac` and `reserved2`. -/
def hse_mac_scheme_layout : List (String × Nat) :=
  [("mac_algo", SIZEOF_U8), ("reserved1", 3 * SIZEOF_U8),
   ("hmac", union_size [("hmac", packed_size [("hash_algo", SIZEOF_U8)]),
     ("reserved2", 12 * SIZEOF_U8)])]

/-- Members of `struct hse_mac_srv`. -/
def hse_mac_srv_layout : List (String × Nat) :=
  [("access_mode", SIZEOF_U8), ("stream_id", SIZEOF_U8), ("auth_dir", SIZEOF_U8),
   ("sgt_opt", SIZEOF_U8), ("scheme", packed_size hse_mac_scheme_layout),
   ("key_handle", SIZEOF_U32), ("input_len", SIZEOF_U32), ("input", SIZEOF_U64),
   ("tag_len", SIZEOF_U64), ("tag", SIZEOF_U64)]

/-- Members of `struct hse_skcipher_srv`. -/
def hse_skcipher_srv_layout : List (String × Nat) :=
  [("access_mode", SIZEOF_U8), ("reserved0", 1 * SIZEOF_U8), ("cipher_algo", SIZEOF_U8),
   ("block_mode", SIZEOF_U8), ("cipher_dir", SIZEOF_U8), ("sgt_opt", SIZEOF_U8),
   ("reserved1", 2 * SIZEOF_U8), ("key_handle", SIZEOF_U32), ("iv", SIZEOF_U64),
   ("input_len", SIZEOF_U32), ("input", SIZEOF_U64), ("output", SIZEOF_U64)]

/-- Members of `struct hse_aead_srv`. -/
def hse_aead_srv_layout : List (String × Nat) :=
  [("access_mode", SIZEOF_U8), ("reserved0", SIZEOF_U8), ("auth_cipher_mode", SIZEOF_U8),
   ("cipher_dir", SIZEOF_U8), ("key_handle", SIZEOF_U32), ("iv_len", SIZEOF_U32),
   ("iv", SIZEOF_U64), ("aad_len", SIZEOF_U32), ("aad", SIZEOF_U64),
   ("sgt_opt", SIZEOF_U8), ("reserved1", 3 * SIZEOF_U8), ("input_len", SIZEOF_U32),
   ("input", SIZEOF_U64), ("tag_len", SIZEOF_U32), ("tag", SIZEOF_U64),
   ("output", SIZEOF_U64)]

/-- Members of the member `sym` of `struct hse_import_key_srv`. -/
def hse_import_key_sym_layout : List (String × Nat) :=
  [("reserved0", 16 * SIZEOF_U8), ("key", SIZEOF_U64), ("reserved1", 4 * SIZEOF_U8),
   ("keylen", SIZEOF_U16), ("reserved2", 2 * SIZEOF_U8)]

/-- Members of `struct hse_import_key_srv`. -/
def hse_import_key_srv_layout : List (String × Nat) :=
  [("key_handle", SIZEOF_U32), ("key_info", SIZEOF_U64),
   ("sym", packed_size hse_import_key_sym_layout), ("cipher_key", SIZEOF_U32),
   ("reserved3", 48 * SIZEOF_U8), ("auth_key", SIZEOF_U32), ("reserved4", 36 * SIZEOF_U8)]

/-- Members of `struct hse_rng_srv`. -/
def hse_rng_srv_layout : List (String × Nat) :=
  [("rng_class", SIZEOF_U8), ("reserved", 3 * SIZEOF_U8), ("random_num_len", SIZEOF_U32),
   ("random_num", SIZEOF_U64)]

/-- Members of `struct hse_ctx_impex_srv`. -/
def hse_ctx_impex_srv_layout : List (String × Nat) :=
  [("operation", SIZEOF_U8), ("stream_id", SIZEOF_U8), ("reserved", 2 * SIZEOF_U8),
   ("stream_ctx", SIZEOF_U64)]

/-- Members of `struct hse_standby_prepare_srv`. -/
def hse_standby_prepare_srv_layout : List (String × Nat) :=
  [("reserved", 4 * SIZEOF_U8)]

/-- Members of the anonymous union of `struct hse_srv_desc`. -/
def hse_srv_desc_payload : List (String × Nat) :=
  [("get_attr_req", packed_size hse_get_attr_srv_layout),
   ("hash_req", packed_size hse_hash_srv_layout),
   ("mac_req", packed_size hse_mac_srv_layout),
   ("skcipher_req", packed_size hse_skcipher_srv_layout),
   ("aead_req", packed_size hse_aead_srv_layout),
   ("import_key_req", packed_size hse_import_key_srv_layout),
   ("rng_req", packed_size hse_rng_srv_layout),
   ("ctx_impex_req", packed_size hse_ctx_impex_srv_layout),
   ("standby_req", packed_size hse_standby_prepare_srv_layout),
   ("max_desc", (HSE_SRV_DESC_MAX_SIZE - 8) * SIZEOF_U8)]

/-- Members of `struct hse_srv_desc`; `payload` is the anonymous union. -/
def hse_srv_desc_layout : List (String × Nat) :=
  [("srv_id", SIZEOF_U32), ("reserved", 4 * SIZEOF_U8),
   ("payload", union_size hse_srv_desc_payload)]

/-! ## Arithmetic and memory lemmas -/

theorem u32_sub_eq (a b : Nat) (hb : b ≤ a) (ha : a < U32_MOD) : u32_sub a b = a - b := by
  unfold u32_sub
  have hb' : b % U32_MOD = b := Nat.mod_eq_of_lt (lt_of_le_of_lt hb ha)
  rw [hb']
  have h : a + U32_MOD - b = (a - b) + U32_MOD := by omega
  rw [h, Nat.add_mod_right]
  exact Nat.mod_eq_of_lt (lt_of_le_of_lt (Nat.sub_le a b) ha)

theorem rounddown_le (x y : Nat) : rounddown x y ≤ x := Nat.sub_le _ _

theorem rounddown_add_mod (x y : Nat) : rounddown x y + x % y = x := by
  unfold rounddown
  have := Nat.mod_le x y
  omega

theorem le_rounddown (x y : Nat) (hy : 0 < y) (hxy : y ≤ x) : y ≤ rounddown x y := by
  unfold rounddown
  have h1 : x % y + y * (x / y) = x := Nat.mod_add_div x y
  have h2 : 1 ≤ x / y := (Nat.one_le_div_iff hy).mpr hxy
  have h3 : y * 1 ≤ y * (x / y) := Nat.mul_le_mul_left y h2
  omega

theorem rounddown_dvd (x y : Nat) : y ∣ rounddown x y := by
  unfold rounddown
  exact Nat.dvd_sub_mod x

theorem memcpy_take (dst src : List Nat) (off n : Nat) (hoff : off ≤ dst.length)
    (hn : n ≤ src.length) :
    (memcpy dst off src n).take (off + n) = dst.take off ++ src.take n := by
  unfold memcpy
  have hl : (dst.take off ++ src.take n).length = off + n := by
    simp [List.length_take, Nat.min_eq_left hoff, Nat.min_eq_left hn]
  rw [List.take_append_of_le_length (by omega)]
  exact List.take_of_length_le (by omega)

theorem memcpy_length (dst src : List Nat) (off n : Nat) (hoff : off + n ≤ dst.length)
    (hn : n ≤ src.length) : (memcpy dst off src n).length = dst.length := by
  unfold memcpy
  simp [List.length_take, List.length_drop]
  omega

theorem desc_update_mode (alg : hse_ahash_alg) (tctx : hse_ahash_tfm_ctx)
    (rctx : hse_ahash_req_ctx) (full : Nat) (hv : alg.valid) :
    desc_access_mode alg (update_desc alg tctx rctx full) =
        (if rctx.streaming_mode then HSE_ACCESS_MODE_UPDATE else HSE_ACCESS_MODE_START) ∧
      desc_stream_id alg (update_desc alg tctx rctx full) = rctx.stream ∧
      desc_input_len alg (update_desc alg tctx rctx full) = full := by
  rcases hv.1 with h | h
  · simp [desc_access_mode, desc_stream_id, desc_input_len, update_desc, h]
  · have hne : ¬ (HSE_SRV_ID_MAC = HSE_SRV_ID_HASH) := by decide
    simp [desc_access_mode, desc_stream_id, desc_input_len, update_desc, h, hne]

theorem update_submit_ok (env : hse_env) (alg : hse_ahash_alg) (tctx : hse_ahash_tfm_ctx)
    (rctx : hse_ahash_req_ctx) (data : List Nat) (full : Nat) (ev : List hse_event)
    (hv : alg.valid) (hasync : env.srv_req_async = 0)
    (hlen : rctx.cache.length = HSE_AHASH_MAX_BLOCK_SIZE)
    (hci : rctx.cache_idx ≤ full) (hci2 : rctx.cache_idx ≤ HSE_AHASH_MAX_BLOCK_SIZE)
    (hfull : full ≤ rctx.cache_idx + data.length)
    (hres : rctx.cache_idx + data.length - full ≤ HSE_AHASH_MAX_BLOCK_SIZE)
    (hlt : rctx.cache_idx + data.length < U32_MOD) :
    flushed alg rctx data full ev
      (update_submit env alg tctx rctx data (rctx.cache_idx + data.length) full ev) := by
  have hs1 : u32_sub full rctx.cache_idx = full - rctx.cache_idx :=
    u32_sub_eq _ _ hci (by omega)
  have hs2 : u32_sub (rctx.cache_idx + data.length) full = rctx.cache_idx + data.length - full :=
    u32_sub_eq _ _ hfull hlt
  have h128 : HSE_AHASH_MAX_BLOCK_SIZE = 128 := rfl
  have h256 : U8_MOD = 256 := rfl
  have hmod : (rctx.cache_idx + data.length - full) % U8_MOD =
      rctx.cache_idx + data.length - full := Nat.mod_eq_of_lt (by omega)
  have hd := fun r => desc_update_mode alg tctx r full hv
  have hk : full - rctx.cache_idx ≤ data.length := by omega
  have hin : (scatterwalk_map_and_copy (memcpy rctx.buf_mem 0 rctx.cache rctx.cache_idx)
      rctx.cache_idx data 0 (full - rctx.cache_idx)).take full =
      rctx.cache.take rctx.cache_idx ++ data.take (full - rctx.cache_idx) := by
    unfold scatterwalk_map_and_copy
    have hm1 : (memcpy rctx.buf_mem 0 rctx.cache rctx.cache_idx).take rctx.cache_idx =
        rctx.cache.take rctx.cache_idx := by
      have := memcpy_take rctx.buf_mem rctx.cache 0 rctx.cache_idx (Nat.zero_le _) (by omega)
      simpa using this
    have hl1 : rctx.cache_idx ≤ (memcpy rctx.buf_mem 0 rctx.cache rctx.cache_idx).length := by
      unfold memcpy
      simp [List.length_take]
      omega
    have key := memcpy_take (memcpy rctx.buf_mem 0 rctx.cache rctx.cache_idx) data
      rctx.cache_idx (full - rctx.cache_idx) hl1 hk
    rw [Nat.add_sub_cancel' hci, hm1] at key
    simpa using key
  have hpend : (scatterwalk_map_and_copy rctx.cache 0 data (full - rctx.cache_idx)
      (rctx.cache_idx + data.length - full)).take (rctx.cache_idx + data.length - full) =
      data.drop (full - rctx.cache_idx) := by
    unfold scatterwalk_map_and_copy
    have hl : rctx.cache_idx + data.length - full ≤ (data.drop (full - rctx.cache_idx)).length := by
      simp [List.length_drop]; omega
    have := memcpy_take rctx.cache (data.drop (full - rctx.cache_idx)) 0
      (rctx.cache_idx + data.length - full) (Nat.zero_le _) hl
    simp only [Nat.zero_add, List.take_zero, List.nil_append] at this
    rw [this]
    apply List.take_of_length_le
    simp [List.length_drop]; omega
  have hclen : (scatterwalk_map_and_copy rctx.cache 0 data (full - rctx.cache_idx)
      (rctx.cache_idx + data.length - full)).length = rctx.cache.length := by
    unfold scatterwalk_map_and_copy
    apply memcpy_length
    · omega
    · simp [List.length_drop]; omega
  constructor <;>
    simp [update_submit, hasync, hs1, hs2, hmod, hd, hin, hpend, hclen,
      hse_ahash_req_ctx.pending, submitted_lens, submitted_modes, submitted_channels,
      released, acquired, List.filterMap_append]

theorem flushed_transport (alg : hse_ahash_alg) (R rctx : hse_ahash_req_ctx)
    (data : List Nat) (full : Nat) (ev : List hse_event)
    (u : hse_ahash_req_ctx × Int × List hse_event)
    (h : flushed alg R data full ev u)
    (h1 : R.cache = rctx.cache) (h2 : R.cache_idx = rctx.cache_idx)
    (h3 : R.streaming_mode = rctx.streaming_mode) (h4 : R.channel = rctx.channel)
    (h5 : R.stream = rctx.stream) (h6 : R.result = rctx.result)
    (e1 : submitted_lens alg ev = []) (e2 : submitted_modes alg ev = [])
    (e3 : submitted_channels ev = []) (e4 : released ev = []) (e5 : acquired ev = []) :
    flushed alg rctx data full [] u := by
  have hp : R.pending = rctx.pending := by
    simp [hse_ahash_req_ctx.pending, h1, h2]
  constructor
  · exact h.ret
  · rw [← h2]; exact h.cache_idx
  · rw [← h1]; exact h.cache_len
  · rw [← h2]; exact h.pending
  · rw [← h3]; exact h.streaming
  · rw [← h4]; exact h.channel
  · rw [← h5]; exact h.stream
  · rw [← h6]; exact h.result
  · rw [← h3]; exact h.mode
  · rw [← h5]; exact h.stream_id
  · exact h.input_len
  · rw [← hp, ← h2]; exact h.input
  · have := h.lens; rw [e1] at this; simpa [submitted_lens] using this
  · have := h.modes; rw [e2, h3] at this; simpa [submitted_modes] using this
  · have := h.channels; rw [e3, h4] at this; simpa [submitted_channels] using this
  · have := h.released; rw [e4] at this; simpa [released] using this
  · have := h.acquired; rw [e5] at this; simpa [acquired] using this

theorem update_flush_ok (env : hse_env) (alg : hse_ahash_alg) (tctx : hse_ahash_tfm_ctx)
    (rctx : hse_ahash_req_ctx) (data : List Nat)
    (hv : alg.valid) (henv : env.ok)
    (hlen : rctx.cache.length = HSE_AHASH_MAX_BLOCK_SIZE)
    (hci : rctx.cache_idx ≤ alg.blocksize)
    (hgt : alg.blocksize < rctx.cache_idx + data.length)
    (hlt : rctx.cache_idx + data.length < U32_MOD) :
    flushed alg rctx data (rounddown (rctx.cache_idx + data.length) alg.blocksize) []
      (hse_ahash_update env alg tctx rctx data) := by
  have hv' := hv
  obtain ⟨_, hbs0, hbs⟩ := hv
  obtain ⟨hk, _, _, _, hmap, _, _, hasync, _⟩ := henv
  have hbl : (rctx.cache_idx + data.length) % U32_MOD = rctx.cache_idx + data.length :=
    Nat.mod_eq_of_lt hlt
  have hn : data.length ≠ 0 := by omega
  have hf1 := le_rounddown (rctx.cache_idx + data.length) alg.blocksize hbs0 (le_of_lt hgt)
  have hf2 := rounddown_le (rctx.cache_idx + data.length) alg.blocksize
  have hf3 := rounddown_add_mod (rctx.cache_idx + data.length) alg.blocksize
  have hf4 := Nat.mod_lt (rctx.cache_idx + data.length) hbs0
  have hres : rctx.cache_idx + data.length -
      rounddown (rctx.cache_idx + data.length) alg.blocksize ≤ HSE_AHASH_MAX_BLOCK_SIZE := by
    omega
  obtain ⟨p, hp⟩ := Option.isSome_iff_exists.mp hk
  have hgt' : ¬ (rctx.cache_idx + data.length ≤ alg.blocksize) := by omega
  unfold hse_ahash_update
  simp only [hn, hbl, hgt', hp, hmap, if_false]
  by_cases hb : rctx.buflen < rounddown (rctx.cache_idx + data.length) alg.blocksize
  · simp only [hb, if_true]
    refine flushed_transport alg _ rctx data _ _ _
      (update_submit_ok env alg tctx _ data _ _ hv' hasync ?_ ?_ ?_ ?_ ?_ ?_)
      rfl rfl rfl rfl rfl rfl ?_ ?_ ?_ ?_ ?_
    all_goals first
      | (simp only []; omega)
      | (by_cases h0 : rctx.buflen = 0 <;>
          simp [h0, submitted_lens, submitted_modes, submitted_channels, released, acquired])
  · simp only [hb, if_false]
    exact update_submit_ok env alg tctx rctx data _ [] hv' hasync hlen
      (by omega) (by omega) hf2 hres hlt

theorem update_cache_ok (env : hse_env) (alg : hse_ahash_alg) (tctx : hse_ahash_tfm_ctx)
    (rctx : hse_ahash_req_ctx) (data : List Nat)
    (hbs : alg.blocksize ≤ HSE_AHASH_MAX_BLOCK_SIZE) (hne : data.length ≠ 0)
    (hle : rctx.cache_idx + data.length ≤ alg.blocksize) :
    hse_ahash_update env alg tctx rctx data =
      ({ rctx with
          cache := rctx.cache.take rctx.cache_idx ++ data ++
            rctx.cache.drop (rctx.cache_idx + data.length)
          cache_idx := rctx.cache_idx + data.length }, 0, []) := by
  have h128 : HSE_AHASH_MAX_BLOCK_SIZE = 128 := rfl
  have h1 : (rctx.cache_idx + data.length) % U32_MOD = rctx.cache_idx + data.length :=
    Nat.mod_eq_of_lt (by unfold U32_MOD; omega)
  have h2 : (rctx.cache_idx + data.length) % U8_MOD = rctx.cache_idx + data.length :=
    Nat.mod_eq_of_lt (by unfold U8_MOD; omega)
  simp [hse_ahash_update, hne, h1, h2, hle, scatterwalk_map_and_copy, memcpy]

theorem update_empty (env : hse_env) (alg : hse_ahash_alg) (tctx : hse_ahash_tfm_ctx)
    (rctx : hse_ahash_req_ctx) : hse_ahash_update env alg tctx rctx [] = (rctx, 0, []) := by
  simp [hse_ahash_update]

theorem pending_after_cache (rctx : hse_ahash_req_ctx) (data : List Nat)
    (hci : rctx.cache_idx ≤ rctx.cache.length) :
    (rctx.cache.take rctx.cache_idx ++ data ++
        rctx.cache.drop (rctx.cache_idx + data.length)).take
      (rctx.cache_idx + data.length) = rctx.cache.take rctx.cache_idx ++ data := by
  have hl : (rctx.cache.take rctx.cache_idx ++ data).length = rctx.cache_idx + data.length := by
    simp [List.length_take, Nat.min_eq_left hci]
  rw [List.take_append_of_le_length (by omega)]
  exact List.take_of_length_le (by omega)

theorem complete_start (H : List Nat → List Nat) (alg : hse_ahash_alg) (fw : hse_fw)
    (rctx : hse_ahash_req_ctx)
    (hm : desc_access_mode alg rctx.srv_desc = HSE_ACCESS_MODE_START) :
    hse_complete H alg fw rctx =
      (⟨Function.update fw.streams (desc_stream_id alg rctx.srv_desc)
          (rctx.buf_mem.take (desc_input_len alg rctx.srv_desc))⟩,
        { rctx with streaming_mode := true }, none, [hse_event.request_complete 0]) := by
  simp [hse_complete, hse_fw_serve, hse_ahash_done, hm]

theorem complete_update (H : List Nat → List Nat) (alg : hse_ahash_alg) (fw : hse_fw)
    (rctx : hse_ahash_req_ctx)
    (hm : desc_access_mode alg rctx.srv_desc = HSE_ACCESS_MODE_UPDATE) :
    hse_complete H alg fw rctx =
      (⟨Function.update fw.streams (desc_stream_id alg rctx.srv_desc)
          (fw.streams (desc_stream_id alg rctx.srv_desc) ++
            rctx.buf_mem.take (desc_input_len alg rctx.srv_desc))⟩,
        rctx, none, [hse_event.request_complete 0]) := by
  have h1 : ¬ (HSE_ACCESS_MODE_UPDATE = HSE_ACCESS_MODE_START) := by decide
  have h2 : ¬ (HSE_ACCESS_MODE_UPDATE = HSE_ACCESS_MODE_FINISH) := by decide
  have h3 : ¬ (HSE_ACCESS_MODE_UPDATE = HSE_ACCESS_MODE_ONE_PASS) := by decide
  simp [hse_complete, hse_fw_serve, hse_ahash_done, hm, h1, h2, h3]

theorem run_update_ok (H : List Nat → List Nat) (alg : hse_ahash_alg)
    (tctx : hse_ahash_tfm_ctx) (s : run_state) (env : hse_env) (data : List Nat)
    (hv : alg.valid) (henv : env.ok)
    (hlen : s.rctx.cache.length = HSE_AHASH_MAX_BLOCK_SIZE)
    (hci : s.rctx.cache_idx ≤ alg.blocksize)
    (hdata : data.length + HSE_AHASH_MAX_BLOCK_SIZE < U32_MOD) :
    ∃ s1, run_update H alg tctx s (env, data) = some s1 ∧ step_facts alg s s1 data := by
  have h128 : HSE_AHASH_MAX_BLOCK_SIZE = 128 := rfl
  have hbs := hv.2.2
  by_cases hn : data.length = 0
  · have hd : data = [] := List.length_eq_zero.mp hn
    subst hd
    refine ⟨⟨s.fw, s.rctx, s.trace⟩, by simp [run_update, update_empty], ?_⟩
    constructor <;> simp [hlen, hci, absorbed]
  by_cases hle : s.rctx.cache_idx + data.length ≤ alg.blocksize
  · have hu := update_cache_ok env alg tctx s.rctx data hbs hn hle
    refine ⟨_, by simp only [run_update, hu, if_true]; rfl, ?_⟩
    have hp := pending_after_cache s.rctx data (by omega)
    have hl : (s.rctx.cache.take s.rctx.cache_idx ++ data ++
        s.rctx.cache.drop (s.rctx.cache_idx + data.length)).length =
        HSE_AHASH_MAX_BLOCK_SIZE := by
      simp [List.length_take, List.length_drop]; omega
    constructor
    · exact hl
    · exact hle
    · simp only [absorbed, hse_ahash_req_ctx.pending]; rw [hp]; simp
    all_goals simp
    exact hle
  · have hgt : alg.blocksize < s.rctx.cache_idx + data.length := by omega
    have hf := update_flush_ok env alg tctx s.rctx data hv henv hlen hci hgt (by omega)
    have hf3 := rounddown_add_mod (s.rctx.cache_idx + data.length) alg.blocksize
    have hf4 := Nat.mod_lt (s.rctx.cache_idx + data.length) hv.2.1
    have hf1 := le_rounddown (s.rctx.cache_idx + data.length) alg.blocksize hv.2.1
      (le_of_lt hgt)
    have hne : ¬ ((hse_ahash_update env alg tctx s.rctx data).2.1 = 0) := by
      rw [hf.ret]; decide
    have htd : data.take (rounddown (s.rctx.cache_idx + data.length) alg.blocksize -
        s.rctx.cache_idx) ++ data.drop (rounddown (s.rctx.cache_idx + data.length)
        alg.blocksize - s.rctx.cache_idx) = data := List.take_append_drop _ _
    have hev : ∀ (tr ev : List hse_event),
        released (tr ++ ev ++ [hse_event.request_complete 0]) = released tr ++ released ev ∧
        acquired (tr ++ ev ++ [hse_event.request_complete 0]) = acquired tr ++ acquired ev ∧
        submitted_lens alg (tr ++ ev ++ [hse_event.request_complete 0]) =
          submitted_lens alg tr ++ submitted_lens alg ev ∧
        submitted_modes alg (tr ++ ev ++ [hse_event.request_complete 0]) =
          submitted_modes alg tr ++ submitted_modes alg ev ∧
        submitted_channels (tr ++ ev ++ [hse_event.request_complete 0]) =
          submitted_channels tr ++ submitted_channels ev := by
      intro tr ev
      simp [released, acquired, submitted_lens, submitted_modes, submitted_channels,
        List.filterMap_append]
    have hlens := hf.lens
    have hmodes := hf.modes
    have hchs := hf.channels
    have hrel := hf.released
    have hacq := hf.acquired
    simp only [submitted_lens, submitted_modes, submitted_channels, released, acquired,
      List.filterMap_nil, List.nil_append] at hlens hmodes hchs hrel hacq
    by_cases hs : s.rctx.streaming_mode = true
    · have hm : desc_access_mode alg (hse_ahash_update env alg tctx s.rctx data).1.srv_desc
          = HSE_ACCESS_MODE_UPDATE := by rw [hf.mode]; simp [hs]
      have hc := complete_update H alg s.fw _ hm
      refine ⟨_, by simp only [run_update, hne, hf.ret, if_true, if_false, hc]; rfl, ?_⟩
      constructor
      · simp only []; rw [hf.cache_len]; exact hlen
      · simp only []; rw [hf.cache_idx]; omega
      · simp only [absorbed, hf.streaming, hs, if_true, hf.input_len, hf.input, hf.pending]
        rw [hf.stream_id, hf.stream, Function.update_same]
        simp only [List.append_assoc, htd]
      · exact hf.channel
      · exact hf.stream
      · exact hf.result
      · simp only [(hev _ _).1]; simp [released, hrel]
      · simp only [(hev _ _).2.1]; simp [acquired, hacq]
      · right
        refine ⟨by simp only []; rw [hf.streaming]; exact hs, hgt, ?_, ?_, ?_, ?_⟩
        · simp only [(hev _ _).2.2.1]; simp [submitted_lens, hlens]
        · simp only [(hev _ _).2.2.2.1]; simp [submitted_modes, hmodes, hs]
        · simp only [(hev _ _).2.2.2.2]; simp [submitted_channels, hchs]
        · simp only []; rw [hf.cache_idx]; omega
    · have hs' : s.rctx.streaming_mode = false := by simpa using hs
      have hm : desc_access_mode alg (hse_ahash_update env alg tctx s.rctx data).1.srv_desc
          = HSE_ACCESS_MODE_START := by rw [hf.mode]; simp [hs']
      have hc := complete_start H alg s.fw _ hm
      refine ⟨_, by simp only [run_update, hne, hf.ret, if_true, if_false, hc]; rfl, ?_⟩
      constructor
      · simp only []; rw [hf.cache_len]; exact hlen
      · simp only []; rw [hf.cache_idx]; omega
      · have hp2 := hf.pending
        simp only [absorbed, hs', if_true, hf.input_len, hf.input,
          List.nil_append, Bool.false_eq_true, if_false]
        rw [hf.stream_id, hf.stream, Function.update_same]
        simp only [hse_ahash_req_ctx.pending] at hp2 ⊢
        simp only [hp2, List.append_assoc, htd]
      · exact hf.channel
      · exact hf.stream
      · exact hf.result
      · simp only [(hev _ _).1]; simp [released, hrel]
      · simp only [(hev _ _).2.1]; simp [acquired, hacq]
      · right
        refine ⟨rfl, hgt, ?_, ?_, ?_, ?_⟩
        · simp only [(hev _ _).2.2.1]; simp [submitted_lens, hlens]
        · simp only [(hev _ _).2.2.2.1]; simp [submitted_modes, hmodes, hs']
        · simp only [(hev _ _).2.2.2.2]; simp [submitted_channels, hchs]
        · simp only []; rw [hf.cache_idx]; omega

theorem desc_finish_fields (alg : hse_ahash_alg) (tctx : hse_ahash_tfm_ctx)
    (rctx : hse_ahash_req_ctx) (n : Nat) (hv : alg.valid) :
    desc_access_mode alg (finish_desc alg tctx rctx n) =
        (if rctx.streaming_mode then HSE_ACCESS_MODE_FINISH else HSE_ACCESS_MODE_ONE_PASS) ∧
      desc_stream_id alg (finish_desc alg tctx rctx n) = rctx.stream ∧
      desc_input_len alg (finish_desc alg tctx rctx n) = n ∧
      desc_result_len alg (finish_desc alg tctx rctx n) = rctx.outlen_dma ∧
      desc_result alg (finish_desc alg tctx rctx n) = rctx.result_dma := by
  rcases hv.1 with h | h
  · simp [desc_access_mode, desc_stream_id, desc_input_len, desc_result_len, desc_result,
      finish_desc, h]
  · have hne : ¬ (HSE_SRV_ID_MAC = HSE_SRV_ID_HASH) := by decide
    simp [desc_access_mode, desc_stream_id, desc_input_len, desc_result_len, desc_result,
      finish_desc, h, hne]

theorem final_submit_ok (core : hse_core) (env : hse_env) (alg : hse_ahash_alg)
    (tctx : hse_ahash_tfm_ctx) (rctx : hse_ahash_req_ctx) (ev : List hse_event)
    (hv : alg.valid) (hasync : env.srv_req_async = 0) :
    finished core alg rctx rctx.cache_idx ev (final_submit core env alg tctx rctx ev) := by
  have hd := fun r n => desc_finish_fields alg tctx r n hv
  by_cases hs : rctx.streaming_mode = true <;> by_cases hc : rctx.cache_idx = 0 <;>
    constructor <;> simp [final_submit, hasync, hs, hc, hd]

theorem final_submit_input (core : hse_core) (env : hse_env) (alg : hse_ahash_alg)
    (tctx : hse_ahash_tfm_ctx) (rctx : hse_ahash_req_ctx) (ev : List hse_event)
    (n : Nat) (pend : List Nat) (hn : rctx.cache_idx = n) (hp : rctx.pending = pend)
    (hasync : env.srv_req_async = 0) (hci : rctx.cache_idx ≤ rctx.cache.length) :
    (final_submit core env alg tctx rctx ev).1.buf_mem.take n = pend := by
  subst hn hp
  have hm := memcpy_take rctx.buf_mem rctx.cache 0 rctx.cache_idx (Nat.zero_le _) hci
  simp only [Nat.zero_add, List.take_zero, List.nil_append] at hm
  by_cases hs : rctx.streaming_mode = true <;> by_cases hc : rctx.cache_idx = 0 <;>
    simp [final_submit, hasync, hs, hc, hm, hse_ahash_req_ctx.pending]

theorem finished_transport (core : hse_core) (alg : hse_ahash_alg)
    (R rctx : hse_ahash_req_ctx) (n m : Nat) (ev : List hse_event)
    (f : hse_ahash_req_ctx × Int × List hse_event)
    (h : finished core alg R n ev f) (hn : n = m)
    (h1 : R.streaming_mode = rctx.streaming_mode) (h2 : R.channel = rctx.channel)
    (h3 : R.stream = rctx.stream) (h4 : R.result = rctx.result) :
    finished core alg rctx m ev f := by
  subst hn
  constructor
  · exact h.ret
  · rw [← h1]; exact h.mode
  · rw [← h3]; exact h.stream_id
  · exact h.input_len
  · exact h.result_len
  · exact h.result_addr
  · rw [← h1]; exact h.streaming
  · rw [← h1, ← h2]; exact h.channel
  · rw [← h3]; exact h.stream
  · rw [← h4]; exact h.result
  · rw [← h1, ← h2]; exact h.trace

theorem final_submit_frame (core : hse_core) (env : hse_env) (alg : hse_ahash_alg)
    (tctx : hse_ahash_tfm_ctx) (rctx : hse_ahash_req_ctx) (ev : List hse_event) :
    (final_submit core env alg tctx rctx ev).1.outlen = rctx.outlen ∧
      (final_submit core env alg tctx rctx ev).1.outlen_dma = rctx.outlen_dma ∧
      (final_submit core env alg tctx rctx ev).1.result_dma = rctx.result_dma := by
  by_cases hs : rctx.streaming_mode = true <;> by_cases hc : rctx.cache_idx = 0 <;>
    by_cases ha : env.srv_req_async = 0 <;>
    simp [final_submit, final_err, hs, hc, ha]

theorem final_ok (core : hse_core) (env : hse_env) (alg : hse_ahash_alg)
    (tctx : hse_ahash_tfm_ctx) (rctx : hse_ahash_req_ctx)
    (hv : alg.valid) (henv : env.ok) :
    ∃ pre, finished core alg rctx rctx.cache_idx pre
        (hse_ahash_final core env alg tctx rctx) ∧ quiet alg pre ∧
      (hse_ahash_final core env alg tctx rctx).1.outlen = alg.digestsize ∧
      (hse_ahash_final core env alg tctx rctx).1.outlen_dma = env.dma_map_outlen.addr ∧
      (hse_ahash_final core env alg tctx rctx).1.result_dma = env.dma_map_result.addr ∧
      (rctx.cache_idx ≤ rctx.cache.length →
        (hse_ahash_final core env alg tctx rctx).1.buf_mem.take rctx.cache_idx =
          rctx.pending) := by
  obtain ⟨hk, _, hr, ho, hmap, _, _, hasync, _⟩ := henv
  obtain ⟨p, hp⟩ := Option.isSome_iff_exists.mp hk
  unfold hse_ahash_final
  simp only [hr, ho, hp, hmap, if_false, Bool.false_eq_true]
  by_cases hb : rctx.buflen = 0
  · simp only [hb, if_true]
    refine ⟨_, finished_transport core alg _ rctx _ _ _ _
      (final_submit_ok core env alg tctx _ _ hv hasync) rfl rfl rfl rfl rfl, ?_, ?_, ?_, ?_, ?_⟩
    · simp [quiet, released, acquired, submitted_lens, submitted_modes, submitted_channels]
    · rw [(final_submit_frame _ _ _ _ _ _).1]
    · rw [(final_submit_frame _ _ _ _ _ _).2.1]
    · rw [(final_submit_frame _ _ _ _ _ _).2.2]
    · intro hci
      exact final_submit_input core env alg tctx _ _ _ _ rfl rfl hasync hci
  · simp only [hb, if_false]
    refine ⟨_, finished_transport core alg _ rctx _ _ _ _
      (final_submit_ok core env alg tctx _ _ hv hasync) rfl rfl rfl rfl rfl, ?_, ?_, ?_, ?_, ?_⟩
    · simp [quiet, released, acquired, submitted_lens, submitted_modes, submitted_channels]
    · rw [(final_submit_frame _ _ _ _ _ _).1]
    · rw [(final_submit_frame _ _ _ _ _ _).2.1]
    · rw [(final_submit_frame _ _ _ _ _ _).2.2]
    · intro hci
      exact final_submit_input core env alg tctx _ _ _ _ rfl rfl hasync hci

theorem finup_submit_ok (core : hse_core) (env : hse_env) (alg : hse_ahash_alg)
    (tctx : hse_ahash_tfm_ctx) (rctx : hse_ahash_req_ctx) (data : List Nat) (bl : Nat)
    (ev : List hse_event) (hv : alg.valid) (hasync : env.srv_req_async = 0) :
    finished core alg rctx bl ev (finup_submit core env alg tctx rctx data bl ev) := by
  have hd := fun r n => desc_finish_fields alg tctx r n hv
  by_cases hs : rctx.streaming_mode = true <;>
    constructor <;> simp [finup_submit, hasync, hs, hd]

theorem finup_submit_frame (core : hse_core) (env : hse_env) (alg : hse_ahash_alg)
    (tctx : hse_ahash_tfm_ctx) (rctx : hse_ahash_req_ctx) (data : List Nat) (bl : Nat)
    (ev : List hse_event) :
    (finup_submit core env alg tctx rctx data bl ev).1.outlen = rctx.outlen ∧
      (finup_submit core env alg tctx rctx data bl ev).1.outlen_dma = rctx.outlen_dma ∧
      (finup_submit core env alg tctx rctx data bl ev).1.result_dma = rctx.result_dma := by
  by_cases hs : rctx.streaming_mode = true <;> by_cases ha : env.srv_req_async = 0 <;>
    simp [finup_submit, finup_err, release_channel_and_buf, hs, ha]

theorem finup_submit_input (core : hse_core) (env : hse_env) (alg : hse_ahash_alg)
    (tctx : hse_ahash_tfm_ctx) (rctx : hse_ahash_req_ctx) (data : List Nat) (bl : Nat)
    (ev : List hse_event) (pend : List Nat) (hp : rctx.pending = pend)
    (hbl : bl = rctx.cache_idx + data.length)
    (hasync : env.srv_req_async = 0) (hci : rctx.cache_idx ≤ rctx.cache.length) :
    (finup_submit core env alg tctx rctx data bl ev).1.buf_mem.take bl = pend ++ data := by
  subst hp hbl
  have hm1 : (memcpy rctx.buf_mem 0 rctx.cache rctx.cache_idx).take rctx.cache_idx =
      rctx.cache.take rctx.cache_idx := by
    have := memcpy_take rctx.buf_mem rctx.cache 0 rctx.cache_idx (Nat.zero_le _) hci
    simpa using this
  have hl1 : rctx.cache_idx ≤ (memcpy rctx.buf_mem 0 rctx.cache rctx.cache_idx).length := by
    unfold memcpy
    simp [List.length_take]
    omega
  have key := memcpy_take (memcpy rctx.buf_mem 0 rctx.cache rctx.cache_idx) data
    rctx.cache_idx data.length hl1 (le_refl _)
  rw [hm1, List.take_length] at key
  by_cases hs : rctx.streaming_mode = true <;>
    simp [finup_submit, hasync, hs, hse_ahash_req_ctx.pending, scatterwalk_map_and_copy, key]

theorem finup_ok (core : hse_core) (env : hse_env) (alg : hse_ahash_alg)
    (tctx : hse_ahash_tfm_ctx) (rctx : hse_ahash_req_ctx) (data : List Nat)
    (hv : alg.valid) (henv : env.ok) :
    ∃ pre, finished core alg rctx ((rctx.cache_idx + data.length) % U32_MOD) pre
        (hse_ahash_finup core env alg tctx rctx data) ∧ quiet alg pre ∧
      (hse_ahash_finup core env alg tctx rctx data).1.outlen = alg.digestsize ∧
      (hse_ahash_finup core env alg tctx rctx data).1.outlen_dma = env.dma_map_outlen.addr ∧
      (hse_ahash_finup core env alg tctx rctx data).1.result_dma = env.dma_map_result.addr ∧
      (rctx.cache_idx ≤ rctx.cache.length → rctx.cache_idx + data.length < U32_MOD →
        (hse_ahash_finup core env alg tctx rctx data).1.buf_mem.take
          ((rctx.cache_idx + data.length) % U32_MOD) = rctx.pending ++ data) := by
  obtain ⟨hk, _, hr, ho, hmap, _, _, hasync, _⟩ := henv
  obtain ⟨p, hp⟩ := Option.isSome_iff_exists.mp hk
  unfold hse_ahash_finup
  simp only [hr, ho, hp, hmap, if_false, Bool.false_eq_true]
  by_cases hb : rctx.buflen < (rctx.cache_idx + data.length) % U32_MOD ∨ rctx.buflen = 0
  · simp only [hb, if_true]
    refine ⟨_, finished_transport core alg _ rctx _ _ _ _
      (finup_submit_ok core env alg tctx _ _ _ _ hv hasync) rfl rfl rfl rfl rfl, ?_, ?_, ?_, ?_, ?_⟩
    · by_cases h0 : rctx.buflen = 0 <;>
        simp [quiet, released, acquired, submitted_lens, submitted_modes, submitted_channels, h0]
    · rw [(finup_submit_frame _ _ _ _ _ _ _ _).1]
    · rw [(finup_submit_frame _ _ _ _ _ _ _ _).2.1]
    · rw [(finup_submit_frame _ _ _ _ _ _ _ _).2.2]
    · intro hci hlt
      exact finup_submit_input core env alg tctx _ _ _ _ _ rfl (Nat.mod_eq_of_lt hlt) hasync hci
  · simp only [hb, if_false]
    refine ⟨_, finished_transport core alg _ rctx _ _ _ _
      (finup_submit_ok core env alg tctx _ _ _ _ hv hasync) rfl rfl rfl rfl rfl, ?_, ?_, ?_, ?_, ?_⟩
    · simp [quiet, released, acquired, submitted_lens, submitted_modes, submitted_channels]
    · rw [(finup_submit_frame _ _ _ _ _ _ _ _).1]
    · rw [(finup_submit_frame _ _ _ _ _ _ _ _).2.1]
    · rw [(finup_submit_frame _ _ _ _ _ _ _ _).2.2]
    · intro hci hlt
      exact finup_submit_input core env alg tctx _ _ _ _ _ rfl (Nat.mod_eq_of_lt hlt) hasync hci

theorem desc_digest_fields (alg : hse_ahash_alg) (tctx : hse_ahash_tfm_ctx)
    (rctx : hse_ahash_req_ctx) (n : Nat) (hv : alg.valid) :
    desc_access_mode alg (digest_desc alg tctx rctx n) = HSE_ACCESS_MODE_ONE_PASS ∧
      desc_stream_id alg (digest_desc alg tctx rctx n) = 0 ∧
      desc_input_len alg (digest_desc alg tctx rctx n) = n ∧
      desc_result_len alg (digest_desc alg tctx rctx n) = rctx.outlen_dma ∧
      desc_result alg (digest_desc alg tctx rctx n) = rctx.result_dma := by
  rcases hv.1 with h | h
  · simp [desc_access_mode, desc_stream_id, desc_input_len, desc_result_len, desc_result,
      digest_desc, h, hse_srv_desc_zero]
  · have hne : ¬ (HSE_SRV_ID_MAC = HSE_SRV_ID_HASH) := by decide
    simp [desc_access_mode, desc_stream_id, desc_input_len, desc_result_len, desc_result,
      digest_desc, h, hne, hse_srv_desc_zero]

theorem digest_ok (core : hse_core) (env : hse_env) (alg : hse_ahash_alg)
    (tctx : hse_ahash_tfm_ctx) (rctx : hse_ahash_req_ctx) (data : List Nat)
    (hv : alg.valid) (henv : env.ok) :
    digested core alg env rctx data (hse_ahash_digest core env alg tctx rctx data) := by
  obtain ⟨hk, _, hr, ho, hmap, _, _, hasync, _⟩ := henv
  obtain ⟨p, hp⟩ := Option.isSome_iff_exists.mp hk
  have hd := fun r n => desc_digest_fields alg tctx r n hv
  have hin : (scatterwalk_map_and_copy (List.replicate (max data.length alg.blocksize) 0) 0
      data 0 data.length).take data.length = data := by
    have := memcpy_take (List.replicate (max data.length alg.blocksize) 0) data 0 data.length
      (Nat.zero_le _) (le_refl _)
    simpa [scatterwalk_map_and_copy] using this
  constructor
  case trace =>
    refine ⟨[hse_event.dma_map_single env.dma_map_result.addr alg.digestsize,
      hse_event.dma_map_single env.dma_map_outlen.addr SIZEOF_OUTLEN,
      hse_event.kzalloc p (max data.length alg.blocksize),
      hse_event.dma_map_single env.dma_map_buf.addr (max data.length alg.blocksize)], ?_, ?_⟩
    · simp [quiet, released, acquired, submitted_lens, submitted_modes, submitted_channels]
    · simp [hse_ahash_digest, hr, ho, hp, hmap, hasync, hin]
  all_goals simp [hse_ahash_digest, hr, ho, hp, hmap, hasync, hd, hin]

theorem complete_finish (H : List Nat → List Nat) (alg : hse_ahash_alg) (fw : hse_fw)
    (rctx : hse_ahash_req_ctx) (hH : ∀ m, (H m).length = alg.digestsize)
    (hout : rctx.outlen = alg.digestsize)
    (hm : desc_access_mode alg rctx.srv_desc = HSE_ACCESS_MODE_FINISH) :
    (hse_complete H alg fw rctx).1 = fw ∧
    (hse_complete H alg fw rctx).2.2.1 =
      some (H (fw.streams (desc_stream_id alg rctx.srv_desc) ++
        rctx.buf_mem.take (desc_input_len alg rctx.srv_desc))) ∧
    (hse_complete H alg fw rctx).2.2.2 =
      [hse_event.channel_release rctx.channel,
       hse_event.dma_unmap_single rctx.buf_dma rctx.buflen, hse_event.kfree rctx.buf,
       hse_event.dma_unmap_single rctx.outlen_dma SIZEOF_OUTLEN,
       hse_event.dma_unmap_single rctx.result_dma alg.digestsize,
       hse_event.request_complete 0] ∧
    (hse_complete H alg fw rctx).2.1.streaming_mode = rctx.streaming_mode ∧
    (hse_complete H alg fw rctx).2.1.buflen = 0 := by
  have h1 : ¬ (HSE_ACCESS_MODE_FINISH = HSE_ACCESS_MODE_START) := by decide
  have h2 : ¬ (HSE_ACCESS_MODE_FINISH = HSE_ACCESS_MODE_UPDATE) := by decide
  have ht : ∀ d : List Nat, d.length = alg.digestsize → ∀ r : List Nat,
      (memcpy r 0 d alg.digestsize).take alg.digestsize = d := by
    intro d hd r
    have := memcpy_take r d 0 alg.digestsize (Nat.zero_le _) (le_of_eq hd.symm)
    simp only [Nat.zero_add, List.take_zero, List.nil_append] at this
    rw [this]
    exact List.take_of_length_le (le_of_eq hd)
  simp [hse_complete, hse_fw_serve, hse_ahash_done, fw_write_result, hm, h1, h2, hH, hout, ht]

theorem complete_one_pass (H : List Nat → List Nat) (alg : hse_ahash_alg) (fw : hse_fw)
    (rctx : hse_ahash_req_ctx) (hH : ∀ m, (H m).length = alg.digestsize)
    (hout : rctx.outlen = alg.digestsize)
    (hm : desc_access_mode alg rctx.srv_desc = HSE_ACCESS_MODE_ONE_PASS) :
    (hse_complete H alg fw rctx).1 = fw ∧
    (hse_complete H alg fw rctx).2.2.1 =
      some (H (rctx.buf_mem.take (desc_input_len alg rctx.srv_desc))) ∧
    (hse_complete H alg fw rctx).2.2.2 =
      [hse_event.dma_unmap_single rctx.buf_dma rctx.buflen, hse_event.kfree rctx.buf,
       hse_event.dma_unmap_single rctx.outlen_dma SIZEOF_OUTLEN,
       hse_event.dma_unmap_single rctx.result_dma alg.digestsize,
       hse_event.request_complete 0] ∧
    (hse_complete H alg fw rctx).2.1.streaming_mode = rctx.streaming_mode ∧
    (hse_complete H alg fw rctx).2.1.buflen = 0 := by
  have h1 : ¬ (HSE_ACCESS_MODE_ONE_PASS = HSE_ACCESS_MODE_START) := by decide
  have h2 : ¬ (HSE_ACCESS_MODE_ONE_PASS = HSE_ACCESS_MODE_UPDATE) := by decide
  have h3 : ¬ (HSE_ACCESS_MODE_ONE_PASS = HSE_ACCESS_MODE_FINISH) := by decide
  have ht : ∀ d : List Nat, d.length = alg.digestsize → ∀ r : List Nat,
      (memcpy r 0 d alg.digestsize).take alg.digestsize = d := by
    intro d hd r
    have := memcpy_take r d 0 alg.digestsize (Nat.zero_le _) (le_of_eq hd.symm)
    simp only [Nat.zero_add, List.take_zero, List.nil_append] at this
    rw [this]
    exact List.take_of_length_le (le_of_eq hd)
  simp [hse_complete, hse_fw_serve, hse_ahash_done, fw_write_result, hm, h1, h2, h3, hH, hout,
    ht]

theorem released_append (a b : List hse_event) : released (a ++ b) = released a ++ released b := by
  simp [released, List.filterMap_append]

theorem acquired_append (a b : List hse_event) : acquired (a ++ b) = acquired a ++ acquired b := by
  simp [acquired, List.filterMap_append]

theorem submitted_lens_append (alg : hse_ahash_alg) (a b : List hse_event) :
    submitted_lens alg (a ++ b) = submitted_lens alg a ++ submitted_lens alg b := by
  simp [submitted_lens, List.filterMap_append]

theorem submitted_modes_append (alg : hse_ahash_alg) (a b : List hse_event) :
    submitted_modes alg (a ++ b) = submitted_modes alg a ++ submitted_modes alg b := by
  simp [submitted_modes, List.filterMap_append]

theorem submitted_channels_append (a b : List hse_event) :
    submitted_channels (a ++ b) = submitted_channels a ++ submitted_channels b := by
  simp [submitted_channels, List.filterMap_append]

/-- The digest a terminal call delivers, given what its call left behind. -/
theorem complete_finished (H : List Nat → List Nat) (core : hse_core) (alg : hse_ahash_alg)
    (s : run_state) (n : Nat) (pre : List hse_event) (msg : List Nat)
    (f : hse_ahash_req_ctx × Int × List hse_event)
    (hH : ∀ m, (H m).length = alg.digestsize)
    (hf : finished core alg s.rctx n pre f) (hout : f.1.outlen = alg.digestsize)
    (hin : f.1.buf_mem.take n = msg) :
    (hse_complete H alg s.fw f.1).1 = s.fw ∧
    (hse_complete H alg s.fw f.1).2.2.1 = some (H (absorbed s ++ msg)) ∧
    released (hse_complete H alg s.fw f.1).2.2.2 =
      (if s.rctx.streaming_mode then [s.rctx.channel] else []) ∧
    acquired (hse_complete H alg s.fw f.1).2.2.2 = [] ∧
    submitted_lens alg (hse_complete H alg s.fw f.1).2.2.2 = [] ∧
    submitted_modes alg (hse_complete H alg s.fw f.1).2.2.2 = [] ∧
    submitted_channels (hse_complete H alg s.fw f.1).2.2.2 = [] := by
  by_cases hs : s.rctx.streaming_mode = true
  · have hm : desc_access_mode alg f.1.srv_desc = HSE_ACCESS_MODE_FINISH := by
      rw [hf.mode]; simp [hs]
    obtain ⟨c1, c2, c3, _, _⟩ := complete_finish H alg s.fw f.1 hH hout hm
    refine ⟨c1, ?_, ?_, ?_, ?_, ?_, ?_⟩
    · rw [c2, hf.stream_id, hf.input_len, hin]; simp [absorbed, hs]
    · rw [c3]; simp [released, hs, hf.channel]
    all_goals rw [c3]; simp [acquired, submitted_lens, submitted_modes, submitted_channels]
  · have hs' : s.rctx.streaming_mode = false := by simpa using hs
    have hm : desc_access_mode alg f.1.srv_desc = HSE_ACCESS_MODE_ONE_PASS := by
      rw [hf.mode]; simp [hs']
    obtain ⟨c1, c2, c3, _, _⟩ := complete_one_pass H alg s.fw f.1 hH hout hm
    refine ⟨c1, ?_, ?_, ?_, ?_, ?_, ?_⟩
    · rw [c2, hf.input_len, hin]; simp [absorbed, hs']
    · rw [c3]; simp [released, hs']
    all_goals rw [c3]; simp [acquired, submitted_lens, submitted_modes, submitted_channels]

theorem terminal_trace (H : List Nat → List Nat) (core : hse_core) (alg : hse_ahash_alg)
    (s : run_state) (n : Nat) (pre : List hse_event) (msg : List Nat)
    (f : hse_ahash_req_ctx × Int × List hse_event)
    (hH : ∀ m, (H m).length = alg.digestsize)
    (hf : finished core alg s.rctx n pre f) (hq : quiet alg pre)
    (hout : f.1.outlen = alg.digestsize) (hin : f.1.buf_mem.take n = msg) :
    terminal_facts core alg s
      ⟨(hse_complete H alg s.fw f.1).1, (hse_complete H alg s.fw f.1).2.1,
        s.trace ++ f.2.2 ++ (hse_complete H alg s.fw f.1).2.2.2⟩ n := by
  obtain ⟨_, _, c3, c4, c5, c6, c7⟩ := complete_finished H core alg s n pre msg f hH hf hout hin
  obtain ⟨q1, q2, q3, q4, q5⟩ := hq
  have ht := hf.trace
  constructor
  · simp only [submitted_lens_append, c5, ht, q3]
    by_cases hs : s.rctx.streaming_mode = true <;>
      simp [hs, submitted_lens, hf.input_len]
  · simp only [submitted_modes_append, c6, ht, q4]
    by_cases hs : s.rctx.streaming_mode = true <;>
      simp [hs, submitted_modes, hf.mode]
  · simp only [submitted_channels_append, c7, ht, q5]
    by_cases hs : s.rctx.streaming_mode = true <;>
      simp [hs, submitted_channels, hf.channel]
  · simp only [released_append, c3, ht, q1]
    by_cases hs : s.rctx.streaming_mode = true <;>
      simp [hs, released]
  · simp only [acquired_append, c4, ht, q2]
    by_cases hs : s.rctx.streaming_mode = true <;>
      simp [hs, acquired]

theorem run_final_ok (H : List Nat → List Nat) (core : hse_core) (env : hse_env)
    (alg : hse_ahash_alg) (tctx : hse_ahash_tfm_ctx) (s : run_state)
    (hv : alg.valid) (henv : env.ok) (hH : ∀ m, (H m).length = alg.digestsize)
    (hci : s.rctx.cache_idx ≤ s.rctx.cache.length) :
    ∃ s1, run_final H core env alg tctx s = some (H (absorbed s ++ s.rctx.pending), s1) ∧
      s1.trace = s.trace ++ (hse_ahash_final core env alg tctx s.rctx).2.2 ++
        (hse_complete H alg s.fw (hse_ahash_final core env alg tctx s.rctx).1).2.2.2 ∧
      terminal_facts core alg s s1 s.rctx.cache_idx := by
  obtain ⟨pre, hf, hq, hout, _, _, hin⟩ := final_ok core env alg tctx s.rctx hv henv
  have hc := complete_finished H core alg s _ pre _ _ hH hf hout (hin hci)
  have ht := terminal_trace H core alg s _ pre _ _ hH hf hq hout (hin hci)
  refine ⟨_, ?_, rfl, ht⟩
  simp only [run_final, hf.ret, if_true, hc.2.1]

theorem run_finup_ok (H : List Nat → List Nat) (core : hse_core) (env : hse_env)
    (alg : hse_ahash_alg) (tctx : hse_ahash_tfm_ctx) (s : run_state) (data : List Nat)
    (hv : alg.valid) (henv : env.ok) (hH : ∀ m, (H m).length = alg.digestsize)
    (hci : s.rctx.cache_idx ≤ s.rctx.cache.length)
    (hfit : s.rctx.cache_idx + data.length < U32_MOD) :
    ∃ s1, run_finup H core env alg tctx s data =
        some (H (absorbed s ++ (s.rctx.pending ++ data)), s1) ∧
      s1.trace = s.trace ++ (hse_ahash_finup core env alg tctx s.rctx data).2.2 ++
        (hse_complete H alg s.fw (hse_ahash_finup core env alg tctx s.rctx data).1).2.2.2 ∧
      terminal_facts core alg s s1 (s.rctx.cache_idx + data.length) := by
  obtain ⟨pre, hf, hq, hout, _, _, hin⟩ := finup_ok core env alg tctx s.rctx data hv henv
  rw [Nat.mod_eq_of_lt hfit] at hf hin
  have hc := complete_finished H core alg s _ pre _ _ hH hf hout (hin hci hfit)
  have ht := terminal_trace H core alg s _ pre _ _ hH hf hq hout (hin hci hfit)
  refine ⟨_, ?_, rfl, ht⟩
  simp only [run_finup, hf.ret, if_true, hc.2.1]

theorem run_digest_ok (H : List Nat → List Nat) (core : hse_core) (env : hse_env)
    (alg : hse_ahash_alg) (tctx : hse_ahash_tfm_ctx) (fw : hse_fw)
    (rctx : hse_ahash_req_ctx) (data : List Nat)
    (hv : alg.valid) (henv : env.ok) (hH : ∀ m, (H m).length = alg.digestsize) :
    (run_digest H core env alg tctx fw rctx data).map Prod.fst = some (H data) := by
  have hd := digest_ok core env alg tctx rctx data hv henv
  obtain ⟨_, c2, _, _, _⟩ := complete_one_pass H alg fw
    (hse_ahash_digest core env alg tctx rctx data).1 hH hd.outlen hd.mode
  rw [hd.input_len, hd.input] at c2
  simp only [run_digest, hd.ret, if_true, c2, Option.map_some']

theorem run_init_ok (core : hse_core) (env : hse_env) (fw : hse_fw)
    (rctx : hse_ahash_req_ctx) (henv : env.ok) :
    ∃ s, run_init core env fw rctx = some s ∧ s.fw = fw ∧
      s.rctx.cache = rctx.cache ∧ s.rctx.cache_idx = 0 ∧ s.rctx.streaming_mode = false ∧
      s.rctx.channel = env.acquire_channel ∧ s.rctx.stream = env.acquire_stream ∧
      s.rctx.result = rctx.result ∧
      s.trace = [hse_event.channel_acquire core.HSE_CH_TYPE_STREAM env.acquire_channel
        env.acquire_stream] := by
  obtain ⟨_, _, _, _, _, _, hacq, _, _⟩ := henv
  have hret : (hse_ahash_init core env rctx).2.1 = 0 := hacq
  refine ⟨⟨fw, (hse_ahash_init core env rctx).1, (hse_ahash_init core env rctx).2.2⟩, ?_,
    rfl, rfl, rfl, rfl, rfl, rfl, rfl, ?_⟩
  · simp only [run_init, hret, if_true]
  · simp [hse_ahash_init, hacq]

theorem run_updates_append (H : List Nat → List Nat) (alg : hse_ahash_alg)
    (tctx : hse_ahash_tfm_ctx) (steps : List (hse_env × List Nat)) :
    ∀ (s : run_state) (step : hse_env × List Nat),
      run_updates H alg tctx s (steps ++ [step]) =
        (run_updates H alg tctx s steps).bind fun s1 => run_update H alg tctx s1 step := by
  induction steps with
  | nil =>
    intro s step
    simp [run_updates]
  | cons st rest ih =>
    intro s step
    simp only [run_updates, List.cons_append]
    cases h : run_update H alg tctx s st with
    | none => simp
    | some s1 => simp [ih]

theorem stream_modes_snoc (b : Bool) (n : Nat) :
    stream_modes b n ++
        [if (b || !(decide (n = 0))) = true then HSE_ACCESS_MODE_UPDATE
          else HSE_ACCESS_MODE_START] =
      stream_modes b (n + 1) := by
  cases n with
  | zero => simp [stream_modes]
  | succ k =>
    simp [stream_modes, List.replicate_succ']

theorem run_updates_ok (H : List Nat → List Nat) (alg : hse_ahash_alg)
    (tctx : hse_ahash_tfm_ctx) (s0 : run_state) (hv : alg.valid)
    (hlen : s0.rctx.cache.length = HSE_AHASH_MAX_BLOCK_SIZE)
    (hci : s0.rctx.cache_idx ≤ alg.blocksize) (steps : List (hse_env × List Nat)) :
    (∀ st ∈ steps, st.1.ok ∧ st.2.length + HSE_AHASH_MAX_BLOCK_SIZE < U32_MOD) →
    ∃ s ls, run_updates H alg tctx s0 steps = some s ∧
      run_facts alg s0 s (steps_input steps) ls := by
  induction steps using List.reverseRecOn with
  | nil =>
    intro _
    refine ⟨s0, [], rfl, ?_⟩
    constructor <;> simp [steps_input, hlen, hci, stream_modes]
  | append_singleton steps st ih =>
    intro hsteps
    obtain ⟨s, ls, hrun, hf⟩ := ih (fun x hx => hsteps x (List.mem_append_left _ hx))
    obtain ⟨henv, hdata⟩ := hsteps st (List.mem_append_right _ (List.mem_singleton_self _))
    obtain ⟨s1, hstep, hsf⟩ := run_update_ok H alg tctx s st.1 st.2 hv henv hf.cache_len
      hf.cache_idx_le hdata
    have hinput : steps_input (steps ++ [st]) = steps_input steps ++ st.2 := by
      simp [steps_input]
    have hrun1 : run_updates H alg tctx s0 (steps ++ [st]) = some s1 := by
      rw [run_updates_append, hrun]; exact hstep
    rcases hsf.cases with ⟨c1, c2, c3, c4, c5, _⟩ | ⟨c1, c0, c2, c3, c4, c5⟩
    · refine ⟨s1, ls, hrun1, ?_⟩
      constructor
      · exact hsf.cache_len
      · exact hsf.cache_idx_le
      · rw [hsf.message, hf.message, hinput]; simp
      · rw [hsf.channel, hf.channel]
      · rw [hsf.stream, hf.stream]
      · rw [hsf.result, hf.result]
      · rw [hsf.released, hf.released]
      · rw [hsf.acquired, hf.acquired]
      · rw [c2, hf.lens]
      · exact hf.lens_pos
      · have := hf.lens_sum
        rw [c5, hinput, List.length_append]; omega
      · rw [c3, hf.modes]
      · rw [c4, hf.channels]
      · rw [c1, hf.streaming]
    · have hf1 := le_rounddown (s.rctx.cache_idx + st.2.length) alg.blocksize hv.2.1
        (le_of_lt c0)
      refine ⟨s1, ls ++ [rounddown (s.rctx.cache_idx + st.2.length) alg.blocksize], hrun1, ?_⟩
      constructor
      · exact hsf.cache_len
      · exact hsf.cache_idx_le
      · rw [hsf.message, hf.message, hinput]; simp
      · rw [hsf.channel, hf.channel]
      · rw [hsf.stream, hf.stream]
      · rw [hsf.result, hf.result]
      · rw [hsf.released, hf.released]
      · rw [hsf.acquired, hf.acquired]
      · rw [c2, hf.lens]; simp
      · intro l hl
        rcases List.mem_append.mp hl with h | h
        · exact hf.lens_pos l h
        · rw [List.mem_singleton.mp h]
          exact ⟨lt_of_lt_of_le hv.2.1 hf1, rounddown_dvd _ _⟩
      · have := hf.lens_sum
        rw [List.sum_append, hinput, List.length_append]
        simp only [List.sum_cons, List.sum_nil]
        omega
      · rw [c3, hf.modes, hf.streaming, List.length_append, List.length_singleton,
          ← stream_modes_snoc, List.append_assoc]
        cases hb : s0.rctx.streaming_mode <;> cases ls <;> simp
      · rw [c4, hf.channels, hf.channel, List.length_append, List.length_singleton,
          List.replicate_succ', List.append_assoc]
      · rw [c1]; simp

theorem freed_append (a b : List hse_event) : freed (a ++ b) = freed a ++ freed b := by
  simp [freed, List.filterMap_append]

theorem sync_requests_append (a b : List hse_event) :
    sync_requests (a ++ b) = sync_requests a ++ sync_requests b := by
  simp [sync_requests, List.filterMap_append]

theorem release_channel_and_buf_events (rctx : hse_ahash_req_ctx) :
    (release_channel_and_buf rctx).1.buflen = 0 ∧
    released (release_channel_and_buf rctx).2 = [rctx.channel] ∧
    acquired (release_channel_and_buf rctx).2 = [] ∧
    freed (release_channel_and_buf rctx).2 = (if rctx.buflen ≠ 0 then [rctx.buf] else []) ∧
    sync_requests (release_channel_and_buf rctx).2 = [] := by
  by_cases hb : rctx.buflen = 0 <;>
    simp [release_channel_and_buf, released, acquired, freed, sync_requests, hb]

theorem export_events (env : hse_env) (rctx : hse_ahash_req_ctx) (out_valid : Bool) :
    (hse_ahash_export env rctx out_valid).1.buflen = 0 ∧
    (hse_ahash_export env rctx out_valid).2.2.2 =
      (if out_valid && env.kzalloc_state && rctx.streaming_mode && !env.dma_map_sctx.error then
        [hse_event.dma_map_single env.dma_map_sctx.addr HSE_MAX_CTX_SIZE,
         hse_event.srv_req_sync rctx.channel
           { rctx.srv_desc with
             srv_id := HSE_SRV_ID_IMPORT_EXPORT_STREAM_CTX
             ctx_impex_req :=
               { rctx.srv_desc.ctx_impex_req with
                 operation := HSE_EXPORT_STREAMING_CONTEXT
                 stream_id := rctx.stream
                 stream_ctx := env.dma_map_sctx.addr } }
           env.exported_sctx env.srv_req_sync,
         hse_event.dma_unmap_single env.dma_map_sctx.addr HSE_MAX_CTX_SIZE]
       else []) ++ (release_channel_and_buf rctx).2 := by
  cases out_valid
  · simp [hse_ahash_export, release_channel_and_buf]
  rcases hk : env.kzalloc_state
  · simp [hse_ahash_export, release_channel_and_buf, hk]
  rcases hs : rctx.streaming_mode
  · simp [hse_ahash_export, release_channel_and_buf, hk, hs]
  rcases hm : env.dma_map_sctx.error
  · simp [hse_ahash_export, release_channel_and_buf, hk, hs, hm]
  · simp [hse_ahash_export, release_channel_and_buf, hk, hs, hm]

theorem final_submit_released (core : hse_core) (env : hse_env) (alg : hse_ahash_alg)
    (tctx : hse_ahash_tfm_ctx) (rctx : hse_ahash_req_ctx) (ev : List hse_event) (err : Int)
    (c : Nat) (s : Bool) (hv : alg.valid) (hch : rctx.channel = c)
    (hst : rctx.streaming_mode = s) (hea : acquired ev = []) (her : released ev = []) :
    acquired (with_completion alg err env.srv_req_async
      (final_submit core env alg tctx rctx ev)) = [] ∧
    (released (with_completion alg err env.srv_req_async
        (final_submit core env alg tctx rctx ev)) = [c] ∨
      (s = false ∧ env.srv_req_async ≠ 0 ∧
        (final_submit core env alg tctx rctx ev).2.1 = env.srv_req_async ∧
        released (with_completion alg err env.srv_req_async
          (final_submit core env alg tctx rctx ev)) = [c, core.HSE_CHANNEL_ANY])) := by
  have hd := fun r n => (desc_finish_fields alg tctx r n hv).1
  have h30 : HSE_ACCESS_MODE_FINISH ≠ HSE_ACCESS_MODE_ONE_PASS := by decide
  have h31 : HSE_ACCESS_MODE_FINISH ≠ HSE_ACCESS_MODE_START := by decide
  have h01 : HSE_ACCESS_MODE_ONE_PASS ≠ HSE_ACCESS_MODE_START := by decide
  subst hch hst
  have e1 : ∀ l : List hse_event, acquired (ev ++ l) = acquired l := by
    intro l; rw [acquired_append, hea]; rfl
  have e2 : ∀ l : List hse_event, released (ev ++ l) = released l := by
    intro l; rw [released_append, her]; rfl
  rcases hs : rctx.streaming_mode <;> by_cases hc : rctx.cache_idx = 0 <;>
    by_cases ha : env.srv_req_async = 0 <;> by_cases he : err = 0 <;>
    simp [with_completion, final_submit, final_err, hse_ahash_done, List.append_assoc, e1, e2,
      hs, hc, ha, he, hd, h30, h31, h01, h30.symm] <;>
    simp [released, acquired]

theorem final_err_released (core : hse_core) (alg : hse_ahash_alg) (rctx : hse_ahash_req_ctx)
    (level : Nat) (ev : List hse_event) (e a : Int) (c : Nat) (s : Bool)
    (hch : rctx.channel = c) (hea : acquired ev = []) (her : released ev = []) :
    acquired (with_completion alg e a (final_err rctx level (-ENOMEM) ev)) = [] ∧
    (released (with_completion alg e a (final_err rctx level (-ENOMEM) ev)) = [c] ∨
      (s = false ∧ a ≠ 0 ∧ (final_err rctx level (-ENOMEM) ev).2.1 = a ∧
        released (with_completion alg e a (final_err rctx level (-ENOMEM) ev)) =
          [c, core.HSE_CHANNEL_ANY])) := by
  subst hch
  have e1 : ∀ l : List hse_event, acquired (ev ++ l) = acquired l := by
    intro l; rw [acquired_append, hea]; rfl
  have e2 : ∀ l : List hse_event, released (ev ++ l) = released l := by
    intro l; rw [released_append, her]; rfl
  refine ⟨?_, Or.inl ?_⟩ <;>
    by_cases h2 : 2 ≤ level <;> by_cases h1 : 1 ≤ level <;>
    simp [with_completion, final_err, List.append_assoc, e1, e2, h1, h2, ENOMEM,
      EINPROGRESS] <;>
    simp [released, acquired]

theorem final_released (core : hse_core) (env : hse_env) (alg : hse_ahash_alg)
    (tctx : hse_ahash_tfm_ctx) (rctx : hse_ahash_req_ctx) (err : Int) (hv : alg.valid) :
    acquired (with_completion alg err env.srv_req_async
      (hse_ahash_final core env alg tctx rctx)) = [] ∧
    (released (with_completion alg err env.srv_req_async
        (hse_ahash_final core env alg tctx rctx)) = [rctx.channel] ∨
      (rctx.streaming_mode = false ∧ env.srv_req_async ≠ 0 ∧
        (hse_ahash_final core env alg tctx rctx).2.1 = env.srv_req_async ∧
        released (with_completion alg err env.srv_req_async
          (hse_ahash_final core env alg tctx rctx)) =
            [rctx.channel, core.HSE_CHANNEL_ANY])) := by
  unfold hse_ahash_final
  dsimp only
  repeat' split
  all_goals
    first
      | exact final_err_released core alg _ _ _ err env.srv_req_async _ _ rfl
          (by simp [acquired]) (by simp [released])
      | exact final_submit_released core env alg tctx _ _ err _ _ hv rfl rfl
          (by simp [acquired]) (by simp [released])

theorem finup_submit_released (core : hse_core) (env : hse_env) (alg : hse_ahash_alg)
    (tctx : hse_ahash_tfm_ctx) (rctx : hse_ahash_req_ctx) (data : List Nat) (bytes_left : Nat)
    (ev : List hse_event) (err : Int)
    (c : Nat) (s : Bool) (hv : alg.valid) (hch : rctx.channel = c)
    (hst : rctx.streaming_mode = s) (hea : acquired ev = []) (her : released ev = []) :
    acquired (with_completion alg err env.srv_req_async
      (finup_submit core env alg tctx rctx data bytes_left ev)) = [] ∧
    (released (with_completion alg err env.srv_req_async
        (finup_submit core env alg tctx rctx data bytes_left ev)) = [c] ∨
      (s = false ∧ env.srv_req_async ≠ 0 ∧
        (finup_submit core env alg tctx rctx data bytes_left ev).2.1 = env.srv_req_async ∧
        released (with_completion alg err env.srv_req_async
          (finup_submit core env alg tctx rctx data bytes_left ev)) =
            [c, core.HSE_CHANNEL_ANY])) := by
  have hd := fun r n => (desc_finish_fields alg tctx r n hv).1
  have h30 : HSE_ACCESS_MODE_FINISH ≠ HSE_ACCESS_MODE_ONE_PASS := by decide
  have h31 : HSE_ACCESS_MODE_FINISH ≠ HSE_ACCESS_MODE_START := by decide
  have h01 : HSE_ACCESS_MODE_ONE_PASS ≠ HSE_ACCESS_MODE_START := by decide
  subst hch hst
  have e1 : ∀ l : List hse_event, acquired (ev ++ l) = acquired l := by
    intro l; rw [acquired_append, hea]; rfl
  have e2 : ∀ l : List hse_event, released (ev ++ l) = released l := by
    intro l; rw [released_append, her]; rfl
  rcases hs : rctx.streaming_mode <;> by_cases hb : rctx.buflen = 0 <;>
    by_cases ha : env.srv_req_async = 0 <;> by_cases he : err = 0 <;>
    simp [with_completion, finup_submit, finup_err, hse_ahash_done, List.append_assoc, e1, e2,
      release_channel_and_buf, hb,
      hs, ha, he, hd, h30, h31, h01, h30.symm] <;>
    simp [released, acquired]

theorem finup_err_released (core : hse_core) (alg : hse_ahash_alg) (rctx : hse_ahash_req_ctx)
    (level : Nat) (ev : List hse_event) (e a : Int) (c : Nat) (s : Bool)
    (hch : rctx.channel = c) (hea : acquired ev = []) (her : released ev = []) :
    acquired (with_completion alg e a (finup_err rctx level (-ENOMEM) ev)) = [] ∧
    (released (with_completion alg e a (finup_err rctx level (-ENOMEM) ev)) = [c] ∨
      (s = false ∧ a ≠ 0 ∧ (finup_err rctx level (-ENOMEM) ev).2.1 = a ∧
        released (with_completion alg e a (finup_err rctx level (-ENOMEM) ev)) =
          [c, core.HSE_CHANNEL_ANY])) := by
  subst hch
  have e1 : ∀ l : List hse_event, acquired (ev ++ l) = acquired l := by
    intro l; rw [acquired_append, hea]; rfl
  have e2 : ∀ l : List hse_event, released (ev ++ l) = released l := by
    intro l; rw [released_append, her]; rfl
  refine ⟨?_, Or.inl ?_⟩ <;>
    by_cases h2 : 2 ≤ level <;> by_cases h1 : 1 ≤ level <;> by_cases hb : rctx.buflen = 0 <;>
    simp [with_completion, finup_err, List.append_assoc, e1, e2, release_channel_and_buf, hb,
      h1, h2, ENOMEM, EINPROGRESS] <;>
    simp [released, acquired]

theorem finup_released (core : hse_core) (env : hse_env) (alg : hse_ahash_alg)
    (tctx : hse_ahash_tfm_ctx) (rctx : hse_ahash_req_ctx) (data : List Nat) (err : Int)
    (hv : alg.valid) :
    acquired (with_completion alg err env.srv_req_async
      (hse_ahash_finup core env alg tctx rctx data)) = [] ∧
    (released (with_completion alg err env.srv_req_async
        (hse_ahash_finup core env alg tctx rctx data)) = [rctx.channel] ∨
      (rctx.streaming_mode = false ∧ env.srv_req_async ≠ 0 ∧
        (hse_ahash_finup core env alg tctx rctx data).2.1 = env.srv_req_async ∧
        released (with_completion alg err env.srv_req_async
          (hse_ahash_finup core env alg tctx rctx data)) =
            [rctx.channel, core.HSE_CHANNEL_ANY])) := by
  unfold hse_ahash_finup
  dsimp only
  repeat' split
  all_goals
    first
      | exact finup_err_released core alg _ _ _ err env.srv_req_async _ _ rfl
          (by simp [acquired, acquired_append]) (by simp [released, released_append])
      | exact finup_submit_released core env alg tctx _ _ _ _ err _ _ hv rfl rfl
          (by simp [acquired, acquired_append]) (by simp [released, released_append])

theorem export_channel_events (env : hse_env) (rctx : hse_ahash_req_ctx) (out_valid : Bool) :
    released (hse_ahash_export env rctx out_valid).2.2.2 = [rctx.channel] ∧
    acquired (hse_ahash_export env rctx out_valid).2.2.2 = [] := by
  obtain ⟨_, hev⟩ := export_events env rctx out_valid
  obtain ⟨_, r1, r2, _, _⟩ := release_channel_and_buf_events rctx
  rw [hev, released_append, acquired_append, r1, r2]
  constructor <;> split <;> simp [released, acquired]

theorem setkey_short (core : hse_core) (env : hse_setkey_env) (alg : hse_ahash_alg)
    (tctx : hse_ahash_tfm_ctx) (key : List Nat)
    (hguard : ¬ (key.length = tctx.keylen ∧
      key = tctx.keybuf.take key.length))
    (hle : key.length ≤ alg.blocksize) :
    hse_ahash_setkey core env alg tctx key =
      setkey_import core env
        { tctx with
          keybuf := memcpy (memcpy tctx.keybuf 0 key key.length) key.length
            (List.replicate (max HSE_KEY_HMAC_MIN_SIZE key.length - key.length) 0)
            (max HSE_KEY_HMAC_MIN_SIZE key.length - key.length)
          keylen := max HSE_KEY_HMAC_MIN_SIZE key.length } [] := by
  have h : ¬ key.length > alg.blocksize := Nat.not_lt.mpr hle
  unfold hse_ahash_setkey
  simp only [hguard, h, if_false]

theorem setkey_long (core : hse_core) (env : hse_setkey_env) (alg : hse_ahash_alg)
    (tctx : hse_ahash_tfm_ctx) (key : List Nat)
    (hguard : ¬ (key.length = tctx.keylen ∧
      key = tctx.keybuf.take key.length))
    (hgt : alg.blocksize < key.length)
    (hk : env.kmemdup_key = true) (hm : env.dma_map_key.error = false)
    (hs : env.sync_hash = 0) :
    hse_ahash_setkey core env alg tctx key =
      setkey_import core env
        { tctx with
          keybuf := memcpy tctx.keybuf 0 env.key_digest
            (min alg.digestsize env.key_digest.length)
          keylen := min alg.digestsize env.key_digest.length
          srv_desc := hse_srv_desc_zero }
        [hse_event.dma_map_single env.dma_map_key.addr key.length,
         hse_event.srv_req_sync core.HSE_CHANNEL_ANY
           (setkey_hash_desc alg tctx key.length env.dma_map_key.addr) key 0,
         hse_event.dma_unmap_single env.dma_map_key.addr key.length] := by
  have h : key.length > alg.blocksize := hgt
  unfold hse_ahash_setkey
  simp only [hguard, h, if_false, if_true]
  simp [hk, hm, hs, fw_write_key, setkey_hash_desc]

theorem setkey_long_error (core : hse_core) (env : hse_setkey_env) (alg : hse_ahash_alg)
    (tctx : hse_ahash_tfm_ctx) (key : List Nat)
    (hguard : ¬ (key.length = tctx.keylen ∧
      key = tctx.keybuf.take key.length))
    (hgt : alg.blocksize < key.length) :
    (hse_ahash_setkey core env alg tctx key).2.1 = -ENOMEM ∨
    sync_requests (hse_ahash_setkey core env alg tctx key).2.2 ≠ [] := by
  have h : key.length > alg.blocksize := hgt
  unfold hse_ahash_setkey
  simp only [hguard, h, if_false, if_true]
  rcases hk : env.kmemdup_key <;> rcases hm : env.dma_map_key.error <;>
    by_cases hs : env.sync_hash = 0 <;>
    simp [hk, hm, hs, setkey_import, sync_requests]

theorem stored_short_key (kb key : List Nat) (n : Nat) :
    (memcpy (memcpy kb 0 key key.length) key.length (List.replicate n 0) n).take
      (key.length + n) = key ++ List.replicate n 0 := by
  simp [memcpy, List.take_append_eq_append_take]

theorem setkey_import_events (core : hse_core) (env : hse_setkey_env)
    (tctx : hse_ahash_tfm_ctx) (ev : List hse_event) :
    (setkey_import core env tctx ev).1.keylen = tctx.keylen ∧
    (setkey_import core env tctx ev).1.keybuf = tctx.keybuf ∧
    (setkey_import core env tctx ev).1.keyinf =
      { key_flags := HSE_KF_USAGE_SIGN
        key_bit_len := (tctx.keylen * BITS_PER_BYTE) % U16_MOD
        key_type := HSE_KEY_TYPE_HMAC } ∧
    (setkey_import core env tctx ev).2.1 = env.sync_import ∧
    sync_requests (setkey_import core env tctx ev).2.2 =
      sync_requests ev ++
        [(core.HSE_CHANNEL_ANY,
          { hse_srv_desc_zero with
            srv_id := HSE_SRV_ID_IMPORT_KEY
            import_key_req :=
              { key_handle := tctx.key_slot_handle
                key_info := tctx.keyinf_dma
                sym_key := tctx.keybuf_dma
                sym_keylen := tctx.keylen % U16_MOD
                cipher_key := HSE_INVALID_KEY_HANDLE
                auth_key := HSE_INVALID_KEY_HANDLE } },
          tctx.keybuf.take tctx.keylen, env.sync_import)] := by
  refine ⟨rfl, rfl, rfl, rfl, ?_⟩
  simp [setkey_import, setkey_import_desc, sync_requests, List.filterMap_append,
    hse_srv_desc_zero]

theorem allocated_append (a b : List hse_event) :
    allocated (a ++ b) = allocated a ++ allocated b := by
  simp [allocated, List.filterMap_append]

theorem update_submit_pending (env : hse_env) (alg : hse_ahash_alg) (tctx : hse_ahash_tfm_ctx)
    (rctx : hse_ahash_req_ctx) (data : List Nat) (bl full : Nat) (ev : List hse_event)
    (hv : alg.valid) (hasync : env.srv_req_async = 0) :
    (update_submit env alg tctx rctx data bl full ev).2.1 = -EINPROGRESS ∧
    (update_submit env alg tctx rctx data bl full ev).1.buflen = rctx.buflen ∧
    (update_submit env alg tctx rctx data bl full ev).1.buf = rctx.buf ∧
    (update_submit env alg tctx rctx data bl full ev).1.streaming_mode =
      rctx.streaming_mode ∧
    desc_access_mode alg (update_submit env alg tctx rctx data bl full ev).1.srv_desc =
      (if rctx.streaming_mode then HSE_ACCESS_MODE_UPDATE else HSE_ACCESS_MODE_START) ∧
    submitted_modes alg (update_submit env alg tctx rctx data bl full ev).2.2 =
      submitted_modes alg ev ++
        [if rctx.streaming_mode then HSE_ACCESS_MODE_UPDATE else HSE_ACCESS_MODE_START] ∧
    allocated (update_submit env alg tctx rctx data bl full ev).2.2 = allocated ev ∧
    freed (update_submit env alg tctx rctx data bl full ev).2.2 = freed ev := by
  have hd := fun r => (desc_update_mode alg tctx r full hv).1
  refine ⟨?_, ?_, ?_, ?_, ?_, ?_, ?_, ?_⟩ <;>
    simp [update_submit, hasync, hd, submitted_modes, allocated, freed, List.filterMap_append]

theorem update_pending (env : hse_env) (alg : hse_ahash_alg) (tctx : hse_ahash_tfm_ctx)
    (rctx : hse_ahash_req_ctx) (data : List Nat)
    (hv : alg.valid) (hasync : env.srv_req_async = 0)
    (hret : (hse_ahash_update env alg tctx rctx data).2.1 = -EINPROGRESS) :
    data.length ≠ 0 ∧ alg.blocksize < (rctx.cache_idx + data.length) % U32_MOD ∧
    (hse_ahash_update env alg tctx rctx data).1.buflen =
      max rctx.buflen (rounddown ((rctx.cache_idx + data.length) % U32_MOD) alg.blocksize) ∧
    (hse_ahash_update env alg tctx rctx data).1.streaming_mode = rctx.streaming_mode ∧
    desc_access_mode alg (hse_ahash_update env alg tctx rctx data).1.srv_desc =
      (if rctx.streaming_mode then HSE_ACCESS_MODE_UPDATE else HSE_ACCESS_MODE_START) ∧
    submitted_modes alg (hse_ahash_update env alg tctx rctx data).2.2 =
      [if rctx.streaming_mode then HSE_ACCESS_MODE_UPDATE else HSE_ACCESS_MODE_START] ∧
    allocated (hse_ahash_update env alg tctx rctx data).2.2 =
      (if rctx.buflen < rounddown ((rctx.cache_idx + data.length) % U32_MOD) alg.blocksize
       then [(hse_ahash_update env alg tctx rctx data).1.buf] else []) ∧
    freed (hse_ahash_update env alg tctx rctx data).2.2 =
      (if rctx.buflen < rounddown ((rctx.cache_idx + data.length) % U32_MOD) alg.blocksize ∧
          rctx.buflen ≠ 0 then [rctx.buf] else []) := by
  have hne1 : (0 : Int) ≠ -EINPROGRESS := by decide
  have hne2 : -ENOMEM ≠ -EINPROGRESS := by decide
  by_cases hn : data.length = 0
  · exfalso; revert hret; simp [hse_ahash_update, hn, hne1]
  by_cases hle : (rctx.cache_idx + data.length) % U32_MOD ≤ alg.blocksize
  · exfalso; revert hret; simp [hse_ahash_update, hn, hle, hne1]
  refine ⟨hn, Nat.not_le.mp hle, ?_⟩
  by_cases hb : rctx.buflen <
      rounddown ((rctx.cache_idx + data.length) % U32_MOD) alg.blocksize
  · rcases hk : env.kzalloc_buf with _ | p
    · exfalso; revert hret
      simp [hse_ahash_update, hn, hle, hb, hk, release_channel_and_buf, hne2]
    rcases hm : env.dma_map_buf.error
    swap
    · exfalso; revert hret
      simp [hse_ahash_update, hn, hle, hb, hk, hm, release_channel_and_buf, hne2]
    have hmax : max rctx.buflen
        (rounddown ((rctx.cache_idx + data.length) % U32_MOD) alg.blocksize) =
        rounddown ((rctx.cache_idx + data.length) % U32_MOD) alg.blocksize :=
      max_eq_right (le_of_lt hb)
    have hS := fun r ev => update_submit_pending env alg tctx r data
      ((rctx.cache_idx + data.length) % U32_MOD)
      (rounddown ((rctx.cache_idx + data.length) % U32_MOD) alg.blocksize) ev hv hasync
    by_cases hb0 : rctx.buflen = 0
    · have hb' : 0 < rounddown ((rctx.cache_idx + data.length) % U32_MOD) alg.blocksize := by
        rw [hb0] at hb; exact hb
      simp [hse_ahash_update, hn, hle, hb', hk, hm, hb0, hS]
      simp [allocated, freed, submitted_modes]
    · simp [hse_ahash_update, hn, hle, hb, hk, hm, hb0, hS, hmax]
      simp [allocated, freed, submitted_modes]
  · have hmax : max rctx.buflen
        (rounddown ((rctx.cache_idx + data.length) % U32_MOD) alg.blocksize) =
        rctx.buflen := max_eq_left (Nat.not_lt.mp hb)
    have hS := update_submit_pending env alg tctx rctx data
      ((rctx.cache_idx + data.length) % U32_MOD)
      (rounddown ((rctx.cache_idx + data.length) % U32_MOD) alg.blocksize) [] hv hasync
    simp [hse_ahash_update, hn, hle, hb, hS, hmax]
    simp [allocated, freed, submitted_modes]

theorem update_ret_zero (env : hse_env) (alg : hse_ahash_alg) (tctx : hse_ahash_tfm_ctx)
    (rctx : hse_ahash_req_ctx) (data : List Nat)
    (hret : (hse_ahash_update env alg tctx rctx data).2.1 = 0) :
    (hse_ahash_update env alg tctx rctx data).1.buflen = rctx.buflen ∧
    (hse_ahash_update env alg tctx rctx data).2.2 = [] := by
  have hne1 : -EINPROGRESS ≠ (0 : Int) := by decide
  have hne2 : -ENOMEM ≠ (0 : Int) := by decide
  by_cases hn : data.length = 0
  · simp [hse_ahash_update, hn]
  by_cases hle : (rctx.cache_idx + data.length) % U32_MOD ≤ alg.blocksize
  · simp [hse_ahash_update, hn, hle]
  exfalso
  revert hret
  by_cases ha : env.srv_req_async = 0
  · by_cases hb : rctx.buflen <
        rounddown ((rctx.cache_idx + data.length) % U32_MOD) alg.blocksize
    · rcases hk : env.kzalloc_buf with _ | p
      · simp [hse_ahash_update, hn, hle, hb, hk, release_channel_and_buf, hne2]
      rcases hm : env.dma_map_buf.error
      · simp [hse_ahash_update, update_submit, hn, hle, hb, hk, hm, ha, hne1]
      · simp [hse_ahash_update, hn, hle, hb, hk, hm, release_channel_and_buf, hne2]
    · simp [hse_ahash_update, update_submit, hn, hle, hb, ha, hne1]
  · by_cases hb : rctx.buflen <
        rounddown ((rctx.cache_idx + data.length) % U32_MOD) alg.blocksize
    · rcases hk : env.kzalloc_buf with _ | p
      · simp [hse_ahash_update, hn, hle, hb, hk, release_channel_and_buf, hne2]
      rcases hm : env.dma_map_buf.error
      · simp [hse_ahash_update, update_submit, hn, hle, hb, hk, hm, ha,
          release_channel_and_buf]
      · simp [hse_ahash_update, hn, hle, hb, hk, hm, release_channel_and_buf, hne2]
    · simp [hse_ahash_update, update_submit, hn, hle, hb, ha, release_channel_and_buf]

theorem complete_after_update (H : List Nat → List Nat) (alg : hse_ahash_alg) (fw : hse_fw)
    (rctx : hse_ahash_req_ctx)
    (hm : desc_access_mode alg rctx.srv_desc = HSE_ACCESS_MODE_START ∨
      desc_access_mode alg rctx.srv_desc = HSE_ACCESS_MODE_UPDATE) :
    (hse_complete H alg fw rctx).2.1.buflen = rctx.buflen ∧
    (hse_complete H alg fw rctx).2.1.buf = rctx.buf ∧
    (hse_complete H alg fw rctx).2.2.2 = [hse_event.request_complete 0] := by
  rcases hm with h | h
  · rw [complete_start H alg fw rctx h]; exact ⟨rfl, rfl, rfl⟩
  · rw [complete_update H alg fw rctx h]; exact ⟨rfl, rfl, rfl⟩

theorem run_update_buflen (H : List Nat → List Nat) (alg : hse_ahash_alg)
    (tctx : hse_ahash_tfm_ctx) (s s1 : run_state) (step : hse_env × List Nat)
    (hv : alg.valid) (hasync : step.1.srv_req_async = 0)
    (hrun : run_update H alg tctx s step = some s1) :
    s.rctx.buflen ≤ s1.rctx.buflen := by
  unfold run_update at hrun
  by_cases h0 : (hse_ahash_update step.1 alg tctx s.rctx step.2).2.1 = 0
  · rw [if_pos h0] at hrun
    simp only [Option.some.injEq] at hrun
    rw [← hrun]
    exact le_of_eq (update_ret_zero step.1 alg tctx s.rctx step.2 h0).1.symm
  by_cases h1 : (hse_ahash_update step.1 alg tctx s.rctx step.2).2.1 = -EINPROGRESS
  · rw [if_neg h0, if_pos h1] at hrun
    simp only [Option.some.injEq] at hrun
    obtain ⟨_, _, hbl, _, hmode, _⟩ := update_pending step.1 alg tctx s.rctx step.2 hv hasync h1
    have hm : desc_access_mode alg
          (hse_ahash_update step.1 alg tctx s.rctx step.2).1.srv_desc =
            HSE_ACCESS_MODE_START ∨
        desc_access_mode alg
          (hse_ahash_update step.1 alg tctx s.rctx step.2).1.srv_desc =
            HSE_ACCESS_MODE_UPDATE := by
      rw [hmode]; by_cases hs : s.rctx.streaming_mode = true <;> simp [hs]
    have hc := (complete_after_update H alg s.fw _ hm).1
    rw [← hrun]
    show s.rctx.buflen ≤ (hse_complete H alg s.fw
      (hse_ahash_update step.1 alg tctx s.rctx step.2).1).2.1.buflen
    rw [hc, hbl]
    exact le_max_left _ _
  · rw [if_neg h0, if_neg h1] at hrun
    simp at hrun

theorem run_updates_buflen (H : List Nat → List Nat) (alg : hse_ahash_alg)
    (tctx : hse_ahash_tfm_ctx) (hv : alg.valid) (steps : List (hse_env × List Nat)) :
    ∀ (s s1 : run_state), (∀ st ∈ steps, st.1.srv_req_async = 0) →
      run_updates H alg tctx s steps = some s1 → s.rctx.buflen ≤ s1.rctx.buflen := by
  induction steps with
  | nil =>
    intro s s1 _ hrun
    simp only [run_updates, Option.some.injEq] at hrun
    rw [hrun]
  | cons st rest ih =>
    intro s s1 hsteps hrun
    simp only [run_updates] at hrun
    rcases hu : run_update H alg tctx s st with _ | s2
    · rw [hu] at hrun; simp at hrun
    · rw [hu, Option.some_bind] at hrun
      have h1 := run_update_buflen H alg tctx s s2 st hv
        (hsteps st (List.mem_cons_self _ _)) hu
      have h2 := ih s2 s1 (fun x hx => hsteps x (List.mem_cons_of_mem _ hx)) hrun
      exact le_trans h1 h2

theorem submitted_inputs_append (a b : List hse_event) :
    submitted_inputs (a ++ b) = submitted_inputs a ++ submitted_inputs b := by
  simp [submitted_inputs, List.filterMap_append]

theorem submitted_inputs_of_lens (alg : hse_ahash_alg) (tr : List hse_event)
    (h : submitted_lens alg tr = []) : submitted_inputs tr = [] := by
  induction tr with
  | nil => rfl
  | cons e rest ih =>
    cases e <;> simp_all [submitted_lens, submitted_inputs, List.filterMap_cons]

theorem update_flush_inputs (env : hse_env) (alg : hse_ahash_alg) (tctx : hse_ahash_tfm_ctx)
    (rctx : hse_ahash_req_ctx) (data : List Nat)
    (henv : env.ok) (hn : data.length ≠ 0)
    (hgt : alg.blocksize < rctx.cache_idx + data.length)
    (hlt : rctx.cache_idx + data.length < U32_MOD) :
    submitted_inputs (hse_ahash_update env alg tctx rctx data).2.2 =
      [(hse_ahash_update env alg tctx rctx data).1.buf_mem.take
        (rounddown (rctx.cache_idx + data.length) alg.blocksize)] := by
  obtain ⟨hk, _, _, _, hm, _, _, ha, _⟩ := henv
  obtain ⟨p, hp⟩ := Option.isSome_iff_exists.mp hk
  have hbl : (rctx.cache_idx + data.length) % U32_MOD = rctx.cache_idx + data.length :=
    Nat.mod_eq_of_lt hlt
  have hle : ¬ rctx.cache_idx + data.length ≤ alg.blocksize := Nat.not_le.mpr hgt
  by_cases hb0 : rctx.buflen = 0
  · by_cases hb : 0 < rounddown (rctx.cache_idx + data.length) alg.blocksize <;>
      simp [hse_ahash_update, update_submit, submitted_inputs, List.filterMap_append,
        hp, hm, ha, hn, hbl, hle, hb, hb0]
  · by_cases hb : rctx.buflen < rounddown (rctx.cache_idx + data.length) alg.blocksize <;>
      simp [hse_ahash_update, update_submit, submitted_inputs, List.filterMap_append,
        hp, hm, ha, hn, hbl, hle, hb, hb0]

theorem run_update_bytes (H : List Nat → List Nat) (alg : hse_ahash_alg)
    (tctx : hse_ahash_tfm_ctx) (s s1 : run_state) (env : hse_env) (data : List Nat)
    (hv : alg.valid) (henv : env.ok)
    (hlen : s.rctx.cache.length = HSE_AHASH_MAX_BLOCK_SIZE)
    (hci : s.rctx.cache_idx ≤ alg.blocksize)
    (hdata : data.length + HSE_AHASH_MAX_BLOCK_SIZE < U32_MOD)
    (hrun : run_update H alg tctx s (env, data) = some s1) :
    (submitted_inputs s1.trace).flatten ++ s1.rctx.pending =
      (submitted_inputs s.trace).flatten ++ s.rctx.pending ++ data := by
  have h128 : HSE_AHASH_MAX_BLOCK_SIZE = 128 := rfl
  have hbs := hv.2.2
  by_cases hn : data.length = 0
  · have hd : data = [] := List.length_eq_zero.mp hn
    subst hd
    simp only [run_update, update_empty, if_true, Option.some.injEq] at hrun
    rw [← hrun]
    simp
  by_cases hle : s.rctx.cache_idx + data.length ≤ alg.blocksize
  · have hu := update_cache_ok env alg tctx s.rctx data hbs hn hle
    simp only [run_update, hu, if_true, Option.some.injEq] at hrun
    have hp := pending_after_cache s.rctx data (by omega)
    rw [← hrun]
    simp only [hse_ahash_req_ctx.pending, List.append_nil]
    rw [hp, List.append_assoc]
  · have hgt : alg.blocksize < s.rctx.cache_idx + data.length := by omega
    have hlt : s.rctx.cache_idx + data.length < U32_MOD := by omega
    have hf := update_flush_ok env alg tctx s.rctx data hv henv hlen hci hgt hlt
    have hin := update_flush_inputs env alg tctx s.rctx data henv hn hgt hlt
    have hne : ¬ ((hse_ahash_update env alg tctx s.rctx data).2.1 = 0) := by
      rw [hf.ret]; decide
    have hm : desc_access_mode alg (hse_ahash_update env alg tctx s.rctx data).1.srv_desc =
          HSE_ACCESS_MODE_START ∨
        desc_access_mode alg (hse_ahash_update env alg tctx s.rctx data).1.srv_desc =
          HSE_ACCESS_MODE_UPDATE := by
      rw [hf.mode]; by_cases hs : s.rctx.streaming_mode = true <;> simp [hs]
    have hcp : (hse_complete H alg s.fw
          (hse_ahash_update env alg tctx s.rctx data).1).2.1.pending =
        (hse_ahash_update env alg tctx s.rctx data).1.pending := by
      rcases hm with h | h
      · rw [complete_start H alg s.fw _ h]; rfl
      · rw [complete_update H alg s.fw _ h]
    have hce := (complete_after_update H alg s.fw _ hm).2.2
    have htd : data.take (rounddown (s.rctx.cache_idx + data.length) alg.blocksize -
        s.rctx.cache_idx) ++ data.drop (rounddown (s.rctx.cache_idx + data.length)
        alg.blocksize - s.rctx.cache_idx) = data := List.take_append_drop _ _
    unfold run_update at hrun
    rw [if_neg hne, if_pos hf.ret] at hrun
    simp only [Option.some.injEq] at hrun
    rw [← hrun]
    show (submitted_inputs (s.trace ++ (hse_ahash_update env alg tctx s.rctx data).2.2 ++
        (hse_complete H alg s.fw (hse_ahash_update env alg tctx s.rctx data).1).2.2.2)).flatten ++
      (hse_complete H alg s.fw (hse_ahash_update env alg tctx s.rctx data).1).2.1.pending = _
    rw [hcp, hce, submitted_inputs_append, submitted_inputs_append, hin, hf.pending, hf.input]
    simp only [submitted_inputs, List.filterMap_cons, List.filterMap_nil, List.append_nil,
      List.flatten_append, List.flatten_cons, List.flatten_nil, List.append_assoc, htd]

theorem run_updates_bytes (H : List Nat → List Nat) (alg : hse_ahash_alg)
    (tctx : hse_ahash_tfm_ctx) (hv : alg.valid) (steps : List (hse_env × List Nat)) :
    ∀ (s s1 : run_state), s.rctx.cache.length = HSE_AHASH_MAX_BLOCK_SIZE →
      s.rctx.cache_idx ≤ alg.blocksize → steps_ok steps →
      run_updates H alg tctx s steps = some s1 →
      (submitted_inputs s1.trace).flatten ++ s1.rctx.pending =
        (submitted_inputs s.trace).flatten ++ s.rctx.pending ++ steps_input steps := by
  induction steps with
  | nil =>
    intro s s1 _ _ _ hrun
    simp only [run_updates, Option.some.injEq] at hrun
    rw [hrun]; simp [steps_input]
  | cons st rest ih =>
    intro s s1 hlen hci hsteps hrun
    obtain ⟨henv, hdata⟩ := hsteps st (List.mem_cons_self _ _)
    obtain ⟨s2, hstep, hsf⟩ := run_update_ok H alg tctx s st.1 st.2 hv henv hlen hci hdata
    have hb := run_update_bytes H alg tctx s s2 st.1 st.2 hv henv hlen hci hdata hstep
    simp only [run_updates] at hrun
    rw [hstep, Option.some_bind] at hrun
    have h2 := ih s2 s1 hsf.cache_len hsf.cache_idx_le
      (fun x hx => hsteps x (List.mem_cons_of_mem _ hx)) hrun
    rw [h2, hb]
    simp [steps_input, List.append_assoc]

/-! ## Properties of the request state machine -/

theorem run_before_final_ok (H : List Nat → List Nat) (core : hse_core) (alg : hse_ahash_alg)
    (tctx : hse_ahash_tfm_ctx) (fw : hse_fw) (rctx : hse_ahash_req_ctx)
    (env_init : hse_env) (steps : List (hse_env × List Nat))
    (hv : alg.valid) (hcache : rctx.cache.length = HSE_AHASH_MAX_BLOCK_SIZE)
    (hinit : env_init.ok) (hsteps : steps_ok steps) :
    ∃ s ls, run_before_final H core alg tctx fw rctx env_init steps = some s ∧
      s.rctx.cache.length = HSE_AHASH_MAX_BLOCK_SIZE ∧
      s.rctx.cache_idx ≤ alg.blocksize ∧
      absorbed s ++ s.rctx.pending = steps_input steps ∧
      s.rctx.channel = env_init.acquire_channel ∧
      s.rctx.streaming_mode = !ls.isEmpty ∧
      released s.trace = [] ∧
      acquired s.trace = [env_init.acquire_channel] ∧
      submitted_lens alg s.trace = ls ∧
      (∀ l ∈ ls, 0 < l ∧ alg.blocksize ∣ l) ∧
      ls.sum + s.rctx.cache_idx = (steps_input steps).length ∧
      submitted_modes alg s.trace = stream_modes false ls.length ∧
      submitted_channels s.trace = List.replicate ls.length env_init.acquire_channel := by
  obtain ⟨s0, h0, _, i2, i3, i4, i5, _, _, i8⟩ := run_init_ok core env_init fw rctx hinit
  have hlen0 : s0.rctx.cache.length = HSE_AHASH_MAX_BLOCK_SIZE := by rw [i2]; exact hcache
  obtain ⟨s, ls, hrun, hf⟩ := run_updates_ok H alg tctx s0 hv hlen0
    (by rw [i3]; exact Nat.zero_le _) steps hsteps
  have e1 : absorbed s0 = [] := by simp [absorbed, i4]
  have e2 : s0.rctx.pending = [] := by simp [hse_ahash_req_ctx.pending, i3]
  have t1 : released s0.trace = [] := by rw [i8]; simp [released]
  have t2 : acquired s0.trace = [env_init.acquire_channel] := by rw [i8]; simp [acquired]
  have t3 : submitted_lens alg s0.trace = [] := by rw [i8]; simp [submitted_lens]
  have t4 : submitted_modes alg s0.trace = [] := by rw [i8]; simp [submitted_modes]
  have t5 : submitted_channels s0.trace = [] := by rw [i8]; simp [submitted_channels]
  refine ⟨s, ls, by simp only [run_before_final, h0, Option.some_bind, hrun], hf.cache_len,
    hf.cache_idx_le, ?_, ?_, ?_, ?_, ?_, ?_, hf.lens_pos, ?_, ?_, ?_⟩
  · rw [hf.message, e1, e2]; simp
  · rw [hf.channel, i5]
  · rw [hf.streaming, i4]; simp
  · rw [hf.released, t1]
  · rw [hf.acquired, t2]
  · rw [hf.lens, t3]; simp
  · have := hf.lens_sum; rw [i3] at this; omega
  · rw [hf.modes, t4, i4]; simp
  · rw [hf.channels, t5, i5]; simp

/-- C1: streaming/one-pass equivalence. With the co-processor modelled as a hash
`H` whose START/UPDATE*/FINISH steps absorb their messages in order, for every
split of an input into chunks (every call and completion succeeding, every chunk
a request whose length leaves room for the cache in an `unsigned int`), the
digest delivered by `init; update(c1); ...; update(cN); final` and the digest
delivered by `digest` on the concatenation of the chunks are both `H` of the
whole input. -/
theorem C1_streaming_equals_one_pass (H : List Nat → List Nat) (core : hse_core)
    (alg : hse_ahash_alg) (tctx : hse_ahash_tfm_ctx) (fw fw2 : hse_fw)
    (rctx rctx2 : hse_ahash_req_ctx) (env_init env_final env_digest : hse_env)
    (steps : List (hse_env × List Nat))
    (hv : alg.valid) (hH : ∀ m, (H m).length = alg.digestsize)
    (hcache : rctx.cache.length = HSE_AHASH_MAX_BLOCK_SIZE)
    (hinit : env_init.ok) (hfinal : env_final.ok) (hdigest : env_digest.ok)
    (hsteps : steps_ok steps) (hwhole : (steps_input steps).length < U32_MOD) :
    (run_stream H core alg tctx fw rctx env_init steps env_final).map Prod.fst =
        some (H (steps_input steps)) ∧
      (run_digest H core env_digest alg tctx fw2 rctx2 (steps_input steps)).map Prod.fst =
        some (H (steps_input steps)) ∧
      (run_stream H core alg tctx fw rctx env_init steps env_final).map Prod.fst =
        (run_digest H core env_digest alg tctx fw2 rctx2 (steps_input steps)).map Prod.fst := by
  have _ := hwhole
  obtain ⟨s, ls, hrun, c1, c2, c3, _⟩ :=
    run_before_final_ok H core alg tctx fw rctx env_init steps hv hcache hinit hsteps
  have h128 : HSE_AHASH_MAX_BLOCK_SIZE = 128 := rfl
  obtain ⟨s1, hfin, _, _⟩ := run_final_ok H core env_final alg tctx s hv hfinal hH
    (by have := hv.2.2; omega)
  have hd := run_digest_ok H core env_digest alg tctx fw2 rctx2 (steps_input steps) hv hdigest hH
  have hs : (run_stream H core alg tctx fw rctx env_init steps env_final).map Prod.fst =
      some (H (steps_input steps)) := by
    have : run_stream H core alg tctx fw rctx env_init steps env_final =
        (run_before_final H core alg tctx fw rctx env_init steps).bind
          (run_final H core env_final alg tctx) := by
      simp only [run_stream, run_before_final, Option.bind_assoc]
    rw [this, hrun, Option.some_bind, hfin, c3]
    rfl
  exact ⟨hs, hd, by rw [hs, hd]⟩

theorem env_ok_ok : env_ok.ok := by decide

theorem sha256_valid : sha256_alg.valid := by decide

theorem toy_hash_length (m : List Nat) : (toy_hash m).length = sha256_alg.digestsize := by
  simp [toy_hash, sha256_alg]

/-- C1, instance: block size 64, the 200 bytes of the chunks 70 + 70 + 60. -/
theorem C1_streaming_equals_one_pass_witness :
    (run_stream toy_hash core_ex sha256_alg tctx_zero fw_zero rctx_zero env_ok
          [(env_ok, List.replicate 70 1), (env_ok, List.replicate 70 2),
            (env_ok, List.replicate 60 3)] env_ok).map Prod.fst =
        some (toy_hash (steps_input [(env_ok, List.replicate 70 1),
          (env_ok, List.replicate 70 2), (env_ok, List.replicate 60 3)])) ∧
      (run_digest toy_hash core_ex env_ok sha256_alg tctx_zero fw_zero rctx_zero
          (steps_input [(env_ok, List.replicate 70 1), (env_ok, List.replicate 70 2),
            (env_ok, List.replicate 60 3)])).map Prod.fst =
        some (toy_hash (steps_input [(env_ok, List.replicate 70 1),
          (env_ok, List.replicate 70 2), (env_ok, List.replicate 60 3)])) ∧
      (run_stream toy_hash core_ex sha256_alg tctx_zero fw_zero rctx_zero env_ok
          [(env_ok, List.replicate 70 1), (env_ok, List.replicate 70 2),
            (env_ok, List.replicate 60 3)] env_ok).map Prod.fst =
        (run_digest toy_hash core_ex env_ok sha256_alg tctx_zero fw_zero rctx_zero
          (steps_input [(env_ok, List.replicate 70 1), (env_ok, List.replicate 70 2),
            (env_ok, List.replicate 60 3)])).map Prod.fst :=
  C1_streaming_equals_one_pass toy_hash core_ex sha256_alg tctx_zero fw_zero fw_zero
    rctx_zero rctx_zero env_ok env_ok env_ok
    [(env_ok, List.replicate 70 1), (env_ok, List.replicate 70 2),
      (env_ok, List.replicate 60 3)]
    sha256_valid toy_hash_length rfl env_ok_ok env_ok_ok env_ok_ok
    (by simp [steps_ok, env_ok_ok, U32_MOD, HSE_AHASH_MAX_BLOCK_SIZE])
    (by
      simp only [steps_input, List.map_cons, List.map_nil, List.flatten_cons, List.flatten_nil,
        List.length_append, List.length_replicate, List.length_nil, U32_MOD]
      norm_num)

theorem run_stream_eq (H : List Nat → List Nat) (core : hse_core) (alg : hse_ahash_alg)
    (tctx : hse_ahash_tfm_ctx) (fw : hse_fw) (rctx : hse_ahash_req_ctx)
    (env_init : hse_env) (steps : List (hse_env × List Nat)) (env_final : hse_env) :
    run_stream H core alg tctx fw rctx env_init steps env_final =
      (run_before_final H core alg tctx fw rctx env_init steps).bind
        (run_final H core env_final alg tctx) := by
  simp only [run_stream, run_before_final, Option.bind_assoc]

theorem count_start_modes (k : Nat) :
    (stream_modes false (k + 1) ++ [HSE_ACCESS_MODE_FINISH]).count HSE_ACCESS_MODE_START = 1 := by
  have h1 : ¬ (HSE_ACCESS_MODE_UPDATE = HSE_ACCESS_MODE_START) := by decide
  have h2 : ¬ (HSE_ACCESS_MODE_FINISH = HSE_ACCESS_MODE_START) := by decide
  simp [stream_modes, List.count_cons, List.count_append, List.count_replicate, h1, h2]

/-- C2: for an `init; update*; final` sequence, every call and completion
succeeding, whose input is longer than one block, the request is streaming when
`final` is called, `final` submits a FINISH descriptor, exactly one START
descriptor is submitted over the whole sequence, the only channel acquired is the
one of `hse_ahash_init`, and `hse_channel_release` is called exactly once, on that
channel, by the completion of the FINISH descriptor: neither the updates nor
`final` itself release it. -/
theorem C2_stream_entered_once_released_once (H : List Nat → List Nat) (core : hse_core)
    (alg : hse_ahash_alg) (tctx : hse_ahash_tfm_ctx) (fw : hse_fw)
    (rctx : hse_ahash_req_ctx) (env_init env_final : hse_env)
    (steps : List (hse_env × List Nat))
    (hv : alg.valid) (hH : ∀ m, (H m).length = alg.digestsize)
    (hcache : rctx.cache.length = HSE_AHASH_MAX_BLOCK_SIZE)
    (hinit : env_init.ok) (hfinal : env_final.ok) (hsteps : steps_ok steps)
    (hcross : alg.blocksize < (steps_input steps).length) :
    ∃ s f c d s1,
      run_before_final H core alg tctx fw rctx env_init steps = some s ∧
      f = hse_ahash_final core env_final alg tctx s.rctx ∧
      c = hse_complete H alg s.fw f.1 ∧
      run_stream H core alg tctx fw rctx env_init steps env_final = some (d, s1) ∧
      s1.trace = s.trace ++ f.2.2 ++ c.2.2.2 ∧
      s.rctx.streaming_mode = true ∧
      f.2.1 = -EINPROGRESS ∧
      desc_access_mode alg f.1.srv_desc = HSE_ACCESS_MODE_FINISH ∧
      (submitted_modes alg s1.trace).count HSE_ACCESS_MODE_START = 1 ∧
      acquired s1.trace = [env_init.acquire_channel] ∧
      released s.trace = [] ∧ released f.2.2 = [] ∧
      released c.2.2.2 = [env_init.acquire_channel] ∧
      released s1.trace = [env_init.acquire_channel] := by
  obtain ⟨s, ls, hrun, c1, c2, c3, c4, c5, c6, c7, c8, c9, c10, c11, c12⟩ :=
    run_before_final_ok H core alg tctx fw rctx env_init steps hv hcache hinit hsteps
  have h128 : HSE_AHASH_MAX_BLOCK_SIZE = 128 := rfl
  have hci : s.rctx.cache_idx ≤ s.rctx.cache.length := by have := hv.2.2; omega
  have hne : ls ≠ [] := by
    intro h
    rw [h] at c10
    simp only [List.sum_nil] at c10
    omega
  obtain ⟨l, ls', rfl⟩ := List.exists_cons_of_ne_nil hne
  have hstr : s.rctx.streaming_mode = true := by rw [c5]; rfl
  obtain ⟨pre, hf, hq, hout, _, _, hin⟩ := final_ok core env_final alg tctx s.rctx hv hfinal
  have hc := complete_finished H core alg s _ pre _ _ hH hf hout (hin hci)
  obtain ⟨s1, hfin, htr, ht⟩ := run_final_ok H core env_final alg tctx s hv hfinal hH hci
  refine ⟨s, hse_ahash_final core env_final alg tctx s.rctx,
    hse_complete H alg s.fw (hse_ahash_final core env_final alg tctx s.rctx).1,
    H (absorbed s ++ s.rctx.pending), s1,
    hrun, rfl, rfl, ?_, htr, hstr, hf.ret, ?_, ?_, ?_, c6, ?_, ?_, ?_⟩
  · rw [run_stream_eq, hrun, Option.some_bind, hfin]
  · rw [hf.mode]; simp [hstr]
  · rw [ht.modes, c11, hstr]
    exact count_start_modes ls'.length
  · rw [ht.acquired, c7]
  · rw [hf.trace, released_append, released_append, hq.1]; simp [hstr, released]
  · rw [hc.2.2.1, c4]; simp [hstr]
  · rw [ht.released, c6, c4]; simp

/-- C2, instance: block size 64, chunks of 70, 70 and 60 bytes. -/
theorem C2_stream_entered_once_released_once_witness :
    ∃ s f c d s1,
      run_before_final toy_hash core_ex sha256_alg tctx_zero fw_zero rctx_zero env_ok
        [(env_ok, List.replicate 70 1), (env_ok, List.replicate 70 2),
          (env_ok, List.replicate 60 3)] = some s ∧
      f = hse_ahash_final core_ex env_ok sha256_alg tctx_zero s.rctx ∧
      c = hse_complete toy_hash sha256_alg s.fw f.1 ∧
      run_stream toy_hash core_ex sha256_alg tctx_zero fw_zero rctx_zero env_ok
        [(env_ok, List.replicate 70 1), (env_ok, List.replicate 70 2),
          (env_ok, List.replicate 60 3)] env_ok = some (d, s1) ∧
      s1.trace = s.trace ++ f.2.2 ++ c.2.2.2 ∧
      s.rctx.streaming_mode = true ∧
      f.2.1 = -EINPROGRESS ∧
      desc_access_mode sha256_alg f.1.srv_desc = HSE_ACCESS_MODE_FINISH ∧
      (submitted_modes sha256_alg s1.trace).count HSE_ACCESS_MODE_START = 1 ∧
      acquired s1.trace = [env_ok.acquire_channel] ∧
      released s.trace = [] ∧ released f.2.2 = [] ∧
      released c.2.2.2 = [env_ok.acquire_channel] ∧
      released s1.trace = [env_ok.acquire_channel] :=
  C2_stream_entered_once_released_once toy_hash core_ex sha256_alg tctx_zero fw_zero
    rctx_zero env_ok env_ok
    [(env_ok, List.replicate 70 1), (env_ok, List.replicate 70 2),
      (env_ok, List.replicate 60 3)]
    sha256_valid toy_hash_length rfl env_ok_ok env_ok_ok
    (by simp [steps_ok, env_ok_ok, U32_MOD, HSE_AHASH_MAX_BLOCK_SIZE])
    (by
      simp only [steps_input, List.map_cons, List.map_nil, List.flatten_cons, List.flatten_nil,
        List.length_append, List.length_replicate, List.length_nil, sha256_alg]
      norm_num)

theorem lens_nil_of_small (alg : hse_ahash_alg) (ls : List Nat) (n : Nat)
    (hpos : ∀ l ∈ ls, 0 < l ∧ alg.blocksize ∣ l) (hsum : ls.sum ≤ n)
    (hn : n < alg.blocksize) : ls = [] := by
  cases ls with
  | nil => rfl
  | cons l rest =>
    exfalso
    obtain ⟨h0, hd⟩ := hpos l (List.mem_cons_self _ _)
    have := Nat.le_of_dvd h0 hd
    simp only [List.sum_cons] at hsum
    omega

/-- C3, as stated, fails: in the sequence `init; update(10 bytes)` on a 64-byte
block algorithm the request has acquired a channel, in `hse_ahash_init`, before
`final` or `finup` is called. -/
theorem C3_counterexample :
    ∃ s, run_before_final toy_hash core_ex sha256_alg tctx_zero fw_zero rctx_zero env_ok
        [(env_ok, List.replicate 10 7)] = some s ∧
      (steps_input [(env_ok, List.replicate 10 7)]).length < sha256_alg.blocksize ∧
      acquired s.trace = [env_ok.acquire_channel] ∧ acquired s.trace ≠ [] := by
  obtain ⟨s, ls, hrun, _, _, _, _, _, _, hacq, _⟩ :=
    run_before_final_ok toy_hash core_ex sha256_alg tctx_zero fw_zero rctx_zero env_ok
      [(env_ok, List.replicate 10 7)] sha256_valid rfl env_ok_ok
      (by simp [steps_ok, env_ok_ok, U32_MOD, HSE_AHASH_MAX_BLOCK_SIZE])
  refine ⟨s, hrun, ?_, hacq, ?_⟩
  · simp [steps_input, sha256_alg]
  · rw [hacq]; simp

/-- C3, amended: for an `init; update*; final/finup` sequence whose total input is
smaller than one block, the only channel acquired is the stream channel acquired
by `hse_ahash_init`; the updates submit no descriptor and release nothing; and
`final` (or `finup` on the data `data`) releases that channel and then submits a
single descriptor, with access mode ONE_PASS, on `HSE_CHANNEL_ANY`. -/
theorem C3_sub_block_one_pass (H : List Nat → List Nat) (core : hse_core)
    (alg : hse_ahash_alg) (tctx : hse_ahash_tfm_ctx) (fw : hse_fw)
    (rctx : hse_ahash_req_ctx) (env_init env_final : hse_env)
    (steps : List (hse_env × List Nat)) (data : List Nat)
    (hv : alg.valid) (hcache : rctx.cache.length = HSE_AHASH_MAX_BLOCK_SIZE)
    (hinit : env_init.ok) (hfinal : env_final.ok) (hsteps : steps_ok steps)
    (hsmall : (steps_input steps).length + data.length < alg.blocksize) :
    ∃ s, run_before_final H core alg tctx fw rctx env_init steps = some s ∧
      acquired s.trace = [env_init.acquire_channel] ∧
      released s.trace = [] ∧
      submitted_modes alg s.trace = [] ∧
      (∃ pre f, f = hse_ahash_final core env_final alg tctx s.rctx ∧ quiet alg pre ∧
        f.2.2 = pre ++ [hse_event.channel_release env_init.acquire_channel,
          hse_event.srv_req_async core.HSE_CHANNEL_ANY f.1.srv_desc s.rctx.pending 0] ∧
        desc_access_mode alg f.1.srv_desc = HSE_ACCESS_MODE_ONE_PASS) ∧
      (∃ pre f, f = hse_ahash_finup core env_final alg tctx s.rctx data ∧ quiet alg pre ∧
        f.2.2 = pre ++ [hse_event.channel_release env_init.acquire_channel,
          hse_event.srv_req_async core.HSE_CHANNEL_ANY f.1.srv_desc
            (s.rctx.pending ++ data) 0] ∧
        desc_access_mode alg f.1.srv_desc = HSE_ACCESS_MODE_ONE_PASS) := by
  obtain ⟨s, ls, hrun, c1, c2, c3, c4, c5, c6, c7, c8, c9, c10, c11, c12⟩ :=
    run_before_final_ok H core alg tctx fw rctx env_init steps hv hcache hinit hsteps
  have h128 : HSE_AHASH_MAX_BLOCK_SIZE = 128 := rfl
  have h32 : U32_MOD = 4294967296 := rfl
  have hbs := hv.2.2
  have hci : s.rctx.cache_idx ≤ s.rctx.cache.length := by omega
  have hls : ls = [] := lens_nil_of_small alg ls (steps_input steps).length c9 (by omega)
    (by omega)
  subst hls
  have hstr : s.rctx.streaming_mode = false := by rw [c5]; rfl
  have hfit : s.rctx.cache_idx + data.length < U32_MOD := by
    simp only [List.sum_nil] at c10; omega
  obtain ⟨pre, hf, hq, _, _, _, hin⟩ := final_ok core env_final alg tctx s.rctx hv hfinal
  obtain ⟨pre2, hf2, hq2, _, _, _, hin2⟩ :=
    finup_ok core env_final alg tctx s.rctx data hv hfinal
  rw [Nat.mod_eq_of_lt hfit] at hf2 hin2
  refine ⟨s, hrun, c7, c6, by rw [c11]; rfl, ⟨pre, _, rfl, hq, ?_, ?_⟩,
    ⟨pre2, _, rfl, hq2, ?_, ?_⟩⟩
  · have ht := hf.trace
    rw [hf.channel, hin hci] at ht
    rw [ht]; simp [hstr, c4]
  · rw [hf.mode]; simp [hstr]
  · have ht := hf2.trace
    rw [hf2.channel, hin2 hci hfit] at ht
    rw [ht]; simp [hstr, c4]
  · rw [hf2.mode]; simp [hstr]

/-- C3, amended, instance: block size 64, updates of 10 and 20 bytes and a `finup`
of 5 bytes. -/
theorem C3_sub_block_one_pass_witness :
    ∃ s, run_before_final toy_hash core_ex sha256_alg tctx_zero fw_zero rctx_zero env_ok
        [(env_ok, List.replicate 10 7), (env_ok, List.replicate 20 8)] = some s ∧
      acquired s.trace = [env_ok.acquire_channel] ∧
      released s.trace = [] ∧
      submitted_modes sha256_alg s.trace = [] ∧
      (∃ pre f, f = hse_ahash_final core_ex env_ok sha256_alg tctx_zero s.rctx ∧
        quiet sha256_alg pre ∧
        f.2.2 = pre ++ [hse_event.channel_release env_ok.acquire_channel,
          hse_event.srv_req_async core_ex.HSE_CHANNEL_ANY f.1.srv_desc s.rctx.pending 0] ∧
        desc_access_mode sha256_alg f.1.srv_desc = HSE_ACCESS_MODE_ONE_PASS) ∧
      (∃ pre f, f = hse_ahash_finup core_ex env_ok sha256_alg tctx_zero s.rctx
          (List.replicate 5 9) ∧
        quiet sha256_alg pre ∧
        f.2.2 = pre ++ [hse_event.channel_release env_ok.acquire_channel,
          hse_event.srv_req_async core_ex.HSE_CHANNEL_ANY f.1.srv_desc
            (s.rctx.pending ++ List.replicate 5 9) 0] ∧
        desc_access_mode sha256_alg f.1.srv_desc = HSE_ACCESS_MODE_ONE_PASS) :=
  C3_sub_block_one_pass toy_hash core_ex sha256_alg tctx_zero fw_zero rctx_zero env_ok env_ok
    [(env_ok, List.replicate 10 7), (env_ok, List.replicate 20 8)] (List.replicate 5 9)
    sha256_valid rfl env_ok_ok env_ok_ok
    (by simp [steps_ok, env_ok_ok, U32_MOD, HSE_AHASH_MAX_BLOCK_SIZE])
    (by
      simp only [steps_input, List.map_cons, List.map_nil, List.flatten_cons, List.flatten_nil,
        List.length_append, List.length_replicate, List.length_nil, sha256_alg]
      norm_num)

theorem done_one_pass_streaming (alg : hse_ahash_alg) (err : Int) (rctx : hse_ahash_req_ctx)
    (hm : desc_access_mode alg rctx.srv_desc = HSE_ACCESS_MODE_ONE_PASS) :
    (hse_ahash_done alg err rctx).1.streaming_mode = rctx.streaming_mode := by
  have h1 : ¬ (HSE_ACCESS_MODE_ONE_PASS = HSE_ACCESS_MODE_START) := by decide
  by_cases he : err = 0 <;> simp [hse_ahash_done, hm, he, h1]

/-- C5: for every input, when its allocation and mappings succeed and the
submission is accepted, `hse_ahash_digest` acquires and releases no channel and
submits exactly one descriptor: it is sent on `HSE_CHANNEL_ANY`, its access mode
is ONE_PASS, its input length is the request length and its input is the whole
request data. The call does not touch the streaming flag of the request, and the
completion callback does not change it either, whatever error code it reports. -/
theorem C5_digest_one_pass (core : hse_core) (env : hse_env) (alg : hse_ahash_alg)
    (tctx : hse_ahash_tfm_ctx) (rctx : hse_ahash_req_ctx) (data : List Nat)
    (hv : alg.valid) (henv : env.ok) :
    ∃ pre f, f = hse_ahash_digest core env alg tctx rctx data ∧ quiet alg pre ∧
      f.2.2 = pre ++ [hse_event.srv_req_async core.HSE_CHANNEL_ANY f.1.srv_desc data 0] ∧
      f.2.1 = -EINPROGRESS ∧
      submitted_modes alg f.2.2 = [HSE_ACCESS_MODE_ONE_PASS] ∧
      submitted_lens alg f.2.2 = [data.length] ∧
      submitted_channels f.2.2 = [core.HSE_CHANNEL_ANY] ∧
      acquired f.2.2 = [] ∧
      f.1.streaming_mode = rctx.streaming_mode ∧
      ∀ err, (hse_ahash_done alg err f.1).1.streaming_mode = rctx.streaming_mode := by
  have hd := digest_ok core env alg tctx rctx data hv henv
  obtain ⟨pre, hq, ht⟩ := hd.trace
  obtain ⟨q1, q2, q3, q4, q5⟩ := hq
  refine ⟨pre, _, rfl, ⟨q1, q2, q3, q4, q5⟩, ht, hd.ret, ?_, ?_, ?_, ?_, hd.streaming, ?_⟩
  · rw [ht, submitted_modes_append, q4]; simp [submitted_modes, hd.mode]
  · rw [ht, submitted_lens_append, q3]; simp [submitted_lens, hd.input_len]
  · rw [ht, submitted_channels_append, q5]; simp [submitted_channels]
  · rw [ht, acquired_append, q2]; simp [acquired]
  · intro err
    rw [done_one_pass_streaming alg err _ hd.mode, hd.streaming]

/-- C5, instance: a digest request of 200 bytes on a 64-byte block algorithm. -/
theorem C5_digest_one_pass_witness :
    ∃ pre f, f = hse_ahash_digest core_ex env_ok sha256_alg tctx_zero rctx_zero
        (List.replicate 200 5) ∧ quiet sha256_alg pre ∧
      f.2.2 = pre ++ [hse_event.srv_req_async core_ex.HSE_CHANNEL_ANY f.1.srv_desc
        (List.replicate 200 5) 0] ∧
      f.2.1 = -EINPROGRESS ∧
      submitted_modes sha256_alg f.2.2 = [HSE_ACCESS_MODE_ONE_PASS] ∧
      submitted_lens sha256_alg f.2.2 = [(List.replicate 200 5).length] ∧
      submitted_channels f.2.2 = [core_ex.HSE_CHANNEL_ANY] ∧
      acquired f.2.2 = [] ∧
      f.1.streaming_mode = rctx_zero.streaming_mode ∧
      ∀ err, (hse_ahash_done sha256_alg err f.1).1.streaming_mode =
        rctx_zero.streaming_mode :=
  C5_digest_one_pass core_ex env_ok sha256_alg tctx_zero rctx_zero (List.replicate 200 5)
    sha256_valid env_ok_ok

/-- C6: for every request state, when allocation, mappings and submission succeed,
the descriptor submitted by `hse_ahash_final` (and by `hse_ahash_finup` on the
data `data`, the sum of cache fill and data length fitting an `unsigned int`) has
access mode FINISH when the streaming flag is set and ONE_PASS otherwise; its
input length is the cache fill count (plus the data length for `finup`); its
result-length and result fields hold the addresses at which `rctx->outlen` (set to
the digest size) and `rctx->result` were mapped; its stream slot is the slot of
the request. In the FINISH case nothing is released before the submission and
the descriptor goes out on the channel of the request; in the ONE_PASS case the
channel of the request is released first and the descriptor goes out on
`HSE_CHANNEL_ANY`. -/
theorem C6_terminal_descriptor (core : hse_core) (env : hse_env) (alg : hse_ahash_alg)
    (tctx : hse_ahash_tfm_ctx) (rctx : hse_ahash_req_ctx) (data : List Nat)
    (hv : alg.valid) (henv : env.ok)
    (hfit : rctx.cache_idx + data.length < U32_MOD) :
    (∃ pre f, f = hse_ahash_final core env alg tctx rctx ∧ quiet alg pre ∧
      f.2.2 = pre ++
        (if rctx.streaming_mode then [] else [hse_event.channel_release rctx.channel]) ++
        [hse_event.srv_req_async
          (if rctx.streaming_mode then rctx.channel else core.HSE_CHANNEL_ANY)
          f.1.srv_desc (f.1.buf_mem.take rctx.cache_idx) 0] ∧
      desc_access_mode alg f.1.srv_desc =
        (if rctx.streaming_mode then HSE_ACCESS_MODE_FINISH else HSE_ACCESS_MODE_ONE_PASS) ∧
      desc_input_len alg f.1.srv_desc = rctx.cache_idx ∧
      desc_stream_id alg f.1.srv_desc = rctx.stream ∧
      desc_result_len alg f.1.srv_desc = env.dma_map_outlen.addr ∧
      desc_result alg f.1.srv_desc = env.dma_map_result.addr ∧
      f.1.outlen = alg.digestsize) ∧
    (∃ pre f, f = hse_ahash_finup core env alg tctx rctx data ∧ quiet alg pre ∧
      f.2.2 = pre ++
        (if rctx.streaming_mode then [] else [hse_event.channel_release rctx.channel]) ++
        [hse_event.srv_req_async
          (if rctx.streaming_mode then rctx.channel else core.HSE_CHANNEL_ANY)
          f.1.srv_desc (f.1.buf_mem.take (rctx.cache_idx + data.length)) 0] ∧
      desc_access_mode alg f.1.srv_desc =
        (if rctx.streaming_mode then HSE_ACCESS_MODE_FINISH else HSE_ACCESS_MODE_ONE_PASS) ∧
      desc_input_len alg f.1.srv_desc = rctx.cache_idx + data.length ∧
      desc_stream_id alg f.1.srv_desc = rctx.stream ∧
      desc_result_len alg f.1.srv_desc = env.dma_map_outlen.addr ∧
      desc_result alg f.1.srv_desc = env.dma_map_result.addr ∧
      f.1.outlen = alg.digestsize) := by
  obtain ⟨pre, hf, hq, ho, hol, hr, _⟩ := final_ok core env alg tctx rctx hv henv
  obtain ⟨pre2, hf2, hq2, ho2, hol2, hr2, _⟩ := finup_ok core env alg tctx rctx data hv henv
  rw [Nat.mod_eq_of_lt hfit] at hf2
  refine ⟨⟨pre, _, rfl, hq, ?_, hf.mode, hf.input_len, hf.stream_id, ?_, ?_, ho⟩,
    ⟨pre2, _, rfl, hq2, ?_, hf2.mode, hf2.input_len, hf2.stream_id, ?_, ?_, ho2⟩⟩
  · have ht := hf.trace; rw [hf.channel] at ht; exact ht
  · rw [hf.result_len, hol]
  · rw [hf.result_addr, hr]
  · have ht := hf2.trace; rw [hf2.channel] at ht; exact ht
  · rw [hf2.result_len, hol2]
  · rw [hf2.result_addr, hr2]

/-- C6, instance: a streaming request with 8 cached bytes, and a `finup` of 5 more
bytes. -/
theorem C6_terminal_descriptor_witness :
    (∃ pre f, f = hse_ahash_final core_ex env_ok sha256_alg tctx_zero rctx_streaming ∧
      quiet sha256_alg pre ∧
      f.2.2 = pre ++
        (if rctx_streaming.streaming_mode then []
          else [hse_event.channel_release rctx_streaming.channel]) ++
        [hse_event.srv_req_async
          (if rctx_streaming.streaming_mode then rctx_streaming.channel
            else core_ex.HSE_CHANNEL_ANY)
          f.1.srv_desc (f.1.buf_mem.take rctx_streaming.cache_idx) 0] ∧
      desc_access_mode sha256_alg f.1.srv_desc =
        (if rctx_streaming.streaming_mode then HSE_ACCESS_MODE_FINISH
          else HSE_ACCESS_MODE_ONE_PASS) ∧
      desc_input_len sha256_alg f.1.srv_desc = rctx_streaming.cache_idx ∧
      desc_stream_id sha256_alg f.1.srv_desc = rctx_streaming.stream ∧
      desc_result_len sha256_alg f.1.srv_desc = env_ok.dma_map_outlen.addr ∧
      desc_result sha256_alg f.1.srv_desc = env_ok.dma_map_result.addr ∧
      f.1.outlen = sha256_alg.digestsize) ∧
    (∃ pre f, f = hse_ahash_finup core_ex env_ok sha256_alg tctx_zero rctx_streaming
        (List.replicate 5 9) ∧
      quiet sha256_alg pre ∧
      f.2.2 = pre ++
        (if rctx_streaming.streaming_mode then []
          else [hse_event.channel_release rctx_streaming.channel]) ++
        [hse_event.srv_req_async
          (if rctx_streaming.streaming_mode then rctx_streaming.channel
            else core_ex.HSE_CHANNEL_ANY)
          f.1.srv_desc
          (f.1.buf_mem.take (rctx_streaming.cache_idx + (List.replicate 5 9).length)) 0] ∧
      desc_access_mode sha256_alg f.1.srv_desc =
        (if rctx_streaming.streaming_mode then HSE_ACCESS_MODE_FINISH
          else HSE_ACCESS_MODE_ONE_PASS) ∧
      desc_input_len sha256_alg f.1.srv_desc =
        rctx_streaming.cache_idx + (List.replicate 5 9).length ∧
      desc_stream_id sha256_alg f.1.srv_desc = rctx_streaming.stream ∧
      desc_result_len sha256_alg f.1.srv_desc = env_ok.dma_map_outlen.addr ∧
      desc_result sha256_alg f.1.srv_desc = env_ok.dma_map_result.addr ∧
      f.1.outlen = sha256_alg.digestsize) :=
  C6_terminal_descriptor core_ex env_ok sha256_alg tctx_zero rctx_streaming
    (List.replicate 5 9) sha256_valid env_ok_ok (by simp [U32_MOD, rctx_streaming, rctx_zero])

/-- C7: for every request state and every non-empty data with
`cache_idx + len(data) <= block_size`, `hse_ahash_update` returns 0 and makes no
call at all (no descriptor is submitted); the new request context differs from
the old one in the cache and its fill count only, so the linear buffer, the
streaming flag and the held channel are unchanged; the fill count becomes
`cache_idx + len(data)` and the cached bytes are the old cached bytes followed
by the data. -/
theorem C7_update_appends_to_cache (env : hse_env) (alg : hse_ahash_alg)
    (tctx : hse_ahash_tfm_ctx) (rctx : hse_ahash_req_ctx) (data : List Nat)
    (hbs : alg.blocksize ≤ HSE_AHASH_MAX_BLOCK_SIZE)
    (hcache : rctx.cache.length = HSE_AHASH_MAX_BLOCK_SIZE)
    (hne : data ≠ []) (hle : rctx.cache_idx + data.length ≤ alg.blocksize) :
    hse_ahash_update env alg tctx rctx data =
        ({ rctx with
            cache := rctx.cache.take rctx.cache_idx ++ data ++
              rctx.cache.drop (rctx.cache_idx + data.length)
            cache_idx := rctx.cache_idx + data.length }, 0, []) ∧
      (hse_ahash_update env alg tctx rctx data).2.1 = 0 ∧
      (hse_ahash_update env alg tctx rctx data).2.2 = [] ∧
      (hse_ahash_update env alg tctx rctx data).1.cache_idx =
        rctx.cache_idx + data.length ∧
      (hse_ahash_update env alg tctx rctx data).1.pending = rctx.pending ++ data ∧
      (hse_ahash_update env alg tctx rctx data).1.cache.length = HSE_AHASH_MAX_BLOCK_SIZE ∧
      (hse_ahash_update env alg tctx rctx data).1.buf = rctx.buf ∧
      (hse_ahash_update env alg tctx rctx data).1.buf_mem = rctx.buf_mem ∧
      (hse_ahash_update env alg tctx rctx data).1.buf_dma = rctx.buf_dma ∧
      (hse_ahash_update env alg tctx rctx data).1.buflen = rctx.buflen ∧
      (hse_ahash_update env alg tctx rctx data).1.streaming_mode = rctx.streaming_mode ∧
      (hse_ahash_update env alg tctx rctx data).1.channel = rctx.channel ∧
      (hse_ahash_update env alg tctx rctx data).1.stream = rctx.stream := by
  have hn : data.length ≠ 0 := fun h => hne (List.length_eq_zero.mp h)
  have hu := update_cache_ok env alg tctx rctx data hbs hn hle
  have hp := pending_after_cache rctx data (by omega)
  refine ⟨hu, ?_⟩
  rw [hu]
  refine ⟨rfl, rfl, rfl, ?_, ?_, rfl, rfl, rfl, rfl, rfl, rfl, rfl⟩
  · simp only [hse_ahash_req_ctx.pending]; exact hp
  · simp [List.length_take, List.length_drop]; omega

/-- C7, instance: 10 bytes cached, block size 64, an update of 20 bytes. -/
theorem C7_update_appends_to_cache_witness :
    hse_ahash_update env_ok sha256_alg tctx_zero rctx_cached (List.replicate 20 9) =
        ({ rctx_cached with
            cache := rctx_cached.cache.take rctx_cached.cache_idx ++ List.replicate 20 9 ++
              rctx_cached.cache.drop (rctx_cached.cache_idx + (List.replicate 20 9).length)
            cache_idx := rctx_cached.cache_idx + (List.replicate 20 9).length }, 0, []) ∧
      (hse_ahash_update env_ok sha256_alg tctx_zero rctx_cached (List.replicate 20 9)).2.1
        = 0 ∧
      (hse_ahash_update env_ok sha256_alg tctx_zero rctx_cached (List.replicate 20 9)).2.2
        = [] ∧
      (hse_ahash_update env_ok sha256_alg tctx_zero rctx_cached
        (List.replicate 20 9)).1.cache_idx =
        rctx_cached.cache_idx + (List.replicate 20 9).length ∧
      (hse_ahash_update env_ok sha256_alg tctx_zero rctx_cached
        (List.replicate 20 9)).1.pending = rctx_cached.pending ++ List.replicate 20 9 ∧
      (hse_ahash_update env_ok sha256_alg tctx_zero rctx_cached
        (List.replicate 20 9)).1.cache.length = HSE_AHASH_MAX_BLOCK_SIZE ∧
      (hse_ahash_update env_ok sha256_alg tctx_zero rctx_cached
        (List.replicate 20 9)).1.buf = rctx_cached.buf ∧
      (hse_ahash_update env_ok sha256_alg tctx_zero rctx_cached
        (List.replicate 20 9)).1.buf_mem = rctx_cached.buf_mem ∧
      (hse_ahash_update env_ok sha256_alg tctx_zero rctx_cached
        (List.replicate 20 9)).1.buf_dma = rctx_cached.buf_dma ∧
      (hse_ahash_update env_ok sha256_alg tctx_zero rctx_cached
        (List.replicate 20 9)).1.buflen = rctx_cached.buflen ∧
      (hse_ahash_update env_ok sha256_alg tctx_zero rctx_cached
        (List.replicate 20 9)).1.streaming_mode = rctx_cached.streaming_mode ∧
      (hse_ahash_update env_ok sha256_alg tctx_zero rctx_cached
        (List.replicate 20 9)).1.channel = rctx_cached.channel ∧
      (hse_ahash_update env_ok sha256_alg tctx_zero rctx_cached
        (List.replicate 20 9)).1.stream = rctx_cached.stream :=
  C7_update_appends_to_cache env_ok sha256_alg tctx_zero rctx_cached (List.replicate 20 9)
    (by decide) (by simp [rctx_cached, rctx_zero, HSE_AHASH_MAX_BLOCK_SIZE]) (by simp)
    (by simp [rctx_cached, rctx_zero, sha256_alg])

/-- C8: for every request state, `hse_ahash_update` with empty data returns 0,
leaves the whole request context unchanged and makes no call at all, so no
descriptor is submitted. -/
theorem C8_update_empty_is_noop (env : hse_env) (alg : hse_ahash_alg)
    (tctx : hse_ahash_tfm_ctx) (rctx : hse_ahash_req_ctx) :
    hse_ahash_update env alg tctx rctx [] = (rctx, 0, []) ∧
      submitted_lens alg (hse_ahash_update env alg tctx rctx []).2.2 = [] := by
  rw [update_empty]
  exact ⟨rfl, rfl⟩

theorem update_submit_cache_idx (env : hse_env) (alg : hse_ahash_alg)
    (tctx : hse_ahash_tfm_ctx) (rctx : hse_ahash_req_ctx) (data : List Nat)
    (bl full : Nat) (ev : List hse_event) :
    (update_submit env alg tctx rctx data bl full ev).1.cache_idx =
      if env.srv_req_async ≠ 0 then rctx.cache_idx else u32_sub bl full % U8_MOD := by
  by_cases h : env.srv_req_async = 0 <;>
    simp [update_submit, release_channel_and_buf, h]

theorem update_cache_idx_le (env : hse_env) (alg : hse_ahash_alg)
    (tctx : hse_ahash_tfm_ctx) (rctx : hse_ahash_req_ctx) (data : List Nat)
    (hbs : 0 < alg.blocksize) (hci : rctx.cache_idx ≤ alg.blocksize) :
    (hse_ahash_update env alg tctx rctx data).1.cache_idx ≤ alg.blocksize := by
  have hbl : (rctx.cache_idx + data.length) % U32_MOD < U32_MOD :=
    Nat.mod_lt _ (by decide)
  have hres : u32_sub ((rctx.cache_idx + data.length) % U32_MOD)
      (rounddown ((rctx.cache_idx + data.length) % U32_MOD) alg.blocksize) % U8_MOD ≤
      alg.blocksize := by
    rw [u32_sub_eq _ _ (rounddown_le _ _) hbl]
    have h1 := rounddown_add_mod ((rctx.cache_idx + data.length) % U32_MOD) alg.blocksize
    have h2 := Nat.mod_lt ((rctx.cache_idx + data.length) % U32_MOD) hbs
    have h3 := Nat.mod_le (((rctx.cache_idx + data.length) % U32_MOD -
      rounddown ((rctx.cache_idx + data.length) % U32_MOD) alg.blocksize)) U8_MOD
    omega
  unfold hse_ahash_update
  by_cases hn : data.length = 0
  · simp only [hn, if_true]; exact hci
  simp only [hn, if_false]
  by_cases hle : (rctx.cache_idx + data.length) % U32_MOD ≤ alg.blocksize
  · simp only [hle, if_true]
    exact le_trans (Nat.mod_le _ _) hle
  simp only [hle, if_false]
  by_cases hb : rctx.buflen < rounddown ((rctx.cache_idx + data.length) % U32_MOD)
      alg.blocksize
  · simp only [hb, if_true]
    cases hk : env.kzalloc_buf with
    | none => simpa [release_channel_and_buf] using hci
    | some p =>
      by_cases hm : env.dma_map_buf.error = true
      · simpa [hm, release_channel_and_buf] using hci
      · simp only [hm, if_false, Bool.false_eq_true]
        rw [update_submit_cache_idx]
        by_cases ha : env.srv_req_async = 0
        · simpa [ha] using hres
        · simpa [ha] using hci
  · simp only [hb, if_false]
    rw [update_submit_cache_idx]
    by_cases ha : env.srv_req_async = 0
    · simpa [ha] using hres
    · simpa [ha] using hci

theorem done_cache_idx (alg : hse_ahash_alg) (err : Int) (rctx : hse_ahash_req_ctx) :
    (hse_ahash_done alg err rctx).1.cache_idx = rctx.cache_idx := by
  unfold hse_ahash_done
  simp only []
  split_ifs <;> rfl

theorem apply_calls_cache_idx_le (alg : hse_ahash_alg) (tctx : hse_ahash_tfm_ctx)
    (hbs : 0 < alg.blocksize) (calls : List hse_call) :
    ∀ rctx : hse_ahash_req_ctx, rctx.cache_idx ≤ alg.blocksize →
      (apply_calls alg tctx rctx calls).cache_idx ≤ alg.blocksize := by
  induction calls with
  | nil => intro rctx h; exact h
  | cons c rest ih =>
    intro rctx h
    simp only [apply_calls, List.foldl_cons]
    apply ih
    cases c with
    | update env data => exact update_cache_idx_le env alg tctx rctx data hbs h
    | done err => simp only [apply_call]; rw [done_cache_idx]; exact h

/-- C9, as stated, fails: after `init; update(64 bytes)` on a 64-byte block
algorithm the cache fill count is 64, the block size itself, not less. -/
theorem C9_counterexample :
    (apply_calls sha256_alg tctx_zero (hse_ahash_init core_ex env_ok rctx_zero).1
        [hse_call.update env_ok (List.replicate 64 7)]).cache_idx = sha256_alg.blocksize ∧
      ¬ ((apply_calls sha256_alg tctx_zero (hse_ahash_init core_ex env_ok rctx_zero).1
        [hse_call.update env_ok (List.replicate 64 7)]).cache_idx < sha256_alg.blocksize) := by
  have h : (apply_calls sha256_alg tctx_zero (hse_ahash_init core_ex env_ok rctx_zero).1
      [hse_call.update env_ok (List.replicate 64 7)]).cache_idx = 64 := by
    simp only [apply_calls, List.foldl_cons, List.foldl_nil, apply_call]
    rw [update_cache_ok env_ok sha256_alg tctx_zero _ (List.replicate 64 7) (by decide)
      (by simp) (by simp [hse_ahash_init, sha256_alg])]
    simp [hse_ahash_init]
  rw [h]
  exact ⟨rfl, by decide⟩

/-- C9, amended: in every state reached from `hse_ahash_init` by any sequence of
`hse_ahash_update` calls, in any environment, and completions, with any error
code, the cache fill count `cache_idx` is at most the block size of the
algorithm. -/
theorem C9_cache_fill_at_most_block (core : hse_core) (env : hse_env) (alg : hse_ahash_alg)
    (tctx : hse_ahash_tfm_ctx) (rctx : hse_ahash_req_ctx) (calls : List hse_call)
    (hbs : 0 < alg.blocksize) :
    (apply_calls alg tctx (hse_ahash_init core env rctx).1 calls).cache_idx ≤
      alg.blocksize :=
  apply_calls_cache_idx_le alg tctx hbs calls _ (Nat.zero_le _)

/-- C9, amended, instance: updates of 64 and 70 bytes with their completions on a
64-byte block algorithm. -/
theorem C9_cache_fill_at_most_block_witness :
    (apply_calls sha256_alg tctx_zero (hse_ahash_init core_ex env_ok rctx_zero).1
        [hse_call.update env_ok (List.replicate 64 7),
          hse_call.update env_ok (List.replicate 70 8), hse_call.done 0]).cache_idx ≤
      sha256_alg.blocksize :=
  C9_cache_fill_at_most_block core_ex env_ok sha256_alg tctx_zero rctx_zero
    [hse_call.update env_ok (List.replicate 64 7),
      hse_call.update env_ok (List.replicate 70 8), hse_call.done 0] (by decide)

/-- C10: (a) whenever `hse_ahash_update` flushes (cache fill plus request length
above one block, all calls succeeding) it submits exactly one descriptor, whose
input length is the pending byte count rounded down to a multiple of the block
size, a positive multiple of the block size; (b) over `init; update(c1); ...;
update(cN); final`, every call and completion succeeding, every descriptor
submitted by the updates has an input length that is a positive multiple of the
block size, `final` adds one descriptor for the bytes left in the cache, and the
input lengths of all submitted descriptors sum to the total number of input
bytes. -/
theorem C10_submitted_lengths (H : List Nat → List Nat) (core : hse_core)
    (alg : hse_ahash_alg) (tctx : hse_ahash_tfm_ctx) (fw : hse_fw)
    (rctx : hse_ahash_req_ctx) (env_init env_final : hse_env)
    (steps : List (hse_env × List Nat))
    (hv : alg.valid) (hH : ∀ m, (H m).length = alg.digestsize)
    (hcache : rctx.cache.length = HSE_AHASH_MAX_BLOCK_SIZE)
    (hinit : env_init.ok) (hfinal : env_final.ok) (hsteps : steps_ok steps) :
    (∀ (env : hse_env) (r : hse_ahash_req_ctx) (data : List Nat), env.ok →
      r.cache.length = HSE_AHASH_MAX_BLOCK_SIZE → r.cache_idx ≤ alg.blocksize →
      alg.blocksize < r.cache_idx + data.length →
      data.length + HSE_AHASH_MAX_BLOCK_SIZE < U32_MOD →
        submitted_lens alg (hse_ahash_update env alg tctx r data).2.2 =
          [rounddown (r.cache_idx + data.length) alg.blocksize] ∧
        0 < rounddown (r.cache_idx + data.length) alg.blocksize ∧
        alg.blocksize ∣ rounddown (r.cache_idx + data.length) alg.blocksize) ∧
    ∃ s d s1,
      run_before_final H core alg tctx fw rctx env_init steps = some s ∧
      run_stream H core alg tctx fw rctx env_init steps env_final = some (d, s1) ∧
      (∀ l ∈ submitted_lens alg s.trace, 0 < l ∧ alg.blocksize ∣ l) ∧
      submitted_lens alg s1.trace = submitted_lens alg s.trace ++ [s.rctx.cache_idx] ∧
      (submitted_lens alg s1.trace).sum = (steps_input steps).length := by
  have h128 : HSE_AHASH_MAX_BLOCK_SIZE = 128 := rfl
  constructor
  · intro env r data henv hlen hci hgt hdata
    have hf := update_flush_ok env alg tctx r data hv henv hlen hci hgt
      (by have := hv.2.2; omega)
    have hl := hf.lens
    simp only [submitted_lens, List.filterMap_nil, List.nil_append] at hl
    have hf1 := le_rounddown (r.cache_idx + data.length) alg.blocksize hv.2.1 (le_of_lt hgt)
    exact ⟨hl, lt_of_lt_of_le hv.2.1 hf1, rounddown_dvd _ _⟩
  · obtain ⟨s, ls, hrun, c1, c2, c3, c4, c5, c6, c7, c8, c9, c10, c11, c12⟩ :=
      run_before_final_ok H core alg tctx fw rctx env_init steps hv hcache hinit hsteps
    have hci : s.rctx.cache_idx ≤ s.rctx.cache.length := by have := hv.2.2; omega
    obtain ⟨s1, hfin, _, ht⟩ := run_final_ok H core env_final alg tctx s hv hfinal hH hci
    refine ⟨s, H (absorbed s ++ s.rctx.pending), s1, hrun, ?_, ?_, ht.lens, ?_⟩
    · rw [run_stream_eq, hrun, Option.some_bind, hfin]
    · rw [c8]; exact c9
    · rw [ht.lens, c8, List.sum_append]
      simp only [List.sum_cons, List.sum_nil]
      omega

/-- C10, instance: block size 64 and chunks of 70, 70 and 60 bytes; the submitted
input lengths are 64, 64, 64 and a terminal 8, which sum to 200. -/
theorem C10_submitted_lengths_witness :
    ((∀ (env : hse_env) (r : hse_ahash_req_ctx) (data : List Nat), env.ok →
      r.cache.length = HSE_AHASH_MAX_BLOCK_SIZE → r.cache_idx ≤ sha256_alg.blocksize →
      sha256_alg.blocksize < r.cache_idx + data.length →
      data.length + HSE_AHASH_MAX_BLOCK_SIZE < U32_MOD →
        submitted_lens sha256_alg (hse_ahash_update env sha256_alg tctx_zero r data).2.2 =
          [rounddown (r.cache_idx + data.length) sha256_alg.blocksize] ∧
        0 < rounddown (r.cache_idx + data.length) sha256_alg.blocksize ∧
        sha256_alg.blocksize ∣ rounddown (r.cache_idx + data.length) sha256_alg.blocksize) ∧
    ∃ s d s1,
      run_before_final toy_hash core_ex sha256_alg tctx_zero fw_zero rctx_zero env_ok
        [(env_ok, List.replicate 70 1), (env_ok, List.replicate 70 2),
          (env_ok, List.replicate 60 3)] = some s ∧
      run_stream toy_hash core_ex sha256_alg tctx_zero fw_zero rctx_zero env_ok
        [(env_ok, List.replicate 70 1), (env_ok, List.replicate 70 2),
          (env_ok, List.replicate 60 3)] env_ok = some (d, s1) ∧
      (∀ l ∈ submitted_lens sha256_alg s.trace, 0 < l ∧ sha256_alg.blocksize ∣ l) ∧
      submitted_lens sha256_alg s1.trace =
        submitted_lens sha256_alg s.trace ++ [s.rctx.cache_idx] ∧
      (submitted_lens sha256_alg s1.trace).sum =
        (steps_input [(env_ok, List.replicate 70 1), (env_ok, List.replicate 70 2),
          (env_ok, List.replicate 60 3)]).length) ∧
    (run_stream toy_hash core_ex sha256_alg tctx_zero fw_zero rctx_zero env_ok
        [(env_ok, List.replicate 70 1), (env_ok, List.replicate 70 2),
          (env_ok, List.replicate 60 3)] env_ok).map
      (fun r => submitted_lens sha256_alg r.2.trace) = some [64, 64, 64, 8] ∧
    (steps_input [(env_ok, List.replicate 70 1), (env_ok, List.replicate 70 2),
      (env_ok, List.replicate 60 3)]).length = 200 :=
  ⟨C10_submitted_lengths toy_hash core_ex sha256_alg tctx_zero fw_zero rctx_zero env_ok env_ok
      [(env_ok, List.replicate 70 1), (env_ok, List.replicate 70 2),
        (env_ok, List.replicate 60 3)]
      sha256_valid toy_hash_length rfl env_ok_ok env_ok_ok
      (by simp [steps_ok, env_ok_ok, U32_MOD, HSE_AHASH_MAX_BLOCK_SIZE]),
    by set_option maxRecDepth 100000 in decide,
    by
      simp only [steps_input, List.map_cons, List.map_nil, List.flatten_cons, List.flatten_nil,
        List.length_append, List.length_replicate, List.length_nil]⟩

theorem run_rest_ok (H : List Nat → List Nat) (core : hse_core) (alg : hse_ahash_alg)
    (tctx : hse_ahash_tfm_ctx) (s : run_state) (steps : List (hse_env × List Nat))
    (env_final : hse_env) (hv : alg.valid) (hH : ∀ m, (H m).length = alg.digestsize)
    (hlen : s.rctx.cache.length = HSE_AHASH_MAX_BLOCK_SIZE)
    (hci : s.rctx.cache_idx ≤ alg.blocksize) (hsteps : steps_ok steps)
    (hfinal : env_final.ok) :
    ((run_updates H alg tctx s steps).bind (run_final H core env_final alg tctx)).map
      Prod.fst = some (H (absorbed s ++ s.rctx.pending ++ steps_input steps)) := by
  obtain ⟨s1, ls, hrun, hf⟩ := run_updates_ok H alg tctx s hv hlen hci steps hsteps
  have h128 : HSE_AHASH_MAX_BLOCK_SIZE = 128 := rfl
  obtain ⟨s2, hfin, _, _⟩ := run_final_ok H core env_final alg tctx s1 hv hfinal hH
    (by have := hv.2.2; have := hf.cache_len; have := hf.cache_idx_le; omega)
  rw [hrun, Option.some_bind, hfin, hf.message]
  rfl

theorem export_ok (env : hse_env) (fw : hse_fw) (rctx : hse_ahash_req_ctx) (henv : env.ok) :
    ∃ st, (run_export env fw rctx).2.1 = some st ∧
      (run_export env fw rctx).2.2.1 = 0 ∧
      st.sctx = (if rctx.streaming_mode then hse_fw_export fw rctx.stream
        else List.replicate HSE_MAX_CTX_SIZE 0) ∧
      st.cache = memcpy (List.replicate HSE_AHASH_MAX_BLOCK_SIZE 0) 0 rctx.cache
        rctx.cache_idx ∧
      st.cache_idx = rctx.cache_idx ∧
      st.streaming_mode = rctx.streaming_mode := by
  obtain ⟨_, hst, _, _, _, hsc, _, _, hsync⟩ := henv
  by_cases hs : rctx.streaming_mode = true
  · refine ⟨⟨hse_fw_export fw rctx.stream,
      memcpy (List.replicate HSE_AHASH_MAX_BLOCK_SIZE 0) 0 rctx.cache rctx.cache_idx,
      rctx.cache_idx, rctx.streaming_mode⟩, ?_, ?_, ?_, rfl, rfl, rfl⟩ <;>
      simp [run_export, hse_ahash_export, hst, hsc, hsync, hs]
  · refine ⟨⟨List.replicate HSE_MAX_CTX_SIZE 0,
      memcpy (List.replicate HSE_AHASH_MAX_BLOCK_SIZE 0) 0 rctx.cache rctx.cache_idx,
      rctx.cache_idx, rctx.streaming_mode⟩, ?_, ?_, ?_, rfl, rfl, rfl⟩ <;>
      simp [run_export, hse_ahash_export, hst, hsc, hsync, hs]

theorem import_ok (core : hse_core) (env : hse_env) (fw : hse_fw)
    (rctx : hse_ahash_req_ctx) (st : hse_ahash_state) (henv : env.ok) :
    ∃ s, run_import core env fw rctx st = some s ∧
      s.fw = (if st.streaming_mode then hse_fw_import fw env.acquire_stream st.sctx else fw) ∧
      s.rctx.cache = memcpy rctx.cache 0 st.cache st.cache_idx ∧
      s.rctx.cache_idx = st.cache_idx ∧
      s.rctx.streaming_mode = st.streaming_mode ∧
      s.rctx.stream = env.acquire_stream ∧
      s.rctx.channel = env.acquire_channel := by
  obtain ⟨_, hst, _, _, _, hsc, hacq, _, hsync⟩ := henv
  by_cases hs : st.streaming_mode = true
  · refine ⟨⟨hse_fw_import fw env.acquire_stream st.sctx,
      (hse_ahash_import core env rctx (some st)).1,
      (hse_ahash_import core env rctx (some st)).2.2⟩, ?_, ?_, ?_, ?_, ?_, ?_, ?_⟩ <;>
      simp [run_import, hse_ahash_import, hst, hsc, hacq, hsync, hs]
  · refine ⟨⟨fw, (hse_ahash_import core env rctx (some st)).1,
      (hse_ahash_import core env rctx (some st)).2.2⟩, ?_, ?_, ?_, ?_, ?_, ?_, ?_⟩ <;>
      simp [run_import, hse_ahash_import, hst, hsc, hacq, hsync, hs]

/-- C4: export/import round trip. For every request context between two calls
(cache fill at most one block, streaming or not), `hse_ahash_export` followed by
`hse_ahash_import` of the produced state on a fresh request context, all calls
succeeding, restores the same cached bytes, the same fill count and the same
streaming flag; with a co-processor whose import service restores the stream
state captured by its export service, the bytes absorbed for the request are
restored as well, and the remaining `update*; final` calls deliver the same
digest on the resumed request as on the original one. -/
theorem C4_export_import_round_trip (H : List Nat → List Nat) (core : hse_core)
    (alg : hse_ahash_alg) (tctx : hse_ahash_tfm_ctx) (s : run_state)
    (rctx2 : hse_ahash_req_ctx) (env_export env_import env_final : hse_env)
    (steps : List (hse_env × List Nat))
    (hv : alg.valid) (hH : ∀ m, (H m).length = alg.digestsize)
    (hlen : s.rctx.cache.length = HSE_AHASH_MAX_BLOCK_SIZE)
    (hci : s.rctx.cache_idx ≤ alg.blocksize)
    (hlen2 : rctx2.cache.length = HSE_AHASH_MAX_BLOCK_SIZE)
    (hexport : env_export.ok) (himport : env_import.ok) (hfinal : env_final.ok)
    (hsteps : steps_ok steps) :
    ∃ st s2,
      (run_export env_export s.fw s.rctx).2.1 = some st ∧
      (run_export env_export s.fw s.rctx).2.2.1 = 0 ∧
      run_import core env_import s.fw rctx2 st = some s2 ∧
      s2.rctx.pending = s.rctx.pending ∧
      s2.rctx.cache_idx = s.rctx.cache_idx ∧
      s2.rctx.streaming_mode = s.rctx.streaming_mode ∧
      absorbed s2 = absorbed s ∧
      ((run_updates H alg tctx s2 steps).bind (run_final H core env_final alg tctx)).map
          Prod.fst =
        ((run_updates H alg tctx s steps).bind (run_final H core env_final alg tctx)).map
          Prod.fst ∧
      ((run_updates H alg tctx s steps).bind (run_final H core env_final alg tctx)).map
          Prod.fst = some (H (absorbed s ++ s.rctx.pending ++ steps_input steps)) := by
  have h128 : HSE_AHASH_MAX_BLOCK_SIZE = 128 := rfl
  have hbs := hv.2.2
  obtain ⟨st, hst, hret, e1, e2, e3, e4⟩ := export_ok env_export s.fw s.rctx hexport
  obtain ⟨s2, hrun, i1, i2, i3, i4, i5, _⟩ := import_ok core env_import s.fw rctx2 st himport
  rw [e3] at i2 i3
  rw [e4] at i1 i4
  rw [e2] at i2
  have hstate : (memcpy (List.replicate HSE_AHASH_MAX_BLOCK_SIZE 0) 0 s.rctx.cache
      s.rctx.cache_idx).take s.rctx.cache_idx = s.rctx.cache.take s.rctx.cache_idx := by
    have := memcpy_take (List.replicate HSE_AHASH_MAX_BLOCK_SIZE 0) s.rctx.cache 0
      s.rctx.cache_idx (Nat.zero_le _) (by omega)
    simp only [Nat.zero_add, List.take_zero, List.nil_append] at this
    exact this
  have hstate_len : (memcpy (List.replicate HSE_AHASH_MAX_BLOCK_SIZE 0) 0 s.rctx.cache
      s.rctx.cache_idx).length = HSE_AHASH_MAX_BLOCK_SIZE := by
    rw [memcpy_length _ _ _ _ (by simp; omega) (by omega)]; simp
  have hpend : s2.rctx.pending = s.rctx.pending := by
    simp only [hse_ahash_req_ctx.pending, i2, i3]
    have := memcpy_take rctx2.cache
      (memcpy (List.replicate HSE_AHASH_MAX_BLOCK_SIZE 0) 0 s.rctx.cache s.rctx.cache_idx)
      0 s.rctx.cache_idx (Nat.zero_le _) (by omega)
    simp only [Nat.zero_add, List.take_zero, List.nil_append] at this
    rw [this]; exact hstate
  have hlen' : s2.rctx.cache.length = HSE_AHASH_MAX_BLOCK_SIZE := by
    rw [i2, memcpy_length _ _ _ _ (by simp only [Nat.zero_add]; omega) (by omega)]
    exact hlen2
  have habs : absorbed s2 = absorbed s := by
    simp only [absorbed, i4, i1, i5, e1]
    by_cases hs : s.rctx.streaming_mode = true
    · simp [hs, hse_fw_import, hse_fw_export]
    · simp [hs]
  have hrest := run_rest_ok H core alg tctx s steps env_final hv hH hlen hci hsteps hfinal
  have hrest2 := run_rest_ok H core alg tctx s2 steps env_final hv hH hlen'
    (by rw [i3]; exact hci) hsteps hfinal
  rw [habs, hpend] at hrest2
  exact ⟨st, s2, hst, hret, hrun, hpend, i3, i4, habs, by rw [hrest, hrest2], hrest⟩

/-- C4, instance: a request suspended while streaming (the co-processor has
absorbed 64 bytes for its slot and 8 bytes wait in the cache), resumed on a
zeroed request context and continued with an update of 70 bytes and `final`. -/
theorem C4_export_import_round_trip_witness :
    ∃ st s2,
      (run_export env_ok state_streaming.fw state_streaming.rctx).2.1 = some st ∧
      (run_export env_ok state_streaming.fw state_streaming.rctx).2.2.1 = 0 ∧
      run_import core_ex env_ok state_streaming.fw rctx_zero st = some s2 ∧
      s2.rctx.pending = state_streaming.rctx.pending ∧
      s2.rctx.cache_idx = state_streaming.rctx.cache_idx ∧
      s2.rctx.streaming_mode = state_streaming.rctx.streaming_mode ∧
      absorbed s2 = absorbed state_streaming ∧
      ((run_updates toy_hash sha256_alg tctx_zero s2 [(env_ok, List.replicate 70 2)]).bind
          (run_final toy_hash core_ex env_ok sha256_alg tctx_zero)).map Prod.fst =
        ((run_updates toy_hash sha256_alg tctx_zero state_streaming
            [(env_ok, List.replicate 70 2)]).bind
          (run_final toy_hash core_ex env_ok sha256_alg tctx_zero)).map Prod.fst ∧
      ((run_updates toy_hash sha256_alg tctx_zero state_streaming
            [(env_ok, List.replicate 70 2)]).bind
          (run_final toy_hash core_ex env_ok sha256_alg tctx_zero)).map Prod.fst =
        some (toy_hash (absorbed state_streaming ++ state_streaming.rctx.pending ++
          steps_input [(env_ok, List.replicate 70 2)])) :=
  C4_export_import_round_trip toy_hash core_ex sha256_alg tctx_zero state_streaming rctx_zero
    env_ok env_ok env_ok [(env_ok, List.replicate 70 2)]
    sha256_valid toy_hash_length
    (by simp [state_streaming, rctx_streaming, rctx_zero, HSE_AHASH_MAX_BLOCK_SIZE])
    (by simp [state_streaming, rctx_streaming, rctx_zero, sha256_alg]) rfl
    env_ok_ok env_ok_ok env_ok_ok
    (by simp [steps_ok, env_ok_ok, U32_MOD, HSE_AHASH_MAX_BLOCK_SIZE])

/-- C11 (divergence): when `hse_ahash_done` receives a non-zero error for a START
or UPDATE descriptor, it passes that error to the completion and leaves
`buflen = 0`, but it makes no call to `hse_channel_release`: the channel and
stream slot taken by `hse_ahash_init` stay with the request. -/
theorem C11_done_error_keeps_channel (alg : hse_ahash_alg) (err : Int)
    (rctx : hse_ahash_req_ctx) (herr : err ≠ 0)
    (hmode : desc_access_mode alg rctx.srv_desc = HSE_ACCESS_MODE_START ∨
      desc_access_mode alg rctx.srv_desc = HSE_ACCESS_MODE_UPDATE) :
    completed (hse_ahash_done alg err rctx).2.2 = [err] ∧
    (hse_ahash_done alg err rctx).1.buflen = 0 ∧
    released (hse_ahash_done alg err rctx).2.2 = [] ∧
    (hse_ahash_done alg err rctx).1.channel = rctx.channel ∧
    (hse_ahash_done alg err rctx).1.stream = rctx.stream := by
  have h3 : desc_access_mode alg rctx.srv_desc ≠ HSE_ACCESS_MODE_FINISH := by
    rcases hmode with h | h <;> rw [h] <;> decide
  have h0 : desc_access_mode alg rctx.srv_desc ≠ HSE_ACCESS_MODE_ONE_PASS := by
    rcases hmode with h | h <;> rw [h] <;> decide
  simp [hse_ahash_done, herr, h3, h0, completed, released]

/-- C11 (divergence), on a concrete run: `hse_ahash_init`, then an
`hse_ahash_update` that submits a START descriptor, then a completion with error
`-EIO`. One channel was acquired and none is released. -/
theorem C11_done_error_keeps_channel_witness :
    desc_access_mode sha256_alg rctx_started.srv_desc = HSE_ACCESS_MODE_START ∧
    acquired (trace_started ++ (hse_ahash_done sha256_alg (-5) rctx_started).2.2) = [1] ∧
    released (trace_started ++ (hse_ahash_done sha256_alg (-5) rctx_started).2.2) = [] ∧
    completed (hse_ahash_done sha256_alg (-5) rctx_started).2.2 = [-5] ∧
    (hse_ahash_done sha256_alg (-5) rctx_started).1.buflen = 0 :=
  ⟨by set_option maxRecDepth 100000 in decide,
   by set_option maxRecDepth 100000 in decide,
   by set_option maxRecDepth 100000 in decide,
   (C11_done_error_keeps_channel sha256_alg (-5) rctx_started (by decide)
      (Or.inl (by set_option maxRecDepth 100000 in decide))).1,
   (C11_done_error_keeps_channel sha256_alg (-5) rctx_started (by decide)
      (Or.inl (by set_option maxRecDepth 100000 in decide))).2.1⟩

/-- C12 (divergence): when `hse_ahash_update` has to allocate a larger linear
buffer, `kzalloc` succeeds and `dma_map_single` fails, the call returns
`-ENOMEM` after releasing the channel, and the buffer just obtained from
`kzalloc` is not passed to `kfree`: the only `kfree` is the one of the previous
buffer, made before the allocation. -/
theorem C12_update_map_failure_keeps_buffer (env : hse_env) (alg : hse_ahash_alg)
    (tctx : hse_ahash_tfm_ctx) (rctx : hse_ahash_req_ctx) (data : List Nat) (p : Nat)
    (hn : data.length ≠ 0)
    (hbig : alg.blocksize < (rctx.cache_idx + data.length) % U32_MOD)
    (hsmall : rctx.buflen <
      rounddown ((rctx.cache_idx + data.length) % U32_MOD) alg.blocksize)
    (hk : env.kzalloc_buf = some p) (hm : env.dma_map_buf.error = true) :
    (hse_ahash_update env alg tctx rctx data).2.1 = -ENOMEM ∧
    (hse_ahash_update env alg tctx rctx data).1.buflen = 0 ∧
    (hse_ahash_update env alg tctx rctx data).1.buf = p ∧
    (hse_ahash_update env alg tctx rctx data).2.2 =
      (if rctx.buflen ≠ 0 then
        [hse_event.dma_unmap_single rctx.buf_dma rctx.buflen, hse_event.kfree rctx.buf]
       else []) ++
      [hse_event.kzalloc p
          (rounddown ((rctx.cache_idx + data.length) % U32_MOD) alg.blocksize),
       hse_event.channel_release rctx.channel] := by
  have hb : ¬ (rctx.cache_idx + data.length) % U32_MOD ≤ alg.blocksize := Nat.not_le.mpr hbig
  simp [hse_ahash_update, hn, hb, hsmall, hk, hm, release_channel_and_buf]

/-- C12 (divergence), on a concrete run: after `hse_ahash_init`, an
`hse_ahash_update` with 70 bytes in an environment where mapping the buffer
fails. Buffer 4096 is allocated and never freed. -/
theorem C12_update_map_failure_keeps_buffer_witness :
    (hse_ahash_update env_map_buf_fails sha256_alg tctx_zero
      (hse_ahash_init core_ex env_ok rctx_zero).1 (List.replicate 70 1)).2.1 = -ENOMEM ∧
    allocated (hse_ahash_update env_map_buf_fails sha256_alg tctx_zero
      (hse_ahash_init core_ex env_ok rctx_zero).1 (List.replicate 70 1)).2.2 = [4096] ∧
    freed (hse_ahash_update env_map_buf_fails sha256_alg tctx_zero
      (hse_ahash_init core_ex env_ok rctx_zero).1 (List.replicate 70 1)).2.2 = [] ∧
    (hse_ahash_update env_map_buf_fails sha256_alg tctx_zero
      (hse_ahash_init core_ex env_ok rctx_zero).1 (List.replicate 70 1)).1.buf = 4096 :=
  ⟨(C12_update_map_failure_keeps_buffer env_map_buf_fails sha256_alg tctx_zero
      (hse_ahash_init core_ex env_ok rctx_zero).1 (List.replicate 70 1) 4096
      (by decide) (by decide) (by decide) rfl rfl).1,
   by set_option maxRecDepth 100000 in decide,
   by set_option maxRecDepth 100000 in decide,
   (C12_update_map_failure_keeps_buffer env_map_buf_fails sha256_alg tctx_zero
      (hse_ahash_init core_ex env_ok rctx_zero).1 (List.replicate 70 1) 4096
      (by decide) (by decide) (by decide) rfl rfl).2.2.1⟩

theorem update_submit_call (env : hse_env) (alg : hse_ahash_alg) (tctx : hse_ahash_tfm_ctx)
    (rctx : hse_ahash_req_ctx) (data : List Nat) (bl full : Nat) (ev : List hse_event)
    (hv : alg.valid) :
    (update_submit env alg tctx rctx data bl full ev).1.streaming_mode =
      rctx.streaming_mode ∧
    (update_submit env alg tctx rctx data bl full ev).1.channel = rctx.channel ∧
    acquired (update_submit env alg tctx rctx data bl full ev).2.2 = acquired ev ∧
    submitted_modes alg (update_submit env alg tctx rctx data bl full ev).2.2 =
      submitted_modes alg ev ++
        [if rctx.streaming_mode then HSE_ACCESS_MODE_UPDATE else HSE_ACCESS_MODE_START] ∧
    ((update_submit env alg tctx rctx data bl full ev).2.1 ≠ -EINPROGRESS →
      released (update_submit env alg tctx rctx data bl full ev).2.2 =
        released ev ++ [rctx.channel]) := by
  have hd := fun r => (desc_update_mode alg tctx r full hv).1
  by_cases ha : env.srv_req_async = 0 <;> by_cases hb : rctx.buflen = 0 <;>
    simp [update_submit, release_channel_and_buf, ha, hb, hd, submitted_modes, acquired,
      released, List.filterMap_append]

theorem update_call (env : hse_env) (alg : hse_ahash_alg) (tctx : hse_ahash_tfm_ctx)
    (rctx : hse_ahash_req_ctx) (data : List Nat) (hv : alg.valid) :
    (hse_ahash_update env alg tctx rctx data).1.streaming_mode = rctx.streaming_mode ∧
    (hse_ahash_update env alg tctx rctx data).1.channel = rctx.channel ∧
    acquired (hse_ahash_update env alg tctx rctx data).2.2 = [] ∧
    (submitted_modes alg (hse_ahash_update env alg tctx rctx data).2.2 = [] ∨
      submitted_modes alg (hse_ahash_update env alg tctx rctx data).2.2 =
        [if rctx.streaming_mode then HSE_ACCESS_MODE_UPDATE else HSE_ACCESS_MODE_START]) ∧
    ((hse_ahash_update env alg tctx rctx data).2.1 ≠ 0 →
      (hse_ahash_update env alg tctx rctx data).2.1 ≠ -EINPROGRESS →
      released (hse_ahash_update env alg tctx rctx data).2.2 = [rctx.channel]) := by
  by_cases hn : data.length = 0
  · simp [hse_ahash_update, hn, acquired, submitted_modes]
  by_cases hle : (rctx.cache_idx + data.length) % U32_MOD ≤ alg.blocksize
  · simp [hse_ahash_update, hn, hle, acquired, submitted_modes]
  have hS := fun r ev => update_submit_call env alg tctx r data
    ((rctx.cache_idx + data.length) % U32_MOD)
    (rounddown ((rctx.cache_idx + data.length) % U32_MOD) alg.blocksize) ev hv
  by_cases hb : rctx.buflen <
      rounddown ((rctx.cache_idx + data.length) % U32_MOD) alg.blocksize
  · rcases hk : env.kzalloc_buf with _ | p
    · by_cases hb0 : rctx.buflen = 0
      · have hb1 : 0 < rounddown ((rctx.cache_idx + data.length) % U32_MOD) alg.blocksize := by
          rw [hb0] at hb; exact hb
        simp [hse_ahash_update, hn, hle, hb1, hk, hb0, release_channel_and_buf, acquired,
          submitted_modes, released, ENOMEM, EINPROGRESS]
      · simp [hse_ahash_update, hn, hle, hb, hk, hb0, release_channel_and_buf, acquired,
          submitted_modes, released, ENOMEM, EINPROGRESS]
    rcases hm : env.dma_map_buf.error
    swap
    · by_cases hb0 : rctx.buflen = 0
      · have hb1 : 0 < rounddown ((rctx.cache_idx + data.length) % U32_MOD) alg.blocksize := by
          rw [hb0] at hb; exact hb
        simp [hse_ahash_update, hn, hle, hb1, hk, hm, hb0, release_channel_and_buf, acquired,
          submitted_modes, released, ENOMEM, EINPROGRESS]
      · simp [hse_ahash_update, hn, hle, hb, hk, hm, hb0, release_channel_and_buf, acquired,
          submitted_modes, released, ENOMEM, EINPROGRESS]
    have hu : hse_ahash_update env alg tctx rctx data =
        update_submit env alg tctx
          { rctx with
            buflen := rounddown ((rctx.cache_idx + data.length) % U32_MOD) alg.blocksize
            buf := p
            buf_mem := List.replicate
              (rounddown ((rctx.cache_idx + data.length) % U32_MOD) alg.blocksize) 0
            buf_dma := env.dma_map_buf.addr }
          data ((rctx.cache_idx + data.length) % U32_MOD)
          (rounddown ((rctx.cache_idx + data.length) % U32_MOD) alg.blocksize)
          ((if rctx.buflen ≠ 0 then
              [hse_event.dma_unmap_single rctx.buf_dma rctx.buflen, hse_event.kfree rctx.buf]
            else []) ++
            [hse_event.kzalloc p
              (rounddown ((rctx.cache_idx + data.length) % U32_MOD) alg.blocksize)] ++
            [hse_event.dma_map_single env.dma_map_buf.addr
              (rounddown ((rctx.cache_idx + data.length) % U32_MOD) alg.blocksize)]) := by
      simp [hse_ahash_update, hn, hle, hb, hk, hm]
    rw [hu]
    obtain ⟨a1, a2, a3, a4, a5⟩ := hS
      { rctx with
        buflen := rounddown ((rctx.cache_idx + data.length) % U32_MOD) alg.blocksize
        buf := p
        buf_mem := List.replicate
          (rounddown ((rctx.cache_idx + data.length) % U32_MOD) alg.blocksize) 0
        buf_dma := env.dma_map_buf.addr }
      ((if rctx.buflen ≠ 0 then
          [hse_event.dma_unmap_single rctx.buf_dma rctx.buflen, hse_event.kfree rctx.buf]
        else []) ++
        [hse_event.kzalloc p
          (rounddown ((rctx.cache_idx + data.length) % U32_MOD) alg.blocksize)] ++
        [hse_event.dma_map_single env.dma_map_buf.addr
          (rounddown ((rctx.cache_idx + data.length) % U32_MOD) alg.blocksize)])
    have e1 : acquired ((if rctx.buflen ≠ 0 then
          [hse_event.dma_unmap_single rctx.buf_dma rctx.buflen, hse_event.kfree rctx.buf]
        else []) ++
        [hse_event.kzalloc p
          (rounddown ((rctx.cache_idx + data.length) % U32_MOD) alg.blocksize)] ++
        [hse_event.dma_map_single env.dma_map_buf.addr
          (rounddown ((rctx.cache_idx + data.length) % U32_MOD) alg.blocksize)]) = [] := by
      by_cases hb0 : rctx.buflen = 0 <;> simp [acquired, hb0]
    have e2 : released ((if rctx.buflen ≠ 0 then
          [hse_event.dma_unmap_single rctx.buf_dma rctx.buflen, hse_event.kfree rctx.buf]
        else []) ++
        [hse_event.kzalloc p
          (rounddown ((rctx.cache_idx + data.length) % U32_MOD) alg.blocksize)] ++
        [hse_event.dma_map_single env.dma_map_buf.addr
          (rounddown ((rctx.cache_idx + data.length) % U32_MOD) alg.blocksize)]) = [] := by
      by_cases hb0 : rctx.buflen = 0 <;> simp [released, hb0]
    have e3 : submitted_modes alg ((if rctx.buflen ≠ 0 then
          [hse_event.dma_unmap_single rctx.buf_dma rctx.buflen, hse_event.kfree rctx.buf]
        else []) ++
        [hse_event.kzalloc p
          (rounddown ((rctx.cache_idx + data.length) % U32_MOD) alg.blocksize)] ++
        [hse_event.dma_map_single env.dma_map_buf.addr
          (rounddown ((rctx.cache_idx + data.length) % U32_MOD) alg.blocksize)]) = [] := by
      by_cases hb0 : rctx.buflen = 0 <;> simp [submitted_modes, hb0]
    refine ⟨a1, a2, ?_, Or.inr ?_, fun _ h1 => ?_⟩
    · rw [a3, e1]
    · rw [a4, e3]; rfl
    · rw [a5 h1, e2]; rfl
  · have hu : hse_ahash_update env alg tctx rctx data =
        update_submit env alg tctx rctx data ((rctx.cache_idx + data.length) % U32_MOD)
          (rounddown ((rctx.cache_idx + data.length) % U32_MOD) alg.blocksize) [] := by
      simp [hse_ahash_update, hn, hle, hb]
    rw [hu]
    obtain ⟨a1, a2, a3, a4, a5⟩ := hS rctx []
    refine ⟨a1, a2, ?_, Or.inr ?_, fun _ h1 => ?_⟩
    · rw [a3]; rfl
    · rw [a4]; rfl
    · rw [a5 h1]; rfl

/-- A second way in which `hse_channel_release` is called more often than a
channel was acquired: `hse_ahash_init` followed by an `hse_ahash_final` whose
submission is refused with `-EBUSY`. The request is not streaming, so
`hse_ahash_final` releases channel 1 before submitting and stores
`HSE_CHANNEL_ANY` in `rctx->channel`; its error exit then calls
`hse_channel_release` again, with `HSE_CHANNEL_ANY`. -/
theorem final_refused_releases_any :
    (hse_ahash_final core_ex env_async_fails sha256_alg tctx_zero
      (hse_ahash_init core_ex env_ok rctx_zero).1).2.1 = -16 ∧
    acquired ((hse_ahash_init core_ex env_ok rctx_zero).2.2 ++
      (hse_ahash_final core_ex env_async_fails sha256_alg tctx_zero
        (hse_ahash_init core_ex env_ok rctx_zero).1).2.2) = [1] ∧
    released ((hse_ahash_init core_ex env_ok rctx_zero).2.2 ++
      (hse_ahash_final core_ex env_async_fails sha256_alg tctx_zero
        (hse_ahash_init core_ex env_ok rctx_zero).1).2.2) = [1, core_ex.HSE_CHANNEL_ANY] := by
  refine ⟨?_, ?_, ?_⟩ <;> set_option maxRecDepth 100000 in decide

/-- C13 (divergence): an `hse_ahash_update` that returns an error code has
released the channel of the request in its error exit, without acquiring one,
and has left `rctx->channel` as it was. The `hse_ahash_final`,
`hse_ahash_finup` or `hse_ahash_export` called next on the request, whatever the
outcome of its own calls and of its completion, calls `hse_channel_release` with
that channel again: the releases of the two calls start with the same channel
twice, and no channel is acquired in between. -/
theorem C13_channel_released_again (core : hse_core) (env : hse_env) (alg : hse_ahash_alg)
    (tctx : hse_ahash_tfm_ctx) (rctx : hse_ahash_req_ctx) (data : List Nat)
    (hv : alg.valid)
    (h0 : (hse_ahash_update env alg tctx rctx data).2.1 ≠ 0)
    (h1 : (hse_ahash_update env alg tctx rctx data).2.1 ≠ -EINPROGRESS) :
    acquired (hse_ahash_update env alg tctx rctx data).2.2 = [] ∧
    released (hse_ahash_update env alg tctx rctx data).2.2 = [rctx.channel] ∧
    (hse_ahash_update env alg tctx rctx data).1.channel = rctx.channel ∧
    ∀ (env2 : hse_env) (data2 : List Nat) (err : Int) (out_valid : Bool),
      acquired ((hse_ahash_update env alg tctx rctx data).2.2 ++
        with_completion alg err env2.srv_req_async
          (hse_ahash_final core env2 alg tctx
            (hse_ahash_update env alg tctx rctx data).1)) = [] ∧
      (released ((hse_ahash_update env alg tctx rctx data).2.2 ++
        with_completion alg err env2.srv_req_async
          (hse_ahash_final core env2 alg tctx
            (hse_ahash_update env alg tctx rctx data).1))).take 2 =
          [rctx.channel, rctx.channel] ∧
      acquired ((hse_ahash_update env alg tctx rctx data).2.2 ++
        with_completion alg err env2.srv_req_async
          (hse_ahash_finup core env2 alg tctx
            (hse_ahash_update env alg tctx rctx data).1 data2)) = [] ∧
      (released ((hse_ahash_update env alg tctx rctx data).2.2 ++
        with_completion alg err env2.srv_req_async
          (hse_ahash_finup core env2 alg tctx
            (hse_ahash_update env alg tctx rctx data).1 data2))).take 2 =
          [rctx.channel, rctx.channel] ∧
      acquired ((hse_ahash_update env alg tctx rctx data).2.2 ++
        (hse_ahash_export env2 (hse_ahash_update env alg tctx rctx data).1
          out_valid).2.2.2) = [] ∧
      released ((hse_ahash_update env alg tctx rctx data).2.2 ++
        (hse_ahash_export env2 (hse_ahash_update env alg tctx rctx data).1
          out_valid).2.2.2) = [rctx.channel, rctx.channel] := by
  obtain ⟨_, u2, u3, _, u5⟩ := update_call env alg tctx rctx data hv
  have hr := u5 h0 h1
  refine ⟨u3, hr, u2, fun env2 data2 err out_valid => ?_⟩
  obtain ⟨fa, fr⟩ := final_released core env2 alg tctx
    (hse_ahash_update env alg tctx rctx data).1 err hv
  obtain ⟨ua, ur⟩ := finup_released core env2 alg tctx
    (hse_ahash_update env alg tctx rctx data).1 data2 err hv
  obtain ⟨x1, x2⟩ := export_channel_events env2
    (hse_ahash_update env alg tctx rctx data).1 out_valid
  rw [u2] at fr ur x1
  refine ⟨?_, ?_, ?_, ?_, ?_, ?_⟩
  · rw [acquired_append, u3, fa]; rfl
  · rw [released_append, hr]
    rcases fr with h | ⟨_, _, _, h⟩ <;> rw [h] <;> rfl
  · rw [acquired_append, u3, ua]; rfl
  · rw [released_append, hr]
    rcases ur with h | ⟨_, _, _, h⟩ <;> rw [h] <;> rfl
  · rw [acquired_append, u3, x2]; rfl
  · rw [released_append, hr, x1]; rfl

/-- C13 (divergence), on a concrete run: SHA-256, `hse_ahash_init` acquires
channel 1, an `hse_ahash_update` of 70 bytes fails because the buffer cannot be
mapped, and `hse_ahash_final` follows with every call succeeding. One channel
is acquired and `hse_channel_release` is called twice with it. -/
theorem C13_channel_released_again_witness :
    (hse_ahash_update env_map_buf_fails sha256_alg tctx_zero
      (hse_ahash_init core_ex env_ok rctx_zero).1 (List.replicate 70 1)).2.1 = -ENOMEM ∧
    released (hse_ahash_update env_map_buf_fails sha256_alg tctx_zero
      (hse_ahash_init core_ex env_ok rctx_zero).1 (List.replicate 70 1)).2.2 = [1] ∧
    acquired ((hse_ahash_init core_ex env_ok rctx_zero).2.2 ++
      (hse_ahash_update env_map_buf_fails sha256_alg tctx_zero
        (hse_ahash_init core_ex env_ok rctx_zero).1 (List.replicate 70 1)).2.2 ++
      with_completion sha256_alg 0 env_ok.srv_req_async
        (hse_ahash_final core_ex env_ok sha256_alg tctx_zero
          (hse_ahash_update env_map_buf_fails sha256_alg tctx_zero
            (hse_ahash_init core_ex env_ok rctx_zero).1 (List.replicate 70 1)).1)) = [1] ∧
    released ((hse_ahash_init core_ex env_ok rctx_zero).2.2 ++
      (hse_ahash_update env_map_buf_fails sha256_alg tctx_zero
        (hse_ahash_init core_ex env_ok rctx_zero).1 (List.replicate 70 1)).2.2 ++
      with_completion sha256_alg 0 env_ok.srv_req_async
        (hse_ahash_final core_ex env_ok sha256_alg tctx_zero
          (hse_ahash_update env_map_buf_fails sha256_alg tctx_zero
            (hse_ahash_init core_ex env_ok rctx_zero).1 (List.replicate 70 1)).1)) =
      [1, 1] :=
  ⟨by set_option maxRecDepth 100000 in decide,
   (C13_channel_released_again core_ex env_map_buf_fails sha256_alg tctx_zero
      (hse_ahash_init core_ex env_ok rctx_zero).1 (List.replicate 70 1) sha256_valid
      (by set_option maxRecDepth 100000 in decide)
      (by set_option maxRecDepth 100000 in decide)).2.1,
   by set_option maxRecDepth 100000 in decide,
   by set_option maxRecDepth 100000 in decide⟩

/-- C14: in every execution of `hse_ahash_export` (any outcome of the calls it
makes, streaming or not, `out` null or not) the events are some exchange events,
which contain no release and no `kfree`, followed by exactly one
`hse_channel_release` of the request's channel and by the unmapping and freeing
of the linear buffer when `buflen` was non-zero; `buflen` is 0 afterwards. The
synchronous EXPORT exchange, issued exactly when a streaming request gets as far
as a mapped context buffer, is among the events before the release. -/
theorem C14_export_releases_everything (env : hse_env) (rctx : hse_ahash_req_ctx)
    (out_valid : Bool) :
    (hse_ahash_export env rctx out_valid).1.buflen = 0 ∧
    released (hse_ahash_export env rctx out_valid).2.2.2 = [rctx.channel] ∧
    freed (hse_ahash_export env rctx out_valid).2.2.2 =
      (if rctx.buflen ≠ 0 then [rctx.buf] else []) ∧
    ∃ pre : List hse_event,
      (hse_ahash_export env rctx out_valid).2.2.2 =
        pre ++ [hse_event.channel_release rctx.channel] ++
          (if rctx.buflen ≠ 0 then
            [hse_event.dma_unmap_single rctx.buf_dma rctx.buflen, hse_event.kfree rctx.buf]
           else []) ∧
      released pre = [] ∧ freed pre = [] ∧
      sync_requests pre = sync_requests (hse_ahash_export env rctx out_valid).2.2.2 ∧
      (sync_requests pre).map
          (fun q => (q.1, q.2.1.srv_id, q.2.1.ctx_impex_req.operation,
            q.2.1.ctx_impex_req.stream_id, q.2.2.2)) =
        (if out_valid && env.kzalloc_state && rctx.streaming_mode && !env.dma_map_sctx.error
         then [(rctx.channel, HSE_SRV_ID_IMPORT_EXPORT_STREAM_CTX,
                HSE_EXPORT_STREAMING_CONTEXT, rctx.stream, env.srv_req_sync)]
         else []) := by
  obtain ⟨h0, hev⟩ := export_events env rctx out_valid
  obtain ⟨_, r1, _, r3, r4⟩ := release_channel_and_buf_events rctx
  have hpre : ∀ pre : List hse_event, pre ++ (release_channel_and_buf rctx).2 =
      pre ++ [hse_event.channel_release rctx.channel] ++
        (if rctx.buflen ≠ 0 then
          [hse_event.dma_unmap_single rctx.buf_dma rctx.buflen, hse_event.kfree rctx.buf]
         else []) := by
    intro pre; simp [release_channel_and_buf]
  rw [hev]
  refine ⟨h0, ?_, ?_, _, hpre _, ?_, ?_, ?_, ?_⟩
  · rw [released_append, r1]; split <;> simp [released]
  · rw [freed_append, r3]; split <;> simp [freed]
  · split <;> simp [released]
  · split <;> simp [freed]
  · rw [sync_requests_append, r4, List.append_nil]
  · split <;> simp [sync_requests]

/-- C15: for every state handed to `hse_ahash_import`, the synchronous requests
of the call are none when the restored streaming flag is false, and, when the
flag is true and the preliminary steps (copy of the state, channel acquisition,
mapping of the context) succeed, exactly one: on the freshly acquired channel, a
zeroed descriptor with `srv_id` IMPORT_EXPORT_STREAM_CTX, operation IMPORT and
the `stream_id` of the freshly acquired slot, handing over the `sctx` bytes of
the state verbatim. With the flag true the call returns 0 only if that exchange
was issued and returned 0; when the exchange fails the call returns its error
and releases the freshly acquired channel. -/
theorem C15_import_context_exchange (core : hse_core) (env : hse_env)
    (rctx : hse_ahash_req_ctx) (st : hse_ahash_state) :
    sync_requests (hse_ahash_import core env rctx (some st)).2.2 =
      (if env.kzalloc_state && decide (env.acquire_err = 0) && st.streaming_mode &&
          !env.dma_map_sctx.error then
        [(env.acquire_channel,
          { hse_srv_desc_zero with
            srv_id := HSE_SRV_ID_IMPORT_EXPORT_STREAM_CTX
            ctx_impex_req :=
              { operation := HSE_IMPORT_STREAMING_CONTEXT
                stream_id := env.acquire_stream
                stream_ctx := env.dma_map_sctx.addr } },
          st.sctx, env.srv_req_sync)]
       else []) ∧
    (st.streaming_mode = true → (hse_ahash_import core env rctx (some st)).2.1 = 0 →
      env.srv_req_sync = 0 ∧
      (sync_requests (hse_ahash_import core env rctx (some st)).2.2).map
          (fun q => (q.1, q.2.2)) = [(env.acquire_channel, st.sctx, 0)]) ∧
    (env.kzalloc_state = true → env.acquire_err = 0 → st.streaming_mode = true →
      env.dma_map_sctx.error = false → env.srv_req_sync ≠ 0 →
      (hse_ahash_import core env rctx (some st)).2.1 = env.srv_req_sync ∧
      acquired (hse_ahash_import core env rctx (some st)).2.2 = [env.acquire_channel] ∧
      released (hse_ahash_import core env rctx (some st)).2.2 = [env.acquire_channel]) := by
  rcases hk : env.kzalloc_state
  · simp [hse_ahash_import, sync_requests, hk, ENOMEM]
  by_cases ha : env.acquire_err = 0
  swap
  · simp [hse_ahash_import, sync_requests, hk, ha]
  rcases hs : st.streaming_mode
  · simp [hse_ahash_import, sync_requests, hk, ha, hs]
  rcases hm : env.dma_map_sctx.error
  swap
  · simp [hse_ahash_import, sync_requests, hk, ha, hs, hm, ENOMEM]
  by_cases he : env.srv_req_sync = 0 <;>
    simp [hse_ahash_import, sync_requests, acquired, released, hse_srv_desc_zero,
      hk, ha, hs, hm, he]

/-- C15 on concrete runs: importing `state_saved` hands its 372 context bytes to
the co-processor on channel 1; when the exchange fails with `-EIO`, channel 1 is
released. -/
theorem C15_import_context_exchange_witness :
    (sync_requests (hse_ahash_import core_ex env_ok rctx_zero (some state_saved)).2.2).map
        (fun q => (q.1, q.2.2)) = [(1, List.replicate 372 9, 0)] ∧
    (hse_ahash_import core_ex env_sync_fails rctx_zero (some state_saved)).2.1 = -5 ∧
    released (hse_ahash_import core_ex env_sync_fails rctx_zero (some state_saved)).2.2 = [1] :=
  ⟨((C15_import_context_exchange core_ex env_ok rctx_zero state_saved).2.1 rfl
      (by set_option maxRecDepth 100000 in decide)).2,
   ((C15_import_context_exchange core_ex env_sync_fails rctx_zero state_saved).2.2
      rfl rfl rfl rfl (by decide)).1,
   ((C15_import_context_exchange core_ex env_sync_fails rctx_zero state_saved).2.2
      rfl rfl rfl rfl (by decide)).2.2⟩

/-- C16 (counterexample to the claim as stated): a streaming request is exported
while mapping the context buffer fails. No EXPORT exchange takes place, the call
returns `-ENOMEM`, and the state written to `out` has the streaming flag set
with a context of 372 zero bytes. -/
theorem C16_counterexample :
    (hse_ahash_export env_map_sctx_fails rctx_streaming true).2.2.1 = -ENOMEM ∧
    sync_requests (hse_ahash_export env_map_sctx_fails rctx_streaming true).2.2.2 = [] ∧
    ((hse_ahash_export env_map_sctx_fails rctx_streaming true).2.1.map
      (fun st => (st.streaming_mode, st.sctx))) = some (true, List.replicate 372 0) := by
  refine ⟨?_, ?_, ?_⟩ <;> set_option maxRecDepth 100000 in decide

/-- C16 (amended): whenever `hse_ahash_export` writes a state to `out`: if its
streaming flag is false the context in it is 372 zero bytes and no exchange took
place; if its streaming flag is true and the call returns 0, the context in it
is the one left by the co-processor in an EXPORT exchange for the request's
stream slot that returned 0, the only synchronous request of the call. -/
theorem C16_exported_context (env : hse_env) (rctx : hse_ahash_req_ctx) (out_valid : Bool)
    (st : hse_ahash_state)
    (hst : (hse_ahash_export env rctx out_valid).2.1 = some st) :
    (st.streaming_mode = false →
      st.sctx = List.replicate HSE_MAX_CTX_SIZE 0 ∧
      sync_requests (hse_ahash_export env rctx out_valid).2.2.2 = []) ∧
    (st.streaming_mode = true → (hse_ahash_export env rctx out_valid).2.2.1 = 0 →
      st.sctx = env.exported_sctx ∧
      (sync_requests (hse_ahash_export env rctx out_valid).2.2.2).map
          (fun q => (q.1, q.2.1.srv_id, q.2.1.ctx_impex_req.operation,
            q.2.1.ctx_impex_req.stream_id, q.2.2.1, q.2.2.2)) =
        [(rctx.channel, HSE_SRV_ID_IMPORT_EXPORT_STREAM_CTX, HSE_EXPORT_STREAMING_CONTEXT,
          rctx.stream, st.sctx, 0)]) := by
  revert hst
  cases out_valid
  · simp [hse_ahash_export]
  rcases hk : env.kzalloc_state
  · simp [hse_ahash_export, hk]
  rcases hs : rctx.streaming_mode
  · simp only [export_events, sync_requests_append, release_channel_and_buf_events]
    simp [hse_ahash_export, sync_requests, hk, hs]
    intro h; subst h; simp
  rcases hm : env.dma_map_sctx.error
  · simp only [export_events, sync_requests_append, release_channel_and_buf_events]
    simp [hse_ahash_export, sync_requests, hk, hs, hm]
    intro h; subst h; simp
  · simp [hse_ahash_export, hk, hs, hm, ENOMEM]
    intro h; subst h; simp

/-- C16 (amended) on a concrete run: exporting the streaming request
`rctx_streaming` when every call succeeds writes the context handed back by the
co-processor. -/
theorem C16_exported_context_witness :
    (hse_ahash_export env_exported rctx_streaming true).2.2.1 = 0 ∧
    ((hse_ahash_export env_exported rctx_streaming true).2.1.map
      (fun st => (st.streaming_mode, st.sctx))) = some (true, List.replicate 372 9) ∧
    (sync_requests (hse_ahash_export env_exported rctx_streaming true).2.2.2).map
        (fun q => (q.1, q.2.1.srv_id, q.2.1.ctx_impex_req.operation,
          q.2.1.ctx_impex_req.stream_id, q.2.2.1, q.2.2.2)) =
      [(1, HSE_SRV_ID_IMPORT_EXPORT_STREAM_CTX, HSE_EXPORT_STREAMING_CONTEXT, 1,
        List.replicate 372 9, 0)] :=
  ⟨by set_option maxRecDepth 100000 in decide,
   by set_option maxRecDepth 100000 in decide,
   ((C16_exported_context env_exported rctx_streaming true
      { sctx := List.replicate HSE_MAX_CTX_SIZE 9
        cache := memcpy (List.replicate HSE_AHASH_MAX_BLOCK_SIZE 0) 0 rctx_streaming.cache 8
        cache_idx := 8
        streaming_mode := true } rfl).2 rfl
      (by set_option maxRecDepth 100000 in decide)).2⟩

/-- C17 (divergence): a first `hse_ahash_setkey` stores and imports a key that is
shorter than `HSE_KEY_HMAC_MIN_SIZE` or longer than the block size and returns
0. A second `hse_ahash_setkey` with the same key is not recognised as a
repetition: it either fails with `-ENOMEM` or submits descriptors again. The
guard compares the length of the key with the stored length, which is the padded
length or the digest size. -/
theorem C17_same_key_submitted_again (core : hse_core) (env1 env2 : hse_setkey_env)
    (alg : hse_ahash_alg) (tctx : hse_ahash_tfm_ctx) (key : List Nat)
    (hfirst : sync_requests (hse_ahash_setkey core env1 alg tctx key).2.2 ≠ [])
    (hret : (hse_ahash_setkey core env1 alg tctx key).2.1 = 0)
    (hds : alg.digestsize ≤ alg.blocksize)
    (hlen : key.length < HSE_KEY_HMAC_MIN_SIZE ∨ alg.blocksize < key.length) :
    (hse_ahash_setkey core env2 alg (hse_ahash_setkey core env1 alg tctx key).1 key).2.1 =
        -ENOMEM ∨
    sync_requests
      (hse_ahash_setkey core env2 alg (hse_ahash_setkey core env1 alg tctx key).1 key).2.2
        ≠ [] := by
  have hguard : ¬ (key.length = tctx.keylen ∧ key = tctx.keybuf.take key.length) := by
    intro h
    apply hfirst
    simp [hse_ahash_setkey, h.1, h.2.symm, sync_requests]
    rw [← h.1, ← h.2]; simp
  by_cases hgt : alg.blocksize < key.length
  · -- over-long key: the stored length is at most the digest size
    have hk : env1.kmemdup_key = true := by
      by_contra hk
      apply hfirst
      have h : key.length > alg.blocksize := hgt
      unfold hse_ahash_setkey
      simp only [hguard, h, if_false, if_true]
      simp [hk, sync_requests]
    have hm : env1.dma_map_key.error = false := by
      by_contra hm
      apply hfirst
      have h : key.length > alg.blocksize := hgt
      unfold hse_ahash_setkey
      simp only [hguard, h, if_false, if_true]
      simp [hk, hm, sync_requests]
    have hs : env1.sync_hash = 0 := by
      by_contra hs
      apply hs
      have h : key.length > alg.blocksize := hgt
      revert hret
      unfold hse_ahash_setkey
      simp only [hguard, h, if_false, if_true]
      simp [hk, hm, hs]
    have hlen1 : (hse_ahash_setkey core env1 alg tctx key).1.keylen =
        min alg.digestsize env1.key_digest.length := by
      rw [setkey_long core env1 alg tctx key hguard hgt hk hm hs]
      exact (setkey_import_events core env1 _ _).1
    refine setkey_long_error core env2 alg _ key ?_ hgt
    rintro ⟨h1, _⟩
    rw [hlen1] at h1
    have := Nat.min_le_left alg.digestsize env1.key_digest.length
    omega
  · -- short key: the stored length is the padded length
    have hle : key.length ≤ alg.blocksize := Nat.not_lt.mp hgt
    have hshort : key.length < HSE_KEY_HMAC_MIN_SIZE := by
      rcases hlen with h | h
      · exact h
      · exact absurd h hgt
    have hlen1 : (hse_ahash_setkey core env1 alg tctx key).1.keylen =
        max HSE_KEY_HMAC_MIN_SIZE key.length := by
      rw [setkey_short core env1 alg tctx key hguard hle]
      exact (setkey_import_events core env1 _ _).1
    have hguard2 : ¬ (key.length = (hse_ahash_setkey core env1 alg tctx key).1.keylen ∧
        key = (hse_ahash_setkey core env1 alg tctx key).1.keybuf.take key.length) := by
      rintro ⟨h1, _⟩
      rw [hlen1] at h1
      have := Nat.le_max_left HSE_KEY_HMAC_MIN_SIZE key.length
      omega
    right
    rw [setkey_short core env2 alg _ key hguard2 hle,
      (setkey_import_events core env2 _ _).2.2.2.2]
    simp

/-- C17 (divergence) on concrete runs: on the fresh HMAC-SHA-256 instance, an
eight-byte key and a seventy-byte key are each set twice with every call
succeeding. The second call imports the eight-byte key again, and hashes and
imports the seventy-byte key again. -/
theorem C17_same_key_submitted_again_witness :
    ((hse_ahash_setkey core_ex setkey_env_ok hmac_sha256_alg tctx_short_key
        (List.replicate 8 3)).2.1 = -ENOMEM ∨
      sync_requests (hse_ahash_setkey core_ex setkey_env_ok hmac_sha256_alg tctx_short_key
        (List.replicate 8 3)).2.2 ≠ []) ∧
    ((hse_ahash_setkey core_ex setkey_env_ok hmac_sha256_alg tctx_long_key
        (List.replicate 70 3)).2.1 = -ENOMEM ∨
      sync_requests (hse_ahash_setkey core_ex setkey_env_ok hmac_sha256_alg tctx_long_key
        (List.replicate 70 3)).2.2 ≠ []) ∧
    (sync_requests (hse_ahash_setkey core_ex setkey_env_ok hmac_sha256_alg tctx_short_key
        (List.replicate 8 3)).2.2).map (fun q => q.2.1.srv_id) = [HSE_SRV_ID_IMPORT_KEY] ∧
    (sync_requests (hse_ahash_setkey core_ex setkey_env_ok hmac_sha256_alg tctx_long_key
        (List.replicate 70 3)).2.2).map (fun q => q.2.1.srv_id) =
      [HSE_SRV_ID_HASH, HSE_SRV_ID_IMPORT_KEY] :=
  ⟨C17_same_key_submitted_again core_ex setkey_env_ok setkey_env_ok hmac_sha256_alg
      tctx_keyed (List.replicate 8 3)
      (by set_option maxRecDepth 100000 in decide)
      (by set_option maxRecDepth 100000 in decide) (by decide) (Or.inl (by decide)),
   C17_same_key_submitted_again core_ex setkey_env_ok setkey_env_ok hmac_sha256_alg
      tctx_keyed (List.replicate 70 3)
      (by set_option maxRecDepth 100000 in decide)
      (by set_option maxRecDepth 100000 in decide) (by decide) (Or.inr (by decide)),
   by set_option maxRecDepth 100000 in decide,
   by set_option maxRecDepth 100000 in decide⟩

theorem setkey_guard (core : hse_core) (env : hse_setkey_env) (alg : hse_ahash_alg)
    (tctx : hse_ahash_tfm_ctx) (key : List Nat)
    (hg : key.length = tctx.keylen ∧ key = tctx.keybuf.take key.length) :
    hse_ahash_setkey core env alg tctx key = (tctx, 0, []) := by
  unfold hse_ahash_setkey
  dsimp only
  rw [if_pos hg]

/-- The steps of `hse_ahash_setkey` for every key that its guard does not find
already stored (its length differs from the stored length or its bytes from the
stored bytes). If the key is longer than the block size and its copy is allocated and
mapped, the first synchronous request is a ONE_PASS hash descriptor over the
whole key (input length the length of the key, result written to the key
buffer); when that exchange succeeds the stored length is the digest size
(capacity passed) or the length of the digest if that is smaller, and for a
digest of digest size the stored key is that digest. Otherwise the stored key is
the key followed by zero bytes up to `max(HSE_KEY_HMAC_MIN_SIZE, len(key))`. In
both cases exactly one key-import request follows, on `HSE_CHANNEL_ANY`, for the
key slot of the instance, carrying the stored key, with usage flag SIGN, key
type HMAC, `key_bit_len` eight times the stored length and `cipher_key` and
`auth_key` equal to `HSE_INVALID_KEY_HANDLE`; its return value is returned. -/
theorem setkey_imports_key (core : hse_core) (env : hse_setkey_env)
    (alg : hse_ahash_alg) (tctx : hse_ahash_tfm_ctx) (key : List Nat)
    (hv : alg.valid) (hds : alg.digestsize ≤ HSE_AHASH_MAX_DIGEST_SIZE)
    (hguard : ¬ (key.length = tctx.keylen ∧ key = tctx.keybuf.take key.length)) :
    (key.length ≤ alg.blocksize →
      (hse_ahash_setkey core env alg tctx key).1.keylen =
        max HSE_KEY_HMAC_MIN_SIZE key.length ∧
      (hse_ahash_setkey core env alg tctx key).1.keybuf.take
          (max HSE_KEY_HMAC_MIN_SIZE key.length) =
        key ++ List.replicate (max HSE_KEY_HMAC_MIN_SIZE key.length - key.length) 0 ∧
      (hse_ahash_setkey core env alg tctx key).1.keyinf =
        { key_flags := HSE_KF_USAGE_SIGN
          key_bit_len := 8 * max HSE_KEY_HMAC_MIN_SIZE key.length
          key_type := HSE_KEY_TYPE_HMAC } ∧
      (hse_ahash_setkey core env alg tctx key).2.1 = env.sync_import ∧
      sync_requests (hse_ahash_setkey core env alg tctx key).2.2 =
        [(core.HSE_CHANNEL_ANY,
          { hse_srv_desc_zero with
            srv_id := HSE_SRV_ID_IMPORT_KEY
            import_key_req :=
              { key_handle := tctx.key_slot_handle
                key_info := tctx.keyinf_dma
                sym_key := tctx.keybuf_dma
                sym_keylen := max HSE_KEY_HMAC_MIN_SIZE key.length
                cipher_key := HSE_INVALID_KEY_HANDLE
                auth_key := HSE_INVALID_KEY_HANDLE } },
          key ++ List.replicate (max HSE_KEY_HMAC_MIN_SIZE key.length - key.length) 0,
          env.sync_import)]) ∧
    (alg.blocksize < key.length → env.kmemdup_key = true →
      env.dma_map_key.error = false → env.sync_hash = 0 →
      env.key_digest.length = alg.digestsize →
      (hse_ahash_setkey core env alg tctx key).1.keylen = alg.digestsize ∧
      (hse_ahash_setkey core env alg tctx key).1.keybuf.take alg.digestsize =
        env.key_digest ∧
      (hse_ahash_setkey core env alg tctx key).1.keyinf =
        { key_flags := HSE_KF_USAGE_SIGN
          key_bit_len := 8 * alg.digestsize
          key_type := HSE_KEY_TYPE_HMAC } ∧
      (hse_ahash_setkey core env alg tctx key).2.1 = env.sync_import ∧
      sync_requests (hse_ahash_setkey core env alg tctx key).2.2 =
        [(core.HSE_CHANNEL_ANY,
          { hse_srv_desc_zero with
            srv_id := HSE_SRV_ID_HASH
            hash_req :=
              { access_mode := HSE_ACCESS_MODE_ONE_PASS
                stream_id := 0
                hash_algo := alg.alg_type
                sgt_opt := HSE_SGT_OPT_NONE
                input_len := key.length
                input := env.dma_map_key.addr
                hash_len := tctx.keylen_dma
                hash := tctx.keybuf_dma } },
          key, 0),
         (core.HSE_CHANNEL_ANY,
          { hse_srv_desc_zero with
            srv_id := HSE_SRV_ID_IMPORT_KEY
            import_key_req :=
              { key_handle := tctx.key_slot_handle
                key_info := tctx.keyinf_dma
                sym_key := tctx.keybuf_dma
                sym_keylen := alg.digestsize
                cipher_key := HSE_INVALID_KEY_HANDLE
                auth_key := HSE_INVALID_KEY_HANDLE } },
          env.key_digest, env.sync_import)]) ∧
    (alg.blocksize < key.length → env.kmemdup_key = true →
      env.dma_map_key.error = false → env.sync_hash = 0 →
      (hse_ahash_setkey core env alg tctx key).1.keylen =
        min alg.digestsize env.key_digest.length) := by
  have h128 : HSE_AHASH_MAX_BLOCK_SIZE = 128 := rfl
  have h64 : HSE_AHASH_MAX_DIGEST_SIZE = 64 := rfl
  have h16 : HSE_KEY_HMAC_MIN_SIZE = 16 := rfl
  have hbs := hv.2.2
  refine ⟨?_, ?_, ?_⟩
  · intro hle
    have hmax : max HSE_KEY_HMAC_MIN_SIZE key.length ≤ 128 := by
      rw [h16]; exact max_le (by omega) (by omega)
    have hadd : key.length + (max HSE_KEY_HMAC_MIN_SIZE key.length - key.length) =
        max HSE_KEY_HMAC_MIN_SIZE key.length := by
      have := Nat.le_max_right HSE_KEY_HMAC_MIN_SIZE key.length
      omega
    have hst := stored_short_key tctx.keybuf key
      (max HSE_KEY_HMAC_MIN_SIZE key.length - key.length)
    rw [hadd] at hst
    have hmod1 : max HSE_KEY_HMAC_MIN_SIZE key.length % U16_MOD =
        max HSE_KEY_HMAC_MIN_SIZE key.length := by
      apply Nat.mod_eq_of_lt; simp only [U16_MOD]; omega
    have hmod2 : (max HSE_KEY_HMAC_MIN_SIZE key.length * BITS_PER_BYTE) % U16_MOD =
        8 * max HSE_KEY_HMAC_MIN_SIZE key.length := by
      simp only [BITS_PER_BYTE, U16_MOD]; omega
    rw [setkey_short core env alg tctx key hguard hle]
    obtain ⟨e1, e2, e3, e4, e5⟩ := setkey_import_events core env
      { tctx with
        keybuf := memcpy (memcpy tctx.keybuf 0 key key.length) key.length
          (List.replicate (max HSE_KEY_HMAC_MIN_SIZE key.length - key.length) 0)
          (max HSE_KEY_HMAC_MIN_SIZE key.length - key.length)
        keylen := max HSE_KEY_HMAC_MIN_SIZE key.length } []
    refine ⟨e1, ?_, ?_, e4, ?_⟩
    · rw [e2]; exact hst
    · rw [e3]; simp only [hmod2]
    · rw [e5]; simp only [hmod1, hst]; rfl
  · intro hgt hk hm hs hdl
    have hmin : min alg.digestsize env.key_digest.length = alg.digestsize := by
      rw [hdl]; exact Nat.min_self _
    have hmod1 : alg.digestsize % U16_MOD = alg.digestsize := by
      apply Nat.mod_eq_of_lt; simp only [U16_MOD]; omega
    have hmod2 : (alg.digestsize * BITS_PER_BYTE) % U16_MOD = 8 * alg.digestsize := by
      simp only [BITS_PER_BYTE, U16_MOD]; omega
    have htake : (memcpy tctx.keybuf 0 env.key_digest alg.digestsize).take alg.digestsize =
        env.key_digest := by
      simp [memcpy, ← hdl]
    rw [setkey_long core env alg tctx key hguard hgt hk hm hs, hmin]
    obtain ⟨e1, e2, e3, e4, e5⟩ := setkey_import_events core env
      { tctx with
        keybuf := memcpy tctx.keybuf 0 env.key_digest alg.digestsize
        keylen := alg.digestsize
        srv_desc := hse_srv_desc_zero }
      [hse_event.dma_map_single env.dma_map_key.addr key.length,
       hse_event.srv_req_sync core.HSE_CHANNEL_ANY
         (setkey_hash_desc alg tctx key.length env.dma_map_key.addr) key 0,
       hse_event.dma_unmap_single env.dma_map_key.addr key.length]
    refine ⟨e1, ?_, ?_, e4, ?_⟩
    · rw [e2]; exact htake
    · rw [e3]; simp only [hmod2]
    · rw [e5]; simp only [hmod1, htake]
      simp [sync_requests, setkey_hash_desc, hse_srv_desc_zero]
  · intro hgt hk hm hs
    rw [setkey_long core env alg tctx key hguard hgt hk hm hs]
    exact (setkey_import_events core env _ _).1

/-- Instances of `setkey_imports_key` on the fresh HMAC-SHA-256 instance: an
eight-byte key is stored with eight zero bytes of padding and imported with
`key_bit_len = 128`; a seventy-byte key is hashed and the 32-byte digest is
imported with `key_bit_len = 256`. -/
theorem setkey_imports_key_example :
    ((hse_ahash_setkey core_ex setkey_env_ok hmac_sha256_alg tctx_keyed
        (List.replicate 8 3)).1.keybuf.take (max HSE_KEY_HMAC_MIN_SIZE 8) =
      List.replicate 8 3 ++ List.replicate 8 0) ∧
    ((hse_ahash_setkey core_ex setkey_env_ok hmac_sha256_alg tctx_keyed
        (List.replicate 8 3)).1.keyinf = ⟨HSE_KF_USAGE_SIGN, 128, HSE_KEY_TYPE_HMAC⟩) ∧
    ((hse_ahash_setkey core_ex setkey_env_ok hmac_sha256_alg tctx_keyed
        (List.replicate 70 3)).1.keybuf.take 32 = List.replicate 32 5) ∧
    ((hse_ahash_setkey core_ex setkey_env_ok hmac_sha256_alg tctx_keyed
        (List.replicate 70 3)).1.keyinf = ⟨HSE_KF_USAGE_SIGN, 256, HSE_KEY_TYPE_HMAC⟩) :=
  ⟨((setkey_imports_key core_ex setkey_env_ok hmac_sha256_alg tctx_keyed
      (List.replicate 8 3) (by decide) (by decide) (by decide)).1 (by decide)).2.1,
   ((setkey_imports_key core_ex setkey_env_ok hmac_sha256_alg tctx_keyed
      (List.replicate 8 3) (by decide) (by decide) (by decide)).1 (by decide)).2.2.1,
   ((setkey_imports_key core_ex setkey_env_ok hmac_sha256_alg tctx_keyed
      (List.replicate 70 3) (by decide) (by decide) (by decide)).2.1
        (by decide) rfl rfl rfl rfl).2.1,
   ((setkey_imports_key core_ex setkey_env_ok hmac_sha256_alg tctx_keyed
      (List.replicate 70 3) (by decide) (by decide) (by decide)).2.1
        (by decide) rfl rfl rfl rfl).2.2.1⟩

/-- C18 (divergence): the guard at the head of `hse_ahash_setkey` compares the key
with `keylen` and `keybuf`, which do not tell whether a key was imported. (1) On
an instance on which no key was set (`keylen = 0`, as left by
`hse_ahash_cra_init`), the call with the empty key returns 0 without issuing a
descriptor and leaves the transformation context as it was: the stored length
stays 0, no sixteen zero bytes are stored and no key-import descriptor is
issued. (2) When the key import of a key of `HSE_KEY_HMAC_MIN_SIZE` to
block-size bytes fails, the call returns the error with the key already stored,
and the next call with the same key returns 0 without issuing a descriptor:
the key never reaches the key slot. -/
theorem C18_guard_skips_import (core : hse_core) (env env2 : hse_setkey_env)
    (alg : hse_ahash_alg) (tctx : hse_ahash_tfm_ctx) (key : List Nat)
    (hfresh : tctx.keylen = 0)
    (hmin : HSE_KEY_HMAC_MIN_SIZE ≤ key.length) (hle : key.length ≤ alg.blocksize)
    (hfail : env.sync_import ≠ 0) :
    hse_ahash_setkey core env2 alg tctx [] = (tctx, 0, []) ∧
    (hse_ahash_setkey core env alg tctx key).2.1 = env.sync_import ∧
    (hse_ahash_setkey core env alg tctx key).2.1 ≠ 0 ∧
    (sync_requests (hse_ahash_setkey core env alg tctx key).2.2).map
        (fun q => (q.2.1.srv_id, q.2.2.2)) = [(HSE_SRV_ID_IMPORT_KEY, env.sync_import)] ∧
    (hse_ahash_setkey core env alg tctx key).1.keylen = key.length ∧
    (hse_ahash_setkey core env alg tctx key).1.keybuf.take key.length = key ∧
    hse_ahash_setkey core env2 alg (hse_ahash_setkey core env alg tctx key).1 key =
      ((hse_ahash_setkey core env alg tctx key).1, 0, []) := by
  have h16 : HSE_KEY_HMAC_MIN_SIZE = 16 := rfl
  have hguard : ¬ (key.length = tctx.keylen ∧ key = tctx.keybuf.take key.length) := by
    rintro ⟨h, _⟩
    rw [hfresh] at h
    omega
  have hmax : max HSE_KEY_HMAC_MIN_SIZE key.length = key.length := max_eq_right hmin
  have hst := stored_short_key tctx.keybuf key 0
  simp only [Nat.add_zero, List.replicate_zero, List.append_nil] at hst
  obtain ⟨e1, e2, _, e4, e5⟩ := setkey_import_events core env
    { tctx with
      keybuf := memcpy (memcpy tctx.keybuf 0 key key.length) key.length
        (List.replicate (max HSE_KEY_HMAC_MIN_SIZE key.length - key.length) 0)
        (max HSE_KEY_HMAC_MIN_SIZE key.length - key.length)
      keylen := max HSE_KEY_HMAC_MIN_SIZE key.length } []
  have hs := setkey_short core env alg tctx key hguard hle
  have hlen1 : (hse_ahash_setkey core env alg tctx key).1.keylen = key.length := by
    rw [hs, e1]; exact hmax
  have hbuf1 : (hse_ahash_setkey core env alg tctx key).1.keybuf.take key.length = key := by
    rw [hs, e2]
    simp only [hmax, Nat.sub_self, List.replicate_zero]
    exact hst
  have hret : (hse_ahash_setkey core env alg tctx key).2.1 = env.sync_import := by
    rw [hs, e4]
  refine ⟨setkey_guard core env2 alg tctx [] ⟨hfresh.symm, by simp⟩, hret, ?_, ?_, hlen1, hbuf1,
    setkey_guard core env2 alg _ key ⟨hlen1.symm, hbuf1.symm⟩⟩
  · rw [hret]; exact hfail
  · rw [hs, e5]; simp [sync_requests]

/-- C18 (divergence), on concrete runs on the fresh HMAC-SHA-256 instance: the
empty key is accepted without any descriptor and the stored length stays 0; a
twenty-byte key whose import fails with `-EIO` is accepted by the next call
without any descriptor. -/
theorem C18_guard_skips_import_witness :
    hse_ahash_setkey core_ex setkey_env_ok hmac_sha256_alg tctx_keyed [] =
      (tctx_keyed, 0, []) ∧
    tctx_keyed.keylen = 0 ∧
    (hse_ahash_setkey core_ex setkey_env_import_fails hmac_sha256_alg tctx_keyed
      (List.replicate 20 3)).2.1 = -5 ∧
    (hse_ahash_setkey core_ex setkey_env_ok hmac_sha256_alg
      (hse_ahash_setkey core_ex setkey_env_import_fails hmac_sha256_alg tctx_keyed
        (List.replicate 20 3)).1 (List.replicate 20 3)).2 = (0, []) :=
  ⟨(C18_guard_skips_import core_ex setkey_env_import_fails setkey_env_ok hmac_sha256_alg
      tctx_keyed (List.replicate 20 3) rfl (by decide) (by decide) (by decide)).1,
   rfl,
   (C18_guard_skips_import core_ex setkey_env_import_fails setkey_env_ok hmac_sha256_alg
      tctx_keyed (List.replicate 20 3) rfl (by decide) (by decide) (by decide)).2.1,
   by
    rw [(C18_guard_skips_import core_ex setkey_env_import_fails setkey_env_ok hmac_sha256_alg
      tctx_keyed (List.replicate 20 3) rfl (by decide) (by decide) (by decide)).2.2.2.2.2.2]⟩

/-- C20 (divergence): with every call succeeding, (1) `hse_ahash_final` and
`hse_ahash_finup` on a hash request that is not streaming submit a ONE_PASS
descriptor whose `stream_id` is the stream slot of the request, and (2) on a
streaming MAC request `hse_ahash_update` submits an UPDATE descriptor, and
`hse_ahash_final` and `hse_ahash_finup` a FINISH descriptor, whose `key_handle`
is the key slot handle of the instance. The field table of `hse-abi.h` marks
neither field as required in these access modes. -/
theorem C20_fields_outside_table (core : hse_core) (env : hse_env) (alg : hse_ahash_alg)
    (tctx : hse_ahash_tfm_ctx) (rctx : hse_ahash_req_ctx) (data : List Nat)
    (henv : env.ok) :
    (alg.srv_id = HSE_SRV_ID_HASH → rctx.streaming_mode = false →
      (submitted_descs (hse_ahash_final core env alg tctx rctx).2.2).map
          (fun d => (d.srv_id, d.hash_req.access_mode, d.hash_req.stream_id)) =
        [(HSE_SRV_ID_HASH, HSE_ACCESS_MODE_ONE_PASS, rctx.stream)] ∧
      (submitted_descs (hse_ahash_finup core env alg tctx rctx data).2.2).map
          (fun d => (d.srv_id, d.hash_req.access_mode, d.hash_req.stream_id)) =
        [(HSE_SRV_ID_HASH, HSE_ACCESS_MODE_ONE_PASS, rctx.stream)]) ∧
    (alg.srv_id = HSE_SRV_ID_MAC → rctx.streaming_mode = true →
      (submitted_descs (hse_ahash_final core env alg tctx rctx).2.2).map
          (fun d => (d.srv_id, d.mac_req.access_mode, d.mac_req.key_handle)) =
        [(HSE_SRV_ID_MAC, HSE_ACCESS_MODE_FINISH, tctx.key_slot_handle)] ∧
      (submitted_descs (hse_ahash_finup core env alg tctx rctx data).2.2).map
          (fun d => (d.srv_id, d.mac_req.access_mode, d.mac_req.key_handle)) =
        [(HSE_SRV_ID_MAC, HSE_ACCESS_MODE_FINISH, tctx.key_slot_handle)] ∧
      (data.length ≠ 0 → alg.blocksize < (rctx.cache_idx + data.length) % U32_MOD →
        (submitted_descs (hse_ahash_update env alg tctx rctx data).2.2).map
            (fun d => (d.srv_id, d.mac_req.access_mode, d.mac_req.key_handle)) =
          [(HSE_SRV_ID_MAC, HSE_ACCESS_MODE_UPDATE, tctx.key_slot_handle)])) := by
  obtain ⟨hk, _, hr, ho, hm, _, _, ha, _⟩ := henv
  obtain ⟨p, hp⟩ := Option.isSome_iff_exists.mp hk
  have hne : ¬ (HSE_SRV_ID_MAC = HSE_SRV_ID_HASH) := by decide
  refine ⟨?_, ?_⟩
  · intro hq hs
    refine ⟨?_, ?_⟩
    · by_cases hb : rctx.buflen = 0 <;> by_cases hc : rctx.cache_idx = 0 <;>
        simp [hse_ahash_final, final_submit, finish_desc, submitted_descs,
          List.filterMap_append, hp, hr, ho, hm, ha, hq, hs, hb, hc]
    · by_cases hb : rctx.buflen < (rctx.cache_idx + data.length) % U32_MOD <;>
        by_cases hb0 : rctx.buflen = 0 <;>
        simp [hse_ahash_finup, finup_submit, finish_desc, submitted_descs,
          List.filterMap_append, hp, hr, ho, hm, ha, hq, hs, hb, hb0]
  · intro hq hs
    refine ⟨?_, ?_, ?_⟩
    · by_cases hb : rctx.buflen = 0 <;> by_cases hc : rctx.cache_idx = 0 <;>
        simp [hse_ahash_final, final_submit, finish_desc, submitted_descs,
          List.filterMap_append, hp, hr, ho, hm, ha, hq, hs, hb, hc, hne]
    · by_cases hb : rctx.buflen < (rctx.cache_idx + data.length) % U32_MOD <;>
        by_cases hb0 : rctx.buflen = 0 <;>
        simp [hse_ahash_finup, finup_submit, finish_desc, submitted_descs,
          List.filterMap_append, hp, hr, ho, hm, ha, hq, hs, hb, hb0, hne]
    · intro hn hgt
      have hgt' : ¬ (rctx.cache_idx + data.length) % U32_MOD ≤ alg.blocksize :=
        Nat.not_le.mpr hgt
      by_cases hb0 : rctx.buflen = 0
      · by_cases hb : 0 < rounddown ((rctx.cache_idx + data.length) % U32_MOD) alg.blocksize <;>
          simp [hse_ahash_update, update_submit, update_desc, submitted_descs,
            List.filterMap_append, hp, hm, ha, hq, hs, hb, hb0, hne, hn, hgt']
      · by_cases hb : rctx.buflen <
            rounddown ((rctx.cache_idx + data.length) % U32_MOD) alg.blocksize <;>
          simp [hse_ahash_update, update_submit, update_desc, submitted_descs,
            List.filterMap_append, hp, hm, ha, hq, hs, hb, hb0, hne, hn, hgt']

/-- C20 (divergence) on concrete runs: a SHA-256 request holding stream slot 1
with ten cached bytes is finished with a ONE_PASS descriptor whose `stream_id`
is 1; a streaming HMAC-SHA-256 request of an instance with key slot handle
`0x20100` submits UPDATE and FINISH descriptors whose `key_handle` is
`0x20100`. -/
theorem C20_fields_outside_table_witness :
    (submitted_descs (hse_ahash_final core_ex env_ok sha256_alg tctx_zero rctx_cached).2.2).map
        (fun d => (d.srv_id, d.hash_req.access_mode, d.hash_req.stream_id)) =
      [(HSE_SRV_ID_HASH, HSE_ACCESS_MODE_ONE_PASS, 1)] ∧
    (submitted_descs (hse_ahash_update env_ok hmac_sha256_alg tctx_keyed rctx_streaming
        (List.replicate 70 1)).2.2).map
        (fun d => (d.srv_id, d.mac_req.access_mode, d.mac_req.key_handle)) =
      [(HSE_SRV_ID_MAC, HSE_ACCESS_MODE_UPDATE, 0x20100)] ∧
    (submitted_descs (hse_ahash_final core_ex env_ok hmac_sha256_alg tctx_keyed
        rctx_streaming).2.2).map
        (fun d => (d.srv_id, d.mac_req.access_mode, d.mac_req.key_handle)) =
      [(HSE_SRV_ID_MAC, HSE_ACCESS_MODE_FINISH, 0x20100)] :=
  ⟨((C20_fields_outside_table core_ex env_ok sha256_alg tctx_zero rctx_cached []
      env_ok_ok).1 rfl rfl).1,
   ((C20_fields_outside_table core_ex env_ok hmac_sha256_alg tctx_keyed rctx_streaming
      (List.replicate 70 1) env_ok_ok).2 rfl rfl).2.2 (by decide) (by decide),
   ((C20_fields_outside_table core_ex env_ok hmac_sha256_alg tctx_keyed rctx_streaming
      (List.replicate 70 1) env_ok_ok).2 rfl rfl).1⟩

/-- C21: with the packed layout of `hse-abi.h`, `struct hse_srv_desc` is exactly
`HSE_SRV_DESC_MAX_SIZE` = 256 bytes: `srv_id` (4 bytes) at offset 0, 4 reserved
bytes, the union at offset 8, every member of the union at most 248 bytes. The
hash payload is 32 bytes with `access_mode` at 0, `stream_id` at 1, `hash_algo`
at 2, `sgt_opt` at 3, `input_len` at 4 (4 bytes), `input` at 8, `hash_len` at 16
and `hash` at 24 (8 bytes each). The MAC payload starts with four one-byte
members as well (`access_mode`, `stream_id`, `auth_dir`, `sgt_opt`), followed by
the 16-byte `scheme`, the 4-byte `key_handle`, the 4-byte `input_len` and three
8-byte addresses. -/
theorem C21_descriptor_layout :
    HSE_SRV_DESC_MAX_SIZE = 256 ∧
    packed_size hse_srv_desc_layout = HSE_SRV_DESC_MAX_SIZE ∧
    hse_srv_desc_layout = [("srv_id", 4), ("reserved", 4), ("payload", 248)] ∧
    packed_offset hse_srv_desc_layout "srv_id" = some 0 ∧
    packed_offset hse_srv_desc_layout "payload" = some 8 ∧
    (∀ m ∈ hse_srv_desc_payload, m.2 ≤ 248) ∧
    packed_size hse_hash_srv_layout = 32 ∧
    hse_hash_srv_layout.map (fun f => (f.1, packed_offset hse_hash_srv_layout f.1, f.2)) =
      [("access_mode", some 0, 1), ("stream_id", some 1, 1), ("hash_algo", some 2, 1),
       ("sgt_opt", some 3, 1), ("input_len", some 4, 4), ("input", some 8, 8),
       ("hash_len", some 16, 8), ("hash", some 24, 8)] ∧
    hse_mac_srv_layout.map (fun f => (f.1, packed_offset hse_mac_srv_layout f.1, f.2)) =
      [("access_mode", some 0, 1), ("stream_id", some 1, 1), ("auth_dir", some 2, 1),
       ("sgt_opt", some 3, 1), ("scheme", some 4, 16), ("key_handle", some 20, 4),
       ("input_len", some 24, 4), ("input", some 28, 8), ("tag_len", some 36, 8),
       ("tag", some 44, 8)] := by
  refine ⟨rfl, ?_, ?_, ?_, ?_, ?_, ?_, ?_, ?_⟩ <;> decide

theorem terminal_mac_empty_input (core : hse_core) (env : hse_env) (alg : hse_ahash_alg)
    (tctx : hse_ahash_tfm_ctx) (rctx : hse_ahash_req_ctx)
    (hq : alg.srv_id = HSE_SRV_ID_MAC) (hs : rctx.streaming_mode = true)
    (hc : rctx.cache_idx = 0) (henv : env.ok) :
    (submitted_descs (hse_ahash_final core env alg tctx rctx).2.2).map
        (fun d => (d.srv_id, d.mac_req.access_mode, d.mac_req.input_len)) =
      [(HSE_SRV_ID_MAC, HSE_ACCESS_MODE_FINISH, 0)] ∧
    (submitted_descs (hse_ahash_finup core env alg tctx rctx []).2.2).map
        (fun d => (d.srv_id, d.mac_req.access_mode, d.mac_req.input_len)) =
      [(HSE_SRV_ID_MAC, HSE_ACCESS_MODE_FINISH, 0)] := by
  obtain ⟨hk, _, hr, ho, hm, _, _, ha, _⟩ := henv
  obtain ⟨p, hp⟩ := Option.isSome_iff_exists.mp hk
  have hne : ¬ (HSE_SRV_ID_MAC = HSE_SRV_ID_HASH) := by decide
  have hu : (0 : Nat) % U32_MOD = 0 := rfl
  refine ⟨?_, ?_⟩
  · by_cases hb : rctx.buflen = 0 <;>
      simp [hse_ahash_final, final_submit, finish_desc, submitted_descs,
        List.filterMap_append, hp, hr, ho, hm, ha, hq, hs, hb, hc, hne]
  · by_cases hb : rctx.buflen = 0 <;>
      simp [hse_ahash_finup, finup_submit, finish_desc, submitted_descs,
        List.filterMap_append, hp, hr, ho, hm, ha, hq, hs, hb, hc, hne, hu]

/-- C22 (divergence): on a MAC request, an `hse_ahash_update` whose pending bytes
(cache fill plus new data) are a whole number of blocks, more than one block,
submits all of them and leaves the cache empty. After its successful completion
the request is streaming, and `hse_ahash_final` (likewise `hse_ahash_finup`
without data) submits a FINISH descriptor whose input length is 0. -/
theorem C22_mac_finish_with_empty_input (core : hse_core) (env env_final : hse_env)
    (alg : hse_ahash_alg) (tctx : hse_ahash_tfm_ctx) (rctx : hse_ahash_req_ctx)
    (data : List Nat)
    (hv : alg.valid) (hq : alg.srv_id = HSE_SRV_ID_MAC)
    (henv : env.ok) (hfinal : env_final.ok)
    (hlen : rctx.cache.length = HSE_AHASH_MAX_BLOCK_SIZE)
    (hci : rctx.cache_idx ≤ alg.blocksize)
    (hgt : alg.blocksize < rctx.cache_idx + data.length)
    (hmul : (rctx.cache_idx + data.length) % alg.blocksize = 0)
    (hlt : rctx.cache_idx + data.length < U32_MOD) :
    (hse_ahash_update env alg tctx rctx data).2.1 = -EINPROGRESS ∧
    (hse_ahash_done alg 0 (hse_ahash_update env alg tctx rctx data).1).1.streaming_mode =
      true ∧
    (hse_ahash_done alg 0 (hse_ahash_update env alg tctx rctx data).1).1.cache_idx = 0 ∧
    (submitted_descs (hse_ahash_final core env_final alg tctx
        (hse_ahash_done alg 0 (hse_ahash_update env alg tctx rctx data).1).1).2.2).map
        (fun d => (d.srv_id, d.mac_req.access_mode, d.mac_req.input_len)) =
      [(HSE_SRV_ID_MAC, HSE_ACCESS_MODE_FINISH, 0)] ∧
    (submitted_descs (hse_ahash_finup core env_final alg tctx
        (hse_ahash_done alg 0 (hse_ahash_update env alg tctx rctx data).1).1 []).2.2).map
        (fun d => (d.srv_id, d.mac_req.access_mode, d.mac_req.input_len)) =
      [(HSE_SRV_ID_MAC, HSE_ACCESS_MODE_FINISH, 0)] := by
  have hf := update_flush_ok env alg tctx rctx data hv henv hlen hci hgt hlt
  have hfull : rounddown (rctx.cache_idx + data.length) alg.blocksize =
      rctx.cache_idx + data.length := by
    unfold rounddown; rw [hmul]; rfl
  have hci0 : (hse_ahash_update env alg tctx rctx data).1.cache_idx = 0 := by
    rw [hf.cache_idx, hfull]; exact Nat.sub_self _
  have h21 : ¬ (HSE_ACCESS_MODE_UPDATE = HSE_ACCESS_MODE_START) := by decide
  have h23 : ¬ (HSE_ACCESS_MODE_UPDATE = HSE_ACCESS_MODE_FINISH) := by decide
  have h20 : ¬ (HSE_ACCESS_MODE_UPDATE = HSE_ACCESS_MODE_ONE_PASS) := by decide
  have hmode := hf.mode
  have hstr := hf.streaming
  have hdone : (hse_ahash_done alg 0 (hse_ahash_update env alg tctx rctx data).1).1.streaming_mode
        = true ∧
      (hse_ahash_done alg 0 (hse_ahash_update env alg tctx rctx data).1).1.cache_idx = 0 := by
    by_cases hs : rctx.streaming_mode = true
    · simp only [hs, if_true] at hmode
      rw [hs] at hstr
      simp [hse_ahash_done, hmode, h21, h23, h20, hstr, hci0]
    · simp only [hs] at hmode
      simp [hse_ahash_done, hmode, hci0]
  obtain ⟨t1, t2⟩ := terminal_mac_empty_input core env_final alg tctx
    (hse_ahash_done alg 0 (hse_ahash_update env alg tctx rctx data).1).1 hq hdone.1 hdone.2
    hfinal
  exact ⟨hf.ret, hdone.1, hdone.2, t1, t2⟩

/-- C22 (divergence) on a concrete run: HMAC-SHA-256, `hse_ahash_init`, one
`hse_ahash_update` with 128 bytes (two blocks) and its completion, then
`hse_ahash_final`: the FINISH descriptor has input length 0. -/
theorem C22_mac_finish_with_empty_input_witness :
    (submitted_descs (hse_ahash_final core_ex env_ok hmac_sha256_alg tctx_keyed
        (hse_ahash_done hmac_sha256_alg 0
          (hse_ahash_update env_ok hmac_sha256_alg tctx_keyed
            (hse_ahash_init core_ex env_ok rctx_zero).1 (List.replicate 128 1)).1).1).2.2).map
        (fun d => (d.srv_id, d.mac_req.access_mode, d.mac_req.input_len)) =
      [(HSE_SRV_ID_MAC, HSE_ACCESS_MODE_FINISH, 0)] :=
  (C22_mac_finish_with_empty_input core_ex env_ok env_ok hmac_sha256_alg tctx_keyed
    (hse_ahash_init core_ex env_ok rctx_zero).1 (List.replicate 128 1)
    (by decide) rfl env_ok_ok env_ok_ok rfl (by decide)
    (by set_option maxRecDepth 100000 in decide)
    (by set_option maxRecDepth 100000 in decide)
    (by set_option maxRecDepth 100000 in decide)).2.2.2.1

theorem final_inputs (core : hse_core) (env : hse_env) (alg : hse_ahash_alg)
    (tctx : hse_ahash_tfm_ctx) (rctx : hse_ahash_req_ctx)
    (hv : alg.valid) (henv : env.ok) (hci : rctx.cache_idx ≤ rctx.cache.length) :
    submitted_inputs (hse_ahash_final core env alg tctx rctx).2.2 = [rctx.pending] := by
  obtain ⟨pre, hf, hq, _, _, _, hin⟩ := final_ok core env alg tctx rctx hv henv
  have hpre := submitted_inputs_of_lens alg pre hq.2.2.1
  rw [hf.trace, submitted_inputs_append, submitted_inputs_append, hpre, hin hci]
  by_cases hs : rctx.streaming_mode = true <;> simp [submitted_inputs, hs]

/-- C23: when `hse_ahash_update` flushes (cache fill at most one block, pending
bytes `cache_idx + nbytes` more than one block and representable in an
`unsigned int`, every call succeeding), with `full` the pending bytes rounded
down to whole blocks: the call submits the first `full` bytes of the linear
buffer, those bytes followed by the new cache contents are the old cache
contents followed by the data, and the new cache fill is `pending - full`, less
than the block size. Over `init; update*; final` with every call and completion
succeeding, the bytes submitted with all descriptors, concatenated in order, are
the concatenation of the inputs. -/
theorem C23_update_conserves_bytes (H : List Nat → List Nat) (core : hse_core)
    (alg : hse_ahash_alg) (tctx : hse_ahash_tfm_ctx) (fw : hse_fw)
    (rctx : hse_ahash_req_ctx) (env_init env_final : hse_env)
    (steps : List (hse_env × List Nat))
    (hv : alg.valid) (hH : ∀ m, (H m).length = alg.digestsize)
    (hcache : rctx.cache.length = HSE_AHASH_MAX_BLOCK_SIZE)
    (hinit : env_init.ok) (hfinal : env_final.ok) (hsteps : steps_ok steps) :
    (∀ (env : hse_env) (r : hse_ahash_req_ctx) (data : List Nat),
      env.ok → r.cache.length = HSE_AHASH_MAX_BLOCK_SIZE → r.cache_idx ≤ alg.blocksize →
      alg.blocksize < r.cache_idx + data.length → r.cache_idx + data.length < U32_MOD →
      (hse_ahash_update env alg tctx r data).2.1 = -EINPROGRESS ∧
      submitted_inputs (hse_ahash_update env alg tctx r data).2.2 =
        [(hse_ahash_update env alg tctx r data).1.buf_mem.take
          (rounddown (r.cache_idx + data.length) alg.blocksize)] ∧
      (hse_ahash_update env alg tctx r data).1.buf_mem.take
          (rounddown (r.cache_idx + data.length) alg.blocksize) ++
        (hse_ahash_update env alg tctx r data).1.pending = r.pending ++ data ∧
      (hse_ahash_update env alg tctx r data).1.cache_idx =
        r.cache_idx + data.length - rounddown (r.cache_idx + data.length) alg.blocksize ∧
      (hse_ahash_update env alg tctx r data).1.cache_idx < alg.blocksize) ∧
    ∃ s d s1, run_before_final H core alg tctx fw rctx env_init steps = some s ∧
      run_stream H core alg tctx fw rctx env_init steps env_final = some (d, s1) ∧
      (submitted_inputs s.trace).flatten ++ s.rctx.pending = steps_input steps ∧
      (submitted_inputs s1.trace).flatten = steps_input steps := by
  have h128 : HSE_AHASH_MAX_BLOCK_SIZE = 128 := rfl
  refine ⟨?_, ?_⟩
  · intro env r data henv hlen hci hgt hlt
    have hn : data.length ≠ 0 := by omega
    have hf := update_flush_ok env alg tctx r data hv henv hlen hci hgt hlt
    have hin := update_flush_inputs env alg tctx r data henv hn hgt hlt
    have hmod := rounddown_add_mod (r.cache_idx + data.length) alg.blocksize
    have hlt2 := Nat.mod_lt (r.cache_idx + data.length) hv.2.1
    refine ⟨hf.ret, hin, ?_, hf.cache_idx, ?_⟩
    · rw [hf.input, hf.pending, List.append_assoc, List.take_append_drop]
    · rw [hf.cache_idx]; omega
  · obtain ⟨s0, h0, _, i2, i3, _, _, _, _, i8⟩ := run_init_ok core env_init fw rctx hinit
    have hlen0 : s0.rctx.cache.length = HSE_AHASH_MAX_BLOCK_SIZE := by rw [i2]; exact hcache
    have hci0 : s0.rctx.cache_idx ≤ alg.blocksize := by rw [i3]; exact Nat.zero_le _
    obtain ⟨s, ls, hrun, hfacts⟩ := run_updates_ok H alg tctx s0 hv hlen0 hci0 steps hsteps
    have hb := run_updates_bytes H alg tctx hv steps s0 s hlen0 hci0 hsteps hrun
    have hp0 : s0.rctx.pending = [] := by simp [hse_ahash_req_ctx.pending, i3]
    have ht0 : submitted_inputs s0.trace = [] := by rw [i8]; rfl
    rw [hp0, ht0] at hb
    simp only [List.flatten_nil, List.nil_append] at hb
    have hbf : run_before_final H core alg tctx fw rctx env_init steps = some s := by
      simp only [run_before_final, h0, Option.some_bind, hrun]
    have hci : s.rctx.cache_idx ≤ s.rctx.cache.length := by
      have := hfacts.cache_len
      have := hfacts.cache_idx_le
      have := hv.2.2
      omega
    obtain ⟨pre, hf, _, hout, _, _, hin⟩ := final_ok core env_final alg tctx s.rctx hv hfinal
    have hc := complete_finished H core alg s _ pre _ _ hH hf hout (hin hci)
    obtain ⟨s1, hfin, htr, _⟩ := run_final_ok H core env_final alg tctx s hv hfinal hH hci
    refine ⟨s, H (absorbed s ++ s.rctx.pending), s1, hbf, ?_, hb, ?_⟩
    · rw [run_stream_eq, hbf, Option.some_bind, hfin]
    · rw [htr, submitted_inputs_append, submitted_inputs_append,
        final_inputs core env_final alg tctx s.rctx hv hfinal hci,
        submitted_inputs_of_lens alg _ hc.2.2.2.2.1]
      simp only [List.append_nil, List.flatten_append, List.flatten_cons, List.flatten_nil]
      exact hb

/-- C23, instance: SHA-256, updates of 70, 70 and 60 bytes. -/
theorem C23_update_conserves_bytes_witness :
    (∀ (env : hse_env) (r : hse_ahash_req_ctx) (data : List Nat),
      env.ok → r.cache.length = HSE_AHASH_MAX_BLOCK_SIZE →
      r.cache_idx ≤ sha256_alg.blocksize →
      sha256_alg.blocksize < r.cache_idx + data.length →
      r.cache_idx + data.length < U32_MOD →
      (hse_ahash_update env sha256_alg tctx_zero r data).2.1 = -EINPROGRESS ∧
      submitted_inputs (hse_ahash_update env sha256_alg tctx_zero r data).2.2 =
        [(hse_ahash_update env sha256_alg tctx_zero r data).1.buf_mem.take
          (rounddown (r.cache_idx + data.length) sha256_alg.blocksize)] ∧
      (hse_ahash_update env sha256_alg tctx_zero r data).1.buf_mem.take
          (rounddown (r.cache_idx + data.length) sha256_alg.blocksize) ++
        (hse_ahash_update env sha256_alg tctx_zero r data).1.pending = r.pending ++ data ∧
      (hse_ahash_update env sha256_alg tctx_zero r data).1.cache_idx =
        r.cache_idx + data.length -
          rounddown (r.cache_idx + data.length) sha256_alg.blocksize ∧
      (hse_ahash_update env sha256_alg tctx_zero r data).1.cache_idx <
        sha256_alg.blocksize) ∧
    ∃ s d s1, run_before_final toy_hash core_ex sha256_alg tctx_zero fw_zero rctx_zero env_ok
        [(env_ok, List.replicate 70 1), (env_ok, List.replicate 70 2),
          (env_ok, List.replicate 60 3)] = some s ∧
      run_stream toy_hash core_ex sha256_alg tctx_zero fw_zero rctx_zero env_ok
        [(env_ok, List.replicate 70 1), (env_ok, List.replicate 70 2),
          (env_ok, List.replicate 60 3)] env_ok = some (d, s1) ∧
      (submitted_inputs s.trace).flatten ++ s.rctx.pending =
        steps_input [(env_ok, List.replicate 70 1), (env_ok, List.replicate 70 2),
          (env_ok, List.replicate 60 3)] ∧
      (submitted_inputs s1.trace).flatten =
        steps_input [(env_ok, List.replicate 70 1), (env_ok, List.replicate 70 2),
          (env_ok, List.replicate 60 3)] :=
  C23_update_conserves_bytes toy_hash core_ex sha256_alg tctx_zero fw_zero rctx_zero
    env_ok env_ok
    [(env_ok, List.replicate 70 1), (env_ok, List.replicate 70 2),
      (env_ok, List.replicate 60 3)]
    sha256_valid toy_hash_length rfl env_ok_ok env_ok_ok
    (by simp [steps_ok, env_ok_ok, U32_MOD, HSE_AHASH_MAX_BLOCK_SIZE])

/-- C24 (counterexample to the claim as stated): SHA-256, `hse_ahash_init` and one
`hse_ahash_update` of 70 bytes, every call succeeding. The update submits a START
descriptor and returns `-EINPROGRESS`, and the streaming flag of the request is
still false when the call returns: the flag is set by `hse_ahash_done` when the
START descriptor completes successfully. When that completion fails instead,
the flag stays false and the next `hse_ahash_update`, although not the first
submission of the request, submits a START descriptor again. -/
theorem C24_counterexample :
    (hse_ahash_update env_ok sha256_alg tctx_zero
      (hse_ahash_init core_ex env_ok rctx_zero).1 (List.replicate 70 1)).2.1 = -EINPROGRESS ∧
    submitted_modes sha256_alg (hse_ahash_update env_ok sha256_alg tctx_zero
      (hse_ahash_init core_ex env_ok rctx_zero).1 (List.replicate 70 1)).2.2 =
        [HSE_ACCESS_MODE_START] ∧
    (hse_ahash_update env_ok sha256_alg tctx_zero
      (hse_ahash_init core_ex env_ok rctx_zero).1 (List.replicate 70 1)).1.streaming_mode =
        false ∧
    (hse_ahash_done sha256_alg 0 (hse_ahash_update env_ok sha256_alg tctx_zero
      (hse_ahash_init core_ex env_ok rctx_zero).1 (List.replicate 70 1)).1).1.streaming_mode =
        true ∧
    (hse_ahash_done sha256_alg (-5) (hse_ahash_update env_ok sha256_alg tctx_zero
      (hse_ahash_init core_ex env_ok rctx_zero).1 (List.replicate 70 1)).1).1.streaming_mode =
        false ∧
    submitted_modes sha256_alg (hse_ahash_update env_ok sha256_alg tctx_zero
      (hse_ahash_done sha256_alg (-5) (hse_ahash_update env_ok sha256_alg tctx_zero
        (hse_ahash_init core_ex env_ok rctx_zero).1 (List.replicate 70 1)).1).1
      (List.replicate 70 2)).2.2 = [HSE_ACCESS_MODE_START] := by
  refine ⟨?_, ?_, ?_, ?_, ?_, ?_⟩ <;> set_option maxRecDepth 100000 in decide

/-- C24 (amended): an `hse_ahash_update` call leaves the streaming flag of the
request as it found it, and the descriptor it passes to `hse_srv_req_async`, if
any, has access mode START when the flag is false and UPDATE when it is true.
The flag is set by the completion callback: `hse_ahash_done(0, req)` on a START
descriptor sets it, so that after an update that submitted its descriptor and
its successful completion the flag is true, and a completion with an error code
leaves it as it was. Over `init; update*` with successful completions, either no
descriptor was submitted and the request is not streaming, or the first
descriptor submitted is START, every later one is UPDATE and the request is
streaming. -/
theorem C24_update_access_modes (H : List Nat → List Nat) (core : hse_core)
    (alg : hse_ahash_alg) (tctx : hse_ahash_tfm_ctx) (fw : hse_fw)
    (rctx : hse_ahash_req_ctx) (env_init : hse_env) (steps : List (hse_env × List Nat))
    (hv : alg.valid) (hcache : rctx.cache.length = HSE_AHASH_MAX_BLOCK_SIZE)
    (hinit : env_init.ok) (hsteps : steps_ok steps) :
    (∀ (env : hse_env) (r : hse_ahash_req_ctx) (data : List Nat),
      (hse_ahash_update env alg tctx r data).1.streaming_mode = r.streaming_mode ∧
      (submitted_modes alg (hse_ahash_update env alg tctx r data).2.2 = [] ∨
        submitted_modes alg (hse_ahash_update env alg tctx r data).2.2 =
          [if r.streaming_mode then HSE_ACCESS_MODE_UPDATE else HSE_ACCESS_MODE_START]) ∧
      (env.srv_req_async = 0 →
        (hse_ahash_update env alg tctx r data).2.1 = -EINPROGRESS →
        submitted_modes alg (hse_ahash_update env alg tctx r data).2.2 =
          [if r.streaming_mode then HSE_ACCESS_MODE_UPDATE else HSE_ACCESS_MODE_START] ∧
        desc_access_mode alg (hse_ahash_update env alg tctx r data).1.srv_desc =
          (if r.streaming_mode then HSE_ACCESS_MODE_UPDATE else HSE_ACCESS_MODE_START) ∧
        (hse_ahash_done alg 0 (hse_ahash_update env alg tctx r data).1).1.streaming_mode =
          true)) ∧
    (∀ (r : hse_ahash_req_ctx) (err : Int),
      (desc_access_mode alg r.srv_desc = HSE_ACCESS_MODE_START →
        (hse_ahash_done alg 0 r).1.streaming_mode = true) ∧
      (desc_access_mode alg r.srv_desc ≠ HSE_ACCESS_MODE_START →
        (hse_ahash_done alg 0 r).1.streaming_mode = r.streaming_mode) ∧
      (err ≠ 0 → (hse_ahash_done alg err r).1.streaming_mode = r.streaming_mode)) ∧
    ∃ s, run_before_final H core alg tctx fw rctx env_init steps = some s ∧
      ((submitted_modes alg s.trace = [] ∧ s.rctx.streaming_mode = false) ∨
        (∃ n, submitted_modes alg s.trace =
            HSE_ACCESS_MODE_START :: List.replicate n HSE_ACCESS_MODE_UPDATE ∧
          s.rctx.streaming_mode = true)) := by
  refine ⟨?_, ?_, ?_⟩
  · intro env r data
    obtain ⟨u1, _, _, u4, _⟩ := update_call env alg tctx r data hv
    refine ⟨u1, u4, ?_⟩
    intro hasync hret
    obtain ⟨_, _, _, hstr, hmode, hmodes, _⟩ := update_pending env alg tctx r data hv hasync hret
    refine ⟨hmodes, hmode, ?_⟩
    have h21 : ¬ (HSE_ACCESS_MODE_UPDATE = HSE_ACCESS_MODE_START) := by decide
    have h23 : ¬ (HSE_ACCESS_MODE_UPDATE = HSE_ACCESS_MODE_FINISH) := by decide
    have h20 : ¬ (HSE_ACCESS_MODE_UPDATE = HSE_ACCESS_MODE_ONE_PASS) := by decide
    by_cases hs : r.streaming_mode = true
    · simp only [hs, if_true] at hmode
      rw [hs] at hstr
      simp [hse_ahash_done, hmode, h21, h23, h20, hstr]
    · simp only [hs] at hmode
      simp [hse_ahash_done, hmode]
  · intro r err
    refine ⟨?_, ?_, ?_⟩
    · intro hm
      simp [hse_ahash_done, hm]
    · intro hm
      by_cases hf : desc_access_mode alg r.srv_desc = HSE_ACCESS_MODE_FINISH ∨
          desc_access_mode alg r.srv_desc = HSE_ACCESS_MODE_ONE_PASS
      · simp [hse_ahash_done, hm, hf]
      · simp [hse_ahash_done, hm, hf]
    · intro he
      simp [hse_ahash_done, he]
  · obtain ⟨s, ls, hrun, _, _, _, _, c5, _, _, _, _, _, c11, _⟩ :=
      run_before_final_ok H core alg tctx fw rctx env_init steps hv hcache hinit hsteps
    refine ⟨s, hrun, ?_⟩
    cases ls with
    | nil => left; exact ⟨by rw [c11]; rfl, by rw [c5]; rfl⟩
    | cons l rest => right; exact ⟨rest.length, by rw [c11]; rfl, by rw [c5]; rfl⟩

/-- C24 (amended), instance: SHA-256, updates of 70, 70 and 60 bytes. -/
theorem C24_update_access_modes_witness :
    (∀ (env : hse_env) (r : hse_ahash_req_ctx) (data : List Nat),
      (hse_ahash_update env sha256_alg tctx_zero r data).1.streaming_mode =
        r.streaming_mode ∧
      (submitted_modes sha256_alg (hse_ahash_update env sha256_alg tctx_zero r data).2.2 =
          [] ∨
        submitted_modes sha256_alg (hse_ahash_update env sha256_alg tctx_zero r data).2.2 =
          [if r.streaming_mode then HSE_ACCESS_MODE_UPDATE else HSE_ACCESS_MODE_START]) ∧
      (env.srv_req_async = 0 →
        (hse_ahash_update env sha256_alg tctx_zero r data).2.1 = -EINPROGRESS →
        submitted_modes sha256_alg (hse_ahash_update env sha256_alg tctx_zero r data).2.2 =
          [if r.streaming_mode then HSE_ACCESS_MODE_UPDATE else HSE_ACCESS_MODE_START] ∧
        desc_access_mode sha256_alg
            (hse_ahash_update env sha256_alg tctx_zero r data).1.srv_desc =
          (if r.streaming_mode then HSE_ACCESS_MODE_UPDATE else HSE_ACCESS_MODE_START) ∧
        (hse_ahash_done sha256_alg 0
          (hse_ahash_update env sha256_alg tctx_zero r data).1).1.streaming_mode = true)) ∧
    (∀ (r : hse_ahash_req_ctx) (err : Int),
      (desc_access_mode sha256_alg r.srv_desc = HSE_ACCESS_MODE_START →
        (hse_ahash_done sha256_alg 0 r).1.streaming_mode = true) ∧
      (desc_access_mode sha256_alg r.srv_desc ≠ HSE_ACCESS_MODE_START →
        (hse_ahash_done sha256_alg 0 r).1.streaming_mode = r.streaming_mode) ∧
      (err ≠ 0 → (hse_ahash_done sha256_alg err r).1.streaming_mode = r.streaming_mode)) ∧
    ∃ s, run_before_final toy_hash core_ex sha256_alg tctx_zero fw_zero rctx_zero env_ok
        [(env_ok, List.replicate 70 1), (env_ok, List.replicate 70 2),
          (env_ok, List.replicate 60 3)] = some s ∧
      ((submitted_modes sha256_alg s.trace = [] ∧ s.rctx.streaming_mode = false) ∨
        (∃ n, submitted_modes sha256_alg s.trace =
            HSE_ACCESS_MODE_START :: List.replicate n HSE_ACCESS_MODE_UPDATE ∧
          s.rctx.streaming_mode = true)) :=
  C24_update_access_modes toy_hash core_ex sha256_alg tctx_zero fw_zero rctx_zero env_ok
    [(env_ok, List.replicate 70 1), (env_ok, List.replicate 70 2),
      (env_ok, List.replicate 60 3)]
    sha256_valid rfl env_ok_ok
    (by simp [steps_ok, env_ok_ok, U32_MOD, HSE_AHASH_MAX_BLOCK_SIZE])

/-- C25 (divergence): `hse_ahash_import` of a state that is not streaming leaves
`rctx->srv_desc` as it finds it. The START descriptor submitted by the next
`hse_ahash_update` sets the stream slot, the algorithm, the input address and
the input length, and its `hash_len` and `hash` fields hold whatever the
descriptor of the request held before the import. -/
theorem C25_start_after_import (core : hse_core) (env_import env : hse_env)
    (alg : hse_ahash_alg) (tctx : hse_ahash_tfm_ctx) (rctx : hse_ahash_req_ctx)
    (st : hse_ahash_state) (data : List Nat)
    (hv : alg.valid) (hq : alg.srv_id = HSE_SRV_ID_HASH) (himport : env_import.ok)
    (henv : env.ok)
    (hst : st.streaming_mode = false) (hn : data.length ≠ 0)
    (hgt : alg.blocksize < (st.cache_idx + data.length) % U32_MOD) :
    (hse_ahash_import core env_import rctx (some st)).2.1 = 0 ∧
    (submitted_descs (hse_ahash_update env alg tctx
        (hse_ahash_import core env_import rctx (some st)).1 data).2.2).map
        (fun d => (d.srv_id, d.hash_req)) =
      [(HSE_SRV_ID_HASH,
        { access_mode := HSE_ACCESS_MODE_START
          stream_id := env_import.acquire_stream
          hash_algo := alg.alg_type
          sgt_opt := HSE_SGT_OPT_NONE
          input_len := rounddown ((st.cache_idx + data.length) % U32_MOD) alg.blocksize
          input := env.dma_map_buf.addr
          hash_len := rctx.srv_desc.hash_req.hash_len
          hash := rctx.srv_desc.hash_req.hash })] := by
  obtain ⟨_, hks, _, _, _, _, hacq, _, _⟩ := himport
  obtain ⟨hk, _, _, _, hm, _, _, ha, _⟩ := henv
  obtain ⟨p, hp⟩ := Option.isSome_iff_exists.mp hk
  have hle : ¬ (st.cache_idx + data.length) % U32_MOD ≤ alg.blocksize := Nat.not_le.mpr hgt
  have hpos : 0 < rounddown ((st.cache_idx + data.length) % U32_MOD) alg.blocksize :=
    lt_of_lt_of_le hv.2.1
      (le_rounddown ((st.cache_idx + data.length) % U32_MOD) alg.blocksize hv.2.1
        (le_of_lt hgt))
  refine ⟨by simp [hse_ahash_import, hks, hacq, hst], ?_⟩
  simp [hse_ahash_import, hse_ahash_update, update_submit, update_desc, submitted_descs,
    List.filterMap_append, hks, hacq, hst, hp, hm, ha, hq, hn, hle, hpos]

/-- C25 (divergence) on a concrete run: a SHA-256 request context that was used by
an `hse_ahash_final` (its descriptor holds `hash_len = 8200` and `hash = 8192`)
imports the idle state and is updated with 70 bytes. The START descriptor
carries `hash_len = 8200` and `hash = 8192`. -/
theorem C25_start_after_import_witness :
    (submitted_descs (hse_ahash_update env_ok sha256_alg tctx_zero
        (hse_ahash_import core_ex env_ok
          (hse_ahash_final core_ex env_ok sha256_alg tctx_zero rctx_cached).1
          (some state_idle)).1 (List.replicate 70 1)).2.2).map
        (fun d => (d.hash_req.access_mode, d.hash_req.hash_len, d.hash_req.hash)) =
      [(HSE_ACCESS_MODE_START, 8200, 8192)] := by
  have h := (C25_start_after_import core_ex env_ok env_ok sha256_alg tctx_zero
    (hse_ahash_final core_ex env_ok sha256_alg tctx_zero rctx_cached).1 state_idle
    (List.replicate 70 1) sha256_valid rfl env_ok_ok env_ok_ok rfl
    (by decide) (by set_option maxRecDepth 100000 in decide)).2
  have hf : (hse_ahash_final core_ex env_ok sha256_alg tctx_zero rctx_cached).1.srv_desc.hash_req.hash_len
      = 8200 ∧
      (hse_ahash_final core_ex env_ok sha256_alg tctx_zero rctx_cached).1.srv_desc.hash_req.hash
      = 8192 := by
    constructor <;> set_option maxRecDepth 100000 in decide
  have hmap := congrArg (List.map (fun q : Nat × hse_hash_srv =>
    (q.2.access_mode, q.2.hash_len, q.2.hash))) h
  simpa [List.map_map, Function.comp, hf.1, hf.2] using hmap

/-- C26: for an `hse_ahash_update` call whose descriptor is accepted (the call
returns `-EINPROGRESS`), with `full` the input rounded down to whole blocks: a
new linear buffer is allocated exactly when `buflen < full`, the old one being
freed first when there was one, and afterwards `buflen` is `max(buflen, full)`.
Over a sequence of successful updates with their completions `buflen` never
decreases. -/
theorem C26_buffer_growth (H : List Nat → List Nat) (alg : hse_ahash_alg)
    (tctx : hse_ahash_tfm_ctx) (env : hse_env) (rctx : hse_ahash_req_ctx) (data : List Nat)
    (hv : alg.valid) (hasync : env.srv_req_async = 0)
    (hret : (hse_ahash_update env alg tctx rctx data).2.1 = -EINPROGRESS) :
    (hse_ahash_update env alg tctx rctx data).1.buflen =
      max rctx.buflen (rounddown ((rctx.cache_idx + data.length) % U32_MOD) alg.blocksize) ∧
    (allocated (hse_ahash_update env alg tctx rctx data).2.2 ≠ [] ↔
      rctx.buflen < rounddown ((rctx.cache_idx + data.length) % U32_MOD) alg.blocksize) ∧
    allocated (hse_ahash_update env alg tctx rctx data).2.2 =
      (if rctx.buflen < rounddown ((rctx.cache_idx + data.length) % U32_MOD) alg.blocksize
       then [(hse_ahash_update env alg tctx rctx data).1.buf] else []) ∧
    freed (hse_ahash_update env alg tctx rctx data).2.2 =
      (if rctx.buflen < rounddown ((rctx.cache_idx + data.length) % U32_MOD) alg.blocksize ∧
          rctx.buflen ≠ 0 then [rctx.buf] else []) ∧
    (∀ (steps : List (hse_env × List Nat)) (s s1 : run_state),
      (∀ st ∈ steps, st.1.srv_req_async = 0) →
      run_updates H alg tctx s steps = some s1 → s.rctx.buflen ≤ s1.rctx.buflen) := by
  obtain ⟨_, _, hbl, _, _, _, hal, hfr⟩ := update_pending env alg tctx rctx data hv hasync hret
  refine ⟨hbl, ?_, hal, hfr, fun steps s s1 => run_updates_buflen H alg tctx hv steps s s1⟩
  rw [hal]
  by_cases hb : rctx.buflen <
      rounddown ((rctx.cache_idx + data.length) % U32_MOD) alg.blocksize <;> simp [hb]

/-- C26, instance: on the streaming SHA-256 request `rctx_streaming` (8 bytes
cached, no buffer yet) an update of 70 bytes allocates a 64-byte buffer. -/
theorem C26_buffer_growth_witness :
    (hse_ahash_update env_ok sha256_alg tctx_zero rctx_streaming
      (List.replicate 70 1)).1.buflen = 64 ∧
    allocated (hse_ahash_update env_ok sha256_alg tctx_zero rctx_streaming
      (List.replicate 70 1)).2.2 = [4096] :=
  ⟨(C26_buffer_growth toy_hash sha256_alg tctx_zero env_ok rctx_streaming
      (List.replicate 70 1) sha256_valid rfl
      (by set_option maxRecDepth 100000 in decide)).1.trans
        (by set_option maxRecDepth 100000 in decide),
   (C26_buffer_growth toy_hash sha256_alg tctx_zero env_ok rctx_streaming
      (List.replicate 70 1) sha256_valid rfl
      (by set_option maxRecDepth 100000 in decide)).2.2.1.trans
        (by set_option maxRecDepth 100000 in decide)⟩

theorem memcpy_length_eq (dst src : List Nat) (off n : Nat) :
    (memcpy dst off src n).length =
      min off dst.length + min n src.length + (dst.length - (off + n)) := by
  unfold memcpy
  simp only [List.length_append, List.length_take, List.length_drop]

theorem finup_fresh_buffer (core : hse_core) (env : hse_env) (alg : hse_ahash_alg)
    (tctx : hse_ahash_tfm_ctx) (rctx : hse_ahash_req_ctx) (data : List Nat)
    (henv : env.ok) (hb : rctx.buflen = 0) :
    (hse_ahash_finup core env alg tctx rctx data).2.1 = -EINPROGRESS ∧
    (hse_ahash_finup core env alg tctx rctx data).1.buflen =
      max ((rctx.cache_idx + data.length) % U32_MOD) alg.blocksize ∧
    (hse_ahash_finup core env alg tctx rctx data).1.buf_mem =
      scatterwalk_map_and_copy
        (memcpy (List.replicate (max ((rctx.cache_idx + data.length) % U32_MOD)
          alg.blocksize) 0) 0 rctx.cache rctx.cache_idx)
        rctx.cache_idx data 0 data.length ∧
    (submitted_lens alg (hse_ahash_finup core env alg tctx rctx data).2.2).length = 1 := by
  obtain ⟨hk, _, hr, ho, hm, _, _, ha, _⟩ := henv
  obtain ⟨p, hp⟩ := Option.isSome_iff_exists.mp hk
  refine ⟨?_, ?_, ?_, ?_⟩ <;>
    rcases hs : rctx.streaming_mode <;>
    simp [hse_ahash_finup, finup_submit, submitted_lens, List.filterMap_append,
      hp, hr, ho, hm, ha, hb, hs]

/-- C27 (divergence): in `hse_ahash_finup` the size of the linear buffer is taken
from `bytes_left`, the sum of the cache fill and the request length reduced
modulo `2^32`. When the sum reaches `2^32` on a request without a buffer, the
buffer allocated has the block size, and the call copies `cache_idx` bytes of
the cache followed by all `nbytes` bytes of the request into it and submits the
descriptor: the bytes copied exceed `buflen`. The hypotheses say that the cache
fill is at most the block size and `nbytes` is a value of its C type. -/
theorem C27_finup_copy_exceeds_buffer (core : hse_core) (env : hse_env)
    (alg : hse_ahash_alg) (tctx : hse_ahash_tfm_ctx) (rctx : hse_ahash_req_ctx)
    (data : List Nat)
    (hv : alg.valid) (henv : env.ok) (hb : rctx.buflen = 0)
    (hcache : rctx.cache.length = HSE_AHASH_MAX_BLOCK_SIZE)
    (hci : rctx.cache_idx ≤ alg.blocksize) (hlen : data.length < U32_MOD)
    (hwrap : U32_MOD ≤ rctx.cache_idx + data.length) :
    (hse_ahash_finup core env alg tctx rctx data).2.1 = -EINPROGRESS ∧
    (hse_ahash_finup core env alg tctx rctx data).1.buflen = alg.blocksize ∧
    (hse_ahash_finup core env alg tctx rctx data).1.buf_mem.length =
      rctx.cache_idx + data.length ∧
    (hse_ahash_finup core env alg tctx rctx data).1.buflen <
      rctx.cache_idx + data.length := by
  have h128 : HSE_AHASH_MAX_BLOCK_SIZE = 128 := rfl
  have hbs := hv.2.2
  have hwrap1 : 4294967296 ≤ rctx.cache_idx + data.length := hwrap
  have hlen1 : data.length < 4294967296 := hlen
  have hmod : (rctx.cache_idx + data.length) % U32_MOD ≤ alg.blocksize := by
    show (rctx.cache_idx + data.length) % 4294967296 ≤ alg.blocksize
    omega
  have hmax : max ((rctx.cache_idx + data.length) % U32_MOD) alg.blocksize =
      alg.blocksize := max_eq_right hmod
  obtain ⟨f1, f2, f3, _⟩ := finup_fresh_buffer core env alg tctx rctx data henv hb
  rw [hmax] at f2 f3
  have hl : (hse_ahash_finup core env alg tctx rctx data).1.buf_mem.length =
      rctx.cache_idx + data.length := by
    rw [f3]
    simp only [scatterwalk_map_and_copy, memcpy_length_eq, List.length_replicate,
      List.drop_zero, hcache]
    omega
  exact ⟨f1, f2, hl, by rw [f2]; omega⟩

/-- C27 (divergence) on a concrete input: SHA-256 request with 10 bytes in the
cache and no buffer, `hse_ahash_finup` with a request of `2^32 - 10` bytes. The
buffer allocated has 64 bytes. -/
theorem C27_finup_copy_exceeds_buffer_witness :
    (hse_ahash_finup core_ex env_ok sha256_alg tctx_zero rctx_cached
      (List.replicate 4294967286 0)).1.buflen = sha256_alg.blocksize ∧
    (hse_ahash_finup core_ex env_ok sha256_alg tctx_zero rctx_cached
      (List.replicate 4294967286 0)).1.buflen <
        rctx_cached.cache_idx + (List.replicate 4294967286 0).length :=
  ⟨(C27_finup_copy_exceeds_buffer core_ex env_ok sha256_alg tctx_zero rctx_cached
      (List.replicate 4294967286 0) sha256_valid env_ok_ok rfl rfl (by decide)
      (by rw [List.length_replicate]; decide)
      (by rw [List.length_replicate]; decide)).2.1,
   (C27_finup_copy_exceeds_buffer core_ex env_ok sha256_alg tctx_zero rctx_cached
      (List.replicate 4294967286 0) sha256_valid env_ok_ok rfl rfl (by decide)
      (by rw [List.length_replicate]; decide)
      (by rw [List.length_replicate]; decide)).2.2.2⟩

/-- C28 (divergence): `hse_ahash_import` takes the fill count of the state as it
is. With every call succeeding it returns 0, the length passed to the `memcpy`
into the cache of the request is `state->cache_idx`, and the request is left with
`cache_idx = state->cache_idx`, whatever that value is: no comparison with the
block size or with the 128 bytes of the cache arrays is made. -/
theorem C28_import_takes_cache_idx (core : hse_core) (env : hse_env)
    (rctx : hse_ahash_req_ctx) (st : hse_ahash_state) (henv : env.ok) :
    (hse_ahash_import core env rctx (some st)).2.1 = 0 ∧
    (hse_ahash_import core env rctx (some st)).1.cache_idx = st.cache_idx ∧
    (hse_ahash_import core env rctx (some st)).1.cache =
      memcpy rctx.cache 0 st.cache st.cache_idx := by
  obtain ⟨_, hks, _, _, _, hm, hacq, _, hsync⟩ := henv
  rcases hs : st.streaming_mode <;>
    simp [hse_ahash_import, hks, hacq, hm, hsync, hs]

/-- C28 (divergence) on a concrete input: importing a state whose `cache_idx` is
200 into a SHA-256 request (block size 64) succeeds and leaves the request with
`cache_idx = 200`, more than the 128 bytes of the cache. -/
theorem C28_import_takes_cache_idx_witness :
    state_long_cache.cache_idx < U8_MOD ∧
    (hse_ahash_import core_ex env_ok rctx_zero (some state_long_cache)).2.1 = 0 ∧
    (hse_ahash_import core_ex env_ok rctx_zero (some state_long_cache)).1.cache_idx = 200 ∧
    HSE_AHASH_MAX_BLOCK_SIZE <
      (hse_ahash_import core_ex env_ok rctx_zero (some state_long_cache)).1.cache_idx ∧
    sha256_alg.blocksize <
      (hse_ahash_import core_ex env_ok rctx_zero (some state_long_cache)).1.cache_idx :=
  ⟨by decide,
   (C28_import_takes_cache_idx core_ex env_ok rctx_zero state_long_cache env_ok_ok).1,
   (C28_import_takes_cache_idx core_ex env_ok rctx_zero state_long_cache env_ok_ok).2.1,
   by rw [(C28_import_takes_cache_idx core_ex env_ok rctx_zero state_long_cache
      env_ok_ok).2.1]; decide,
   by rw [(C28_import_takes_cache_idx core_ex env_ok rctx_zero state_long_cache
      env_ok_ok).2.1]; decide⟩

/-- C29 (divergence): on a request that holds no linear buffer (`buflen = 0`),
(1) when mapping the result buffer fails, `hse_ahash_final` releases the channel
and then calls `dma_unmap_single` on `buf_dma` with length 0 and `kfree` on the
pointer left in `rctx->buf`; (2) when `kzalloc` of the linear buffer fails,
`hse_ahash_final` and `hse_ahash_finup` call `dma_unmap_single` on the address
left in `rctx->buf_dma`, with the size of the buffer that was not obtained, and
`kfree` on the null pointer. In each case `buflen` is 0 on return. -/
theorem C29_error_exit_frees_without_buffer (core : hse_core) (env : hse_env)
    (alg : hse_ahash_alg) (tctx : hse_ahash_tfm_ctx) (rctx : hse_ahash_req_ctx)
    (data : List Nat) (hv : alg.valid) (hb : rctx.buflen = 0) :
    (env.dma_map_result.error = true →
      (hse_ahash_final core env alg tctx rctx).2.1 = -ENOMEM ∧
      (hse_ahash_final core env alg tctx rctx).1.buflen = 0 ∧
      (hse_ahash_final core env alg tctx rctx).2.2 =
        [hse_event.channel_release rctx.channel,
         hse_event.dma_unmap_single rctx.buf_dma 0,
         hse_event.kfree rctx.buf]) ∧
    (env.dma_map_result.error = false → env.dma_map_outlen.error = false →
      env.kzalloc_buf = none →
      (hse_ahash_final core env alg tctx rctx).2.1 = -ENOMEM ∧
      (hse_ahash_final core env alg tctx rctx).1.buflen = 0 ∧
      (hse_ahash_final core env alg tctx rctx).2.2 =
        [hse_event.dma_map_single env.dma_map_result.addr alg.digestsize,
         hse_event.dma_map_single env.dma_map_outlen.addr SIZEOF_OUTLEN,
         hse_event.dma_unmap_single env.dma_map_outlen.addr SIZEOF_OUTLEN,
         hse_event.dma_unmap_single env.dma_map_result.addr alg.digestsize,
         hse_event.channel_release rctx.channel,
         hse_event.dma_unmap_single rctx.buf_dma (max rctx.cache_idx alg.blocksize),
         hse_event.kfree 0] ∧
      (hse_ahash_finup core env alg tctx rctx data).2.1 = -ENOMEM ∧
      (hse_ahash_finup core env alg tctx rctx data).1.buflen = 0 ∧
      (hse_ahash_finup core env alg tctx rctx data).2.2 =
        [hse_event.dma_map_single env.dma_map_result.addr alg.digestsize,
         hse_event.dma_map_single env.dma_map_outlen.addr SIZEOF_OUTLEN,
         hse_event.dma_unmap_single env.dma_map_outlen.addr SIZEOF_OUTLEN,
         hse_event.dma_unmap_single env.dma_map_result.addr alg.digestsize,
         hse_event.channel_release rctx.channel,
         hse_event.dma_unmap_single rctx.buf_dma
           (max ((rctx.cache_idx + data.length) % U32_MOD) alg.blocksize),
         hse_event.kfree 0]) := by
  have hbs := hv.2.1
  refine ⟨?_, ?_⟩
  · intro hr
    simp [hse_ahash_final, final_err, hr, hb]
  · intro hr ho hk
    have hmax : ¬ (alg.blocksize = 0) := by omega
    refine ⟨?_, ?_, ?_, ?_, ?_, ?_⟩ <;>
      simp [hse_ahash_final, final_err, hse_ahash_finup, finup_err, release_channel_and_buf,
        hr, ho, hk, hb, hmax]

/-- C29 (divergence) on a concrete run: a SHA-256 request whose START descriptor
completed with an error (`hse_ahash_done` freed buffer 4096 and set
`buflen = 0`) calls `hse_ahash_final` while mapping the result buffer fails.
Buffer 4096, allocated once, is passed to `kfree` a second time. -/
theorem C29_error_exit_frees_without_buffer_witness :
    (hse_ahash_done sha256_alg (-5) rctx_started).1.buflen = 0 ∧
    allocated trace_started = [4096] ∧
    freed (hse_ahash_done sha256_alg (-5) rctx_started).2.2 = [4096] ∧
    (hse_ahash_final core_ex env_map_result_fails sha256_alg tctx_zero
      (hse_ahash_done sha256_alg (-5) rctx_started).1).2.2 =
      [hse_event.channel_release 1, hse_event.dma_unmap_single 12288 0,
       hse_event.kfree 4096] :=
  ⟨by set_option maxRecDepth 100000 in decide,
   by set_option maxRecDepth 100000 in decide,
   by set_option maxRecDepth 100000 in decide,
   ((C29_error_exit_frees_without_buffer core_ex env_map_result_fails sha256_alg tctx_zero
      (hse_ahash_done sha256_alg (-5) rctx_started).1 [] sha256_valid
      (by set_option maxRecDepth 100000 in decide)).1 rfl).2.2.trans
    (by set_option maxRecDepth 100000 in decide)⟩

/-- C30 (divergence): when the sum of the cache fill and the request length
reaches `2^32`, `bytes_left` holds the sum reduced modulo `2^32`. If that value
is at most the block size, `hse_ahash_update` takes the cache-only path although
the true sum exceeds the block size: it returns 0 without submitting anything,
copies all `nbytes` bytes of the request to the cache at offset `cache_idx`, and
stores the reduced sum as the new `cache_idx`. The hypotheses say that
`cache_idx` and `nbytes` are values of their C types. -/
theorem C30_sub_block_test_wraps (env : hse_env) (alg : hse_ahash_alg)
    (tctx : hse_ahash_tfm_ctx) (rctx : hse_ahash_req_ctx) (data : List Nat)
    (hv : alg.valid) (hci : rctx.cache_idx < U8_MOD) (hlen : data.length < U32_MOD)
    (hwrap : U32_MOD ≤ rctx.cache_idx + data.length)
    (hsmall : rctx.cache_idx + data.length - U32_MOD ≤ alg.blocksize) :
    alg.blocksize < rctx.cache_idx + data.length ∧
    (rctx.cache_idx + data.length) % U32_MOD ≤ alg.blocksize ∧
    (hse_ahash_update env alg tctx rctx data).2.1 = 0 ∧
    (hse_ahash_update env alg tctx rctx data).2.2 = [] ∧
    (hse_ahash_update env alg tctx rctx data).1.cache_idx =
      rctx.cache_idx + data.length - U32_MOD ∧
    (hse_ahash_update env alg tctx rctx data).1.cache =
      scatterwalk_map_and_copy rctx.cache rctx.cache_idx data 0 data.length := by
  have h128 : HSE_AHASH_MAX_BLOCK_SIZE = 128 := rfl
  have hbs := hv.2.2
  have hwrap1 : 4294967296 ≤ rctx.cache_idx + data.length := hwrap
  have hsmall1 : rctx.cache_idx + data.length - 4294967296 ≤ alg.blocksize := hsmall
  have hlen1 : data.length < 4294967296 := hlen
  have hci1 : rctx.cache_idx < 256 := hci
  have hmod : (rctx.cache_idx + data.length) % U32_MOD =
      rctx.cache_idx + data.length - U32_MOD := by
    show (rctx.cache_idx + data.length) % 4294967296 =
      rctx.cache_idx + data.length - 4294967296
    omega
  have hn : data.length ≠ 0 := by
    clear hmod
    omega
  have hle : (rctx.cache_idx + data.length) % U32_MOD ≤ alg.blocksize := by
    rw [hmod]; exact hsmall
  have hmod8 : (rctx.cache_idx + data.length - U32_MOD) % U8_MOD =
      rctx.cache_idx + data.length - U32_MOD := by
    show (rctx.cache_idx + data.length - 4294967296) % 256 =
      rctx.cache_idx + data.length - 4294967296
    omega
  refine ⟨by omega, hle, ?_, ?_, ?_, ?_⟩ <;>
    simp only [hse_ahash_update, hn, hle, if_true, if_false]
  rw [hmod, hmod8]

/-- C30 (divergence) on a concrete input: SHA-256 request with 10 bytes in the
cache and a request of `2^32 - 10` bytes. `bytes_left` is 0, so the call takes
the cache-only path and returns 0 with `cache_idx = 0`. -/
theorem C30_sub_block_test_wraps_witness :
    sha256_alg.blocksize <
      rctx_cached.cache_idx + (List.replicate 4294967286 0).length ∧
    (hse_ahash_update env_ok sha256_alg tctx_zero rctx_cached
      (List.replicate 4294967286 0)).2.1 = 0 ∧
    (hse_ahash_update env_ok sha256_alg tctx_zero rctx_cached
      (List.replicate 4294967286 0)).2.2 = [] ∧
    (hse_ahash_update env_ok sha256_alg tctx_zero rctx_cached
      (List.replicate 4294967286 0)).1.cache_idx =
        rctx_cached.cache_idx + (List.replicate 4294967286 0).length - U32_MOD :=
  ⟨(C30_sub_block_test_wraps env_ok sha256_alg tctx_zero rctx_cached
      (List.replicate 4294967286 0) sha256_valid (by decide)
      (by rw [List.length_replicate]; decide) (by rw [List.length_replicate]; decide)
      (by rw [List.length_replicate]; decide)).1,
   (C30_sub_block_test_wraps env_ok sha256_alg tctx_zero rctx_cached
      (List.replicate 4294967286 0) sha256_valid (by decide)
      (by rw [List.length_replicate]; decide) (by rw [List.length_replicate]; decide)
      (by rw [List.length_replicate]; decide)).2.2.1,
   (C30_sub_block_test_wraps env_ok sha256_alg tctx_zero rctx_cached
      (List.replicate 4294967286 0) sha256_valid (by decide)
      (by rw [List.length_replicate]; decide) (by rw [List.length_replicate]; decide)
      (by rw [List.length_replicate]; decide)).2.2.2.1,
   (C30_sub_block_test_wraps env_ok sha256_alg tctx_zero rctx_cached
      (List.replicate 4294967286 0) sha256_valid (by decide)
      (by rw [List.length_replicate]; decide) (by rw [List.length_replicate]; decide)
      (by rw [List.length_replicate]; decide)).2.2.2.2.1⟩

end Hse
